import Mathlib

/-!
# qmlplotting: XY plot rendering core and float texture

A shallow embedding of `src/qmlplotting/xyplot.cpp` and `src/qsgfloattexture.cpp`.

Conventions of the embedding:

* C++ `double` and GL `float` values are elements of one ordered field `R`
  (exact arithmetic). The operations of the C++ runtime that are not field
  operations are the fields of `Numerics R`: the narrowing conversion
  `static_cast<float>`, `std::log10`, `sin`, `cos` and the constant `M_PI`.
  `Numerics.exact` interprets them over the real numbers.
* An IEEE not-a-number is an element `x` of `R` with `ops.isNaN x`. The guards `!=` of
  the setters compare `double` values through `Numerics.ne`, which holds whenever an
  operand is not-a-number; arithmetic on a not-a-number is not modelled.
* C++ `int` is `Int` (signed overflow is undefined behaviour and is not modelled);
  a conversion to `unsigned int` is an explicit `% 2 ^ 32`.
* A raw pointer into an array (`double*`, `float*`) is the function from
  offsets to the values stored behind it; a store `p[j] = v` is `Function.update`.
* Calls into Qt or OpenGL that only have an effect outside the object are
  recorded in a trace (`Effect`, `Call`).
-/

namespace QmlPlotting

/-! ## Numeric primitives and loops -/

/-- The non-field numeric primitives used by the sources. -/
structure Numerics (R : Type) where
  /-- The conversion `static_cast<float>(double)`, also implicit in `float = double`. -/
  toFloat : R → R
  /-- The function `std::log10`. -/
  log10 : R → R
  /-- The function `sin` of `<cmath>`. -/
  sin : R → R
  /-- The function `cos` of `<cmath>`. -/
  cos : R → R
  /-- The constant `M_PI`. -/
  M_PI : R
  /-- The value read from storage that was allocated and not yet written. -/
  uninit : R
  /-- The values that are an IEEE not-a-number. -/
  isNaN : R → Bool

/-- The comparison `a != b` of two `double` values: it holds when the values differ and
whenever one of them is not-a-number (so also between a not-a-number and itself). -/
def Numerics.ne {R : Type} [DecidableEq R] (ops : Numerics R) (a b : R) : Bool :=
  ops.isNaN a || ops.isNaN b || decide (a ≠ b)

/-- Exact arithmetic over the reals: no rounding, the real `log10`, `sin`, `cos`, `π`,
and no not-a-number. -/
noncomputable def Numerics.exact : Numerics ℝ where
  toFloat := id
  log10 := Real.logb 10
  sin := Real.sin
  cos := Real.cos
  M_PI := Real.pi
  uninit := 0
  isNaN := fun _ => false

/-- Exact arithmetic over the reals with one not-a-number: the element `nan` of the
carrier stands for the IEEE NaN. -/
noncomputable def Numerics.exactWithNaN (nan : ℝ) : Numerics ℝ :=
  { Numerics.exact with isNaN := fun x => decide (x = nan) }

/-- The loop `for (int i = 0; i < n; ++i) body(i)` acting on the loop state `s`. -/
def forLoop {σ : Type} (n : Int) (body : Nat → σ → σ) (s : σ) : σ :=
  (List.range n.toNat).foldl (fun acc i => body i acc) s

/-! ## Qt value types -/

/-- Qt `QPointF`. -/
structure QPointF (R : Type) where
  xp : R
  yp : R
deriving DecidableEq

/-- Qt `QSizeF`. -/
structure QSizeF (R : Type) where
  wd : R
  ht : R
deriving DecidableEq

/-- Qt `QRectF`: `left() = xp`, `top() = yp`, `width() = w`, `height() = h`. -/
structure QRectF (R : Type) where
  xp : R
  yp : R
  w : R
  h : R
deriving DecidableEq

/-- Some coordinate of the rectangle is not-a-number. -/
def QRectF.hasNaN {R : Type} (ops : Numerics R) (r : QRectF R) : Bool :=
  ops.isNaN r.xp || ops.isNaN r.yp || ops.isNaN r.w || ops.isNaN r.h

/-- Qt `operator!=` of two `QRectF`: some coordinate of the one compares unequal, as a
`double`, to the same coordinate of the other. -/
def QRectF.ne {R : Type} [DecidableEq R] (ops : Numerics R) (a b : QRectF R) : Bool :=
  ops.ne a.xp b.xp || ops.ne a.yp b.yp || ops.ne a.w b.w || ops.ne a.h b.h

/-- Qt `QColor`: colour spec and 16-bit components. -/
structure QColor where
  cspec : Nat
  alpha : Nat
  red : Nat
  green : Nat
  blue : Nat
deriving DecidableEq

/-- The default-constructed (invalid) `QColor()`. -/
def QColor.invalid : QColor := ⟨0, 65535, 0, 0, 0⟩

/-- `QColor::alphaF()`. -/
def QColor.alphaF {R : Type} [LinearOrderedField R] (c : QColor) : R := (c.alpha : R) / 65535

/-! ## Data source (`datasource.h`) -/

/-- Class `DataSource`: the raw sample pointer and the declared dimensions. -/
structure DataSource (R : Type) where
  m_data : Nat → R
  m_width : Int
  m_height : Int

/-- `DataSource::dataWidth`. -/
def DataSource.dataWidth {R : Type} (s : DataSource R) : Int := s.m_width

/-- `DataSource::dataHeight`. -/
def DataSource.dataHeight {R : Type} (s : DataSource R) : Int := s.m_height

/-- `DataSource::data`. -/
def DataSource.data {R : Type} (s : DataSource R) : Nat → R := s.m_data

/-! ## Plot item state and setters (`xyplot.cpp`, lines 328-435) -/

/-- The change notifications (Qt signals) of `XYPlot`. -/
inductive Signal (R : Type) where
  | viewRectChanged (r : QRectF R)
  | fillEnabledChanged (b : Bool)
  | fillColorChanged (c : QColor)
  | lineEnabledChanged (b : Bool)
  | lineWidthChanged (w : R)
  | lineColorChanged (c : QColor)
  | markerEnabledChanged (b : Bool)
  | markerSegmentsChanged (n : Int)
  | markerSizeChanged (s : R)
  | markerColorChanged (c : QColor)
  | markerBorderChanged (b : Bool)
  | logYChanged (b : Bool)
deriving DecidableEq

/-- Class `XYPlot` with the members it inherits from `DataClient` (`m_source`,
`m_new_source`, `m_new_data`) and `QQuickItem` (`width`, `height`). The signals
emitted so far are collected in `emitted`, the number of `update()` calls
(repaint requests) in `updates`. -/
structure XYPlot (R : Type) where
  m_source : Option (DataSource R)
  m_new_source : Bool
  m_new_data : Bool
  m_view_rect : QRectF R
  m_fill : Bool
  m_fillcolor : QColor
  m_line : Bool
  m_linewidth : R
  m_linecolor : QColor
  m_marker : Bool
  m_markersegments : Int
  m_markersize : R
  m_markercolor : QColor
  m_markerborder : Bool
  m_logy : Bool
  width : R
  height : R
  emitted : List (Signal R)
  updates : Nat

section Setters

variable {R : Type} [LinearOrderedField R]

/-- The statement `emit sig;`. -/
def XYPlot.emit (p : XYPlot R) (sig : Signal R) : XYPlot R :=
  { p with emitted := p.emitted ++ [sig] }

/-- The call `update();` of `QQuickItem`: schedules a repaint. -/
def XYPlot.update (p : XYPlot R) : XYPlot R :=
  { p with updates := p.updates + 1 }

/-- `XYPlot::setViewRect`. -/
def XYPlot.setViewRect (ops : Numerics R) (p : XYPlot R) (viewrect : QRectF R) : XYPlot R :=
  if QRectF.ne ops viewrect p.m_view_rect then
    let p := { p with m_view_rect := viewrect }
    let p := p.emit (.viewRectChanged p.m_view_rect)
    p.update
  else p

/-- `XYPlot::setFillEnabled`. -/
def XYPlot.setFillEnabled (p : XYPlot R) (enabled : Bool) : XYPlot R :=
  if p.m_fill ≠ enabled then
    let p := { p with m_fill := enabled }
    let p := p.emit (.fillEnabledChanged p.m_fill)
    p.update
  else p

/-- `XYPlot::setFillColor`. -/
def XYPlot.setFillColor (p : XYPlot R) (color : QColor) : XYPlot R :=
  if p.m_fillcolor ≠ color then
    let p := { p with m_fillcolor := color }
    let p := p.emit (.fillColorChanged p.m_fillcolor)
    p.update
  else p

/-- `XYPlot::setLineEnabled`. -/
def XYPlot.setLineEnabled (p : XYPlot R) (enabled : Bool) : XYPlot R :=
  if p.m_line ≠ enabled then
    let p := { p with m_line := enabled }
    let p := p.emit (.lineEnabledChanged p.m_line)
    p.update
  else p

/-- `XYPlot::setLineWidth`. -/
def XYPlot.setLineWidth (ops : Numerics R) (p : XYPlot R) (width : R) : XYPlot R :=
  if ops.ne p.m_linewidth width then
    let p := { p with m_linewidth := width }
    let p := p.emit (.lineWidthChanged p.m_linewidth)
    p.update
  else p

/-- `XYPlot::setLineColor`. -/
def XYPlot.setLineColor (p : XYPlot R) (color : QColor) : XYPlot R :=
  if p.m_linecolor ≠ color then
    let p := { p with m_linecolor := color }
    let p := p.emit (.lineColorChanged p.m_linecolor)
    p.update
  else p

/-- `XYPlot::setMarkerEnabled`; the source emits `lineEnabledChanged(m_marker)`. -/
def XYPlot.setMarkerEnabled (p : XYPlot R) (enabled : Bool) : XYPlot R :=
  if p.m_marker ≠ enabled then
    let p := { p with m_marker := enabled }
    let p := p.emit (.lineEnabledChanged p.m_marker)
    p.update
  else p

/-- `XYPlot::setMarkerSegments`. -/
def XYPlot.setMarkerSegments (p : XYPlot R) (n : Int) : XYPlot R :=
  if p.m_markersegments ≠ n then
    let p := { p with m_markersegments := n }
    let p := p.emit (.markerSegmentsChanged p.m_markersegments)
    p.update
  else p

/-- `XYPlot::setMarkerSize`. -/
def XYPlot.setMarkerSize (ops : Numerics R) (p : XYPlot R) (size : R) : XYPlot R :=
  if ops.ne p.m_markersize size then
    let p := { p with m_markersize := size }
    let p := p.emit (.markerSizeChanged p.m_markersize)
    p.update
  else p

/-- `XYPlot::setMarkerColor`. -/
def XYPlot.setMarkerColor (p : XYPlot R) (color : QColor) : XYPlot R :=
  if p.m_markercolor ≠ color then
    let p := { p with m_markercolor := color }
    let p := p.emit (.markerColorChanged p.m_markercolor)
    p.update
  else p

/-- `XYPlot::setMarkerBorder`. -/
def XYPlot.setMarkerBorder (p : XYPlot R) (enabled : Bool) : XYPlot R :=
  if p.m_markerborder ≠ enabled then
    let p := { p with m_markerborder := enabled }
    let p := p.emit (.markerBorderChanged p.m_markerborder)
    p.update
  else p

/-- `XYPlot::setLogY`. -/
def XYPlot.setLogY (p : XYPlot R) (enabled : Bool) : XYPlot R :=
  if p.m_logy ≠ enabled then
    let p := { p with m_logy := enabled }
    let p := p.emit (.logYChanged p.m_logy)
    let p := { p with m_new_data := true }
    p.update
  else p

end Setters

/-! ## Scene-graph nodes (`xyplot.cpp`, lines 20-37, 137-149, 230-242, 438-504) -/

/-- Qt `QSGGeometry` with `defaultAttributes_Point2D()`: vertex `i` occupies the
floats `2*i` and `2*i+1` of `vertexData()`. -/
structure QSGGeometry (R : Type) where
  m_vertex_count : Int
  m_data : Nat → R
  m_line_width : R

/-- `QSGGeometry::vertexCount`. -/
def QSGGeometry.vertexCount {R : Type} (g : QSGGeometry R) : Int := g.m_vertex_count

/-- `QSGGeometry::vertexData`. -/
def QSGGeometry.vertexData {R : Type} (g : QSGGeometry R) : Nat → R := g.m_data

/-- Vertex `i` of a `Point2D` geometry. -/
def QSGGeometry.vertex {R : Type} (g : QSGGeometry R) (i : Nat) : R × R :=
  (g.m_data (2 * i), g.m_data (2 * i + 1))

/-- `QSGGeometry::allocate(vertexCount)`: new storage, contents not yet written. -/
def QSGGeometry.allocate {R : Type} (ops : Numerics R) (g : QSGGeometry R) (vertexCount : Int) :
    QSGGeometry R :=
  { g with m_vertex_count := vertexCount, m_data := fun _ => ops.uninit }

/-- The geometry `new QSGGeometry(QSGGeometry::defaultAttributes_Point2D(), 0)`. -/
def QSGGeometry.new {R : Type} [LinearOrderedField R] (ops : Numerics R) : QSGGeometry R :=
  { m_vertex_count := 0, m_data := fun _ => ops.uninit, m_line_width := 1 }

/-- One painter command issued by `paintPolygon`. -/
inductive PaintOp (R : Type) where
  | setPenNoPen
  | setBrushWhite
  | drawConvexPolygon (points : List (QPointF R)) (pointCount : Int)
  | drawEllipse (x y w h : Int)
deriving DecidableEq

/-- Qt `QImage` as far as the sources use it: its size, the pixel value of the last
`fill`, and the painter commands drawn into it since. -/
structure QImage (R : Type) where
  width : Int
  height : Int
  filled : Option Nat
  painted : List (PaintOp R)
deriving DecidableEq

/-- Modelled from the spec: class `QSGDataTexture<uint8_t>` of `qsgdatatexture.h`, the
cached marker glyph raster. `allocateData2D(w, h, c)` stores the dimensions and the
component count and hands out the pixel buffer, `commitData()` marks it for upload. -/
structure QSGDataTexture (R : Type) where
  m_dims : List Int
  m_num_components : Int
  m_image : Option (QImage R)
  m_needs_upload : Bool
deriving DecidableEq

/-- The default-constructed marker texture. -/
def QSGDataTexture.new {R : Type} : QSGDataTexture R := ⟨[], 0, none, false⟩

/-- Class `XYFillMaterial`; `blending` is the flag `QSGMaterial::Blending`. -/
structure XYFillMaterial (R : Type) where
  m_size : QSizeF R
  m_scale : QSizeF R
  m_offset : QPointF R
  m_color : QColor
  blending : Bool
deriving DecidableEq

/-- Class `XYLineMaterial`; `blending` is the flag `QSGMaterial::Blending`. -/
structure XYLineMaterial (R : Type) where
  m_size : QSizeF R
  m_scale : QSizeF R
  m_offset : QPointF R
  m_color : QColor
  blending : Bool
deriving DecidableEq

/-- Class `XYMarkerMaterial`; `blending` is the flag `QSGMaterial::Blending`. -/
structure XYMarkerMaterial (R : Type) where
  m_size : QSizeF R
  m_scale : QSizeF R
  m_offset : QPointF R
  m_markercolor : QColor
  m_markersize : R
  m_markersegments : Int
  m_markerborder : Bool
  m_markerimage : QSGDataTexture R
  blending : Bool
deriving DecidableEq

/-- Class `FillNode`. -/
structure FillNode (R : Type) where
  geometry : QSGGeometry R
  material : XYFillMaterial R
  m_blocked : Bool
  m_data_valid : Bool

/-- Class `LineNode`. -/
structure LineNode (R : Type) where
  geometry : QSGGeometry R
  material : XYLineMaterial R
  m_blocked : Bool
  m_data_valid : Bool

/-- Class `MarkerNode`. -/
structure MarkerNode (R : Type) where
  geometry : QSGGeometry R
  material : XYMarkerMaterial R
  m_blocked : Bool
  m_data_valid : Bool

section Constructors

variable {R : Type} [LinearOrderedField R]

/-- The default-constructed `QSizeF()`. -/
def QSizeF.new : QSizeF R := ⟨-1, -1⟩

/-- The default-constructed `QPointF()`. -/
def QPointF.new : QPointF R := ⟨0, 0⟩

/-- The material `new XYFillMaterial`. -/
def XYFillMaterial.new : XYFillMaterial R :=
  ⟨QSizeF.new, QSizeF.new, QPointF.new, QColor.invalid, false⟩

/-- The material `new XYLineMaterial`. -/
def XYLineMaterial.new : XYLineMaterial R :=
  ⟨QSizeF.new, QSizeF.new, QPointF.new, QColor.invalid, false⟩

/-- The material `new XYMarkerMaterial`. -/
def XYMarkerMaterial.new : XYMarkerMaterial R :=
  ⟨QSizeF.new, QSizeF.new, QPointF.new, QColor.invalid, 0, 0, false, QSGDataTexture.new, false⟩

/-- Constructor `FillNode::FillNode`. -/
def FillNode.new (ops : Numerics R) : FillNode R :=
  { geometry := QSGGeometry.new ops, material := XYFillMaterial.new,
    m_blocked := false, m_data_valid := false }

/-- Constructor `LineNode::LineNode`. -/
def LineNode.new (ops : Numerics R) : LineNode R :=
  { geometry := QSGGeometry.new ops, material := XYLineMaterial.new,
    m_blocked := false, m_data_valid := false }

/-- Constructor `MarkerNode::MarkerNode`. -/
def MarkerNode.new (ops : Numerics R) : MarkerNode R :=
  { geometry := QSGGeometry.new ops, material := XYMarkerMaterial.new,
    m_blocked := false, m_data_valid := false }

end Constructors

/-- The three children of the root node, in child order 0, 1, 2. -/
structure Children (R : Type) where
  n_fill : FillNode R
  n_line : LineNode R
  n_marker : MarkerNode R

/-- The root `QSGNode` of the item: it has no children or the three layer nodes. -/
structure QSGNode (R : Type) where
  children : Option (Children R)

/-- `QSGNode::childCount` of the root. -/
def QSGNode.childCount {R : Type} (n : QSGNode R) : Int :=
  match n.children with
  | none => 0
  | some _ => 3

/-- Qt `QSGNode::DirtyState` restricted to the three flags the sources use. -/
structure DirtyState where
  DirtyMaterial : Bool
  DirtyGeometry : Bool
  DirtySubtreeBlocked : Bool
deriving DecidableEq

/-- The three layers. -/
inductive Layer where
  | fill
  | line
  | marker
deriving DecidableEq

/-- Effects of one `updatePaintNode` call on objects other than the plot and the
returned node tree, in program order. -/
inductive Effect where
  | newRoot
  | removeAllChildNodes
  | deleteNode (l : Layer)
  | newNode (l : Layer)
  | allocate (l : Layer) (vertexCount : Int)
  | paintMarkerImage (image_size : Int)
  | writeVertices (l : Layer)
deriving DecidableEq

/-! ## Marker glyph rasteriser (`xyplot.cpp`, lines 507-529) -/

section Painting

variable {R : Type} [LinearOrderedField R]

/-- The conversion `static_cast<int>(unsigned int)`. -/
def toInt32 (n : Nat) : Int :=
  if n % 2 ^ 32 < 2 ^ 31 then ((n % 2 ^ 32 : Nat) : Int) else ((n % 2 ^ 32 : Nat) : Int) - 2 ^ 32

/-- The vertex loop of `paintPolygon`: `points` starts as `std::vector<QPointF>(segments)`;
iteration `i` sets both coordinates of `points[i]`. -/
def polygonPoints (ops : Numerics R) (size : Int) (segments : Nat) : List (QPointF R) :=
  let points : List (QPointF R) := List.replicate segments QPointF.new
  let r : R := (size : R) * 0.5
  let dphi : R := 2 * ops.M_PI * (1 / (segments : R))
  forLoop (segments : Int) (fun i points =>
    let x : R := (size : R) * 0.5 - r * ops.sin ((i : R) * dphi)
    let y : R := (size : R) * 0.5 - r * ops.cos ((i : R) * dphi)
    points.set i ⟨x, y⟩) points

/-- Function `paintPolygon`: the painter commands are appended to the image. -/
def paintPolygon (ops : Numerics R) (img : QImage R) (segments : Nat) (border : Bool) :
    QImage R :=
  let size : Int := img.width
  let pen : List (PaintOp R) := if !border then [PaintOp.setPenNoPen] else []
  let brush : List (PaintOp R) := [PaintOp.setBrushWhite]
  let draw : PaintOp R :=
    if segments ≠ 0 then
      PaintOp.drawConvexPolygon (polygonPoints ops size segments) (toInt32 segments)
    else
      PaintOp.drawEllipse 1 1 (size - 2) (size - 2)
  { img with painted := img.painted ++ pen ++ brush ++ [draw] }

end Painting

/-! ## Vertex builders (`xyplot.cpp`, lines 680-724) -/

section Builders

variable {R : Type} [LinearOrderedField R]

/-- The fill loop (lines 684-689) writing through `fdst`. -/
def writeFill (ops : Numerics R) (src : Nat → R) (num_data_points : Int) (fdst : Nat → R) :
    Nat → R :=
  forLoop num_data_points (fun i fdst =>
    let fdst := Function.update fdst (4 * i + 0) (ops.toFloat (src (2 * i + 0)))
    let fdst := Function.update fdst (4 * i + 1) (ops.toFloat 0)
    let fdst := Function.update fdst (4 * i + 2) (ops.toFloat (src (2 * i + 0)))
    Function.update fdst (4 * i + 3) (ops.toFloat (src (2 * i + 1)))) fdst

/-- The line loops (lines 696-705) writing through `ldst`. -/
def writeLine (ops : Numerics R) (m_logy : Bool) (src : Nat → R) (num_data_points : Int)
    (ldst : Nat → R) : Nat → R :=
  if m_logy then
    forLoop num_data_points (fun i ldst =>
      let ldst := Function.update ldst (i * 2 + 0) (ops.toFloat (src (i * 2 + 0)))
      Function.update ldst (i * 2 + 1) (ops.toFloat (ops.log10 (src (i * 2 + 1))))) ldst
  else
    forLoop (num_data_points * 2) (fun i ldst =>
      Function.update ldst i (ops.toFloat (src i))) ldst

/-- The marker loops (lines 711-721) writing through `mdst`. -/
def writeMarker (ops : Numerics R) (m_logy : Bool) (src : Nat → R) (num_data_points : Int)
    (mdst : Nat → R) : Nat → R :=
  if m_logy then
    forLoop num_data_points (fun i mdst =>
      let mdst := Function.update mdst (i * 2 + 0) (ops.toFloat (src (i * 2 + 0)))
      Function.update mdst (i * 2 + 1) (ops.toFloat (ops.log10 (src (i * 2 + 1))))) mdst
  else
    forLoop (num_data_points * 2) (fun i mdst =>
      Function.update mdst i (ops.toFloat (src i))) mdst

end Builders

/-! ## The frame update `XYPlot::updatePaintNode` (`xyplot.cpp`, lines 531-731) -/

/-- The local state of `updatePaintNode` once the three nodes exist. -/
structure Ctx (R : Type) where
  plot : XYPlot R
  n_fill : FillNode R
  n_line : LineNode R
  n_marker : MarkerNode R
  dirty_state : DirtyState
  trace : List Effect

/-- The outcome of one `updatePaintNode` call: the plot afterwards, the returned
root, the argument of the final `markDirty` calls (`none` on the early return) and
the effects in program order. -/
structure Frame (R : Type) where
  plot : XYPlot R
  root : QSGNode R
  marked : Option DirtyState
  trace : List Effect

section FrameUpdate

variable {R : Type} [LinearOrderedField R] [FloorRing R]

/-- Lines 587-593: the check whether fill, line or markers were switched on or off. -/
def syncBlocked (c : Ctx R) : Ctx R :=
  if c.n_fill.m_blocked == c.plot.m_fill || c.n_line.m_blocked == c.plot.m_line
      || c.n_marker.m_blocked == c.plot.m_marker then
    { c with
      n_fill := { c.n_fill with m_blocked := !c.plot.m_fill }
      n_line := { c.n_line with m_blocked := !c.plot.m_line }
      n_marker := { c.n_marker with m_blocked := !c.plot.m_marker }
      dirty_state := { c.dirty_state with DirtySubtreeBlocked := true } }
  else c

/-- Lines 601-617: fill material parameters and fill reallocation. -/
def updateFillNode (ops : Numerics R) (c : Ctx R) (num_data_points : Int) : Ctx R :=
  let xmin := c.plot.m_view_rect.xp
  let ymin := c.plot.m_view_rect.yp
  let xrange := c.plot.m_view_rect.w
  let yrange := c.plot.m_view_rect.h
  if c.plot.m_fill then
    let fmaterial : XYFillMaterial R :=
      { m_size := ⟨c.plot.width, c.plot.height⟩
        m_scale := ⟨1 / xrange, 1 / yrange⟩
        m_offset := ⟨xmin, ymin⟩
        m_color := c.plot.m_fillcolor
        blending := decide (c.plot.m_fillcolor.alphaF ≠ (1 : R)) }
    let c := { c with n_fill := { c.n_fill with material := fmaterial } }
    if c.n_fill.geometry.vertexCount ≠ 2 * num_data_points then
      { c with
        n_fill := { c.n_fill with
          geometry := c.n_fill.geometry.allocate ops (2 * num_data_points) }
        plot := { c.plot with m_new_data := true }
        trace := c.trace ++ [Effect.allocate Layer.fill (2 * num_data_points)] }
    else c
  else c

/-- Lines 619-636: line material parameters, line width and line reallocation. -/
def updateLineNode (ops : Numerics R) (c : Ctx R) (num_data_points : Int) : Ctx R :=
  let xmin := c.plot.m_view_rect.xp
  let ymin := c.plot.m_view_rect.yp
  let xrange := c.plot.m_view_rect.w
  let yrange := c.plot.m_view_rect.h
  if c.plot.m_line then
    let lmaterial : XYLineMaterial R :=
      { m_size := ⟨c.plot.width, c.plot.height⟩
        m_scale := ⟨1 / xrange, 1 / yrange⟩
        m_offset := ⟨xmin, ymin⟩
        m_color := c.plot.m_linecolor
        blending := decide (c.plot.m_linecolor.alphaF ≠ (1 : R)) }
    let lgeometry := { c.n_line.geometry with m_line_width := ops.toFloat c.plot.m_linewidth }
    let c := { c with n_line := { c.n_line with material := lmaterial, geometry := lgeometry } }
    if c.n_line.geometry.vertexCount ≠ num_data_points then
      { c with
        n_line := { c.n_line with geometry := c.n_line.geometry.allocate ops num_data_points }
        plot := { c.plot with m_new_data := true }
        trace := c.trace ++ [Effect.allocate Layer.line num_data_points] }
    else c
  else c

/-- Lines 640-649: the marker image is repainted when the size, the segment count or
the border flag differs from the values stored in the material. A marker size that is
not-a-number reaches the conversion of `ceil` to `int`, which is undefined behaviour; on
every other path `!=` on the two sizes is the inequality of the elements. -/
def updateMarkerImage (ops : Numerics R) (c : Ctx R) : Ctx R :=
  let mmaterial := c.n_marker.material
  if mmaterial.m_markersize ≠ c.plot.m_markersize
      ∨ mmaterial.m_markersegments ≠ c.plot.m_markersegments
      ∨ mmaterial.m_markerborder ≠ c.plot.m_markerborder then
    let image_size : Int := Int.ceil c.plot.m_markersize
    let qimage : QImage R := ⟨image_size, image_size, none, []⟩
    let qimage := { qimage with filled := some 0x00ffffff }
    let qimage := paintPolygon ops qimage (c.plot.m_markersegments % 2 ^ 32).toNat
      c.plot.m_markerborder
    let m_markerimage : QSGDataTexture R :=
      { m_dims := [image_size, image_size], m_num_components := 4,
        m_image := some qimage, m_needs_upload := true }
    { c with
      n_marker := { c.n_marker with material := { mmaterial with m_markerimage := m_markerimage } }
      trace := c.trace ++ [Effect.paintMarkerImage image_size] }
  else c

/-- Lines 638-669: marker image, marker material parameters and marker reallocation. -/
def updateMarkerNode (ops : Numerics R) (c : Ctx R) (num_data_points : Int) : Ctx R :=
  let xmin := c.plot.m_view_rect.xp
  let ymin := c.plot.m_view_rect.yp
  let xrange := c.plot.m_view_rect.w
  let yrange := c.plot.m_view_rect.h
  if c.plot.m_marker then
    let c := updateMarkerImage ops c
    let mmaterial : XYMarkerMaterial R :=
      { c.n_marker.material with
        m_size := ⟨c.plot.width, c.plot.height⟩
        m_scale := ⟨1 / xrange, 1 / yrange⟩
        m_offset := ⟨xmin, ymin⟩
        m_markersegments := c.plot.m_markersegments
        m_markerborder := c.plot.m_markerborder
        m_markercolor := c.plot.m_markercolor
        m_markersize := c.plot.m_markersize
        blending := true }
    let c := { c with n_marker := { c.n_marker with material := mmaterial } }
    if c.n_marker.geometry.vertexCount ≠ num_data_points then
      { c with
        n_marker := { c.n_marker with
          geometry := c.n_marker.geometry.allocate ops num_data_points }
        plot := { c.plot with m_new_data := true }
        trace := c.trace ++ [Effect.allocate Layer.marker num_data_points] }
    else c
  else c

/-- Lines 671-678: a new source or new data invalidates all three layers and clears
both flags. -/
def invalidate (c : Ctx R) : Ctx R :=
  if c.plot.m_new_source || c.plot.m_new_data then
    { c with
      n_fill := { c.n_fill with m_data_valid := false }
      n_line := { c.n_line with m_data_valid := false }
      n_marker := { c.n_marker with m_data_valid := false }
      plot := { c.plot with m_new_source := false, m_new_data := false } }
  else c

/-- Lines 682-692: the fill vertices are rewritten when fill is enabled and invalid. -/
def rebuildFill (ops : Numerics R) (c : Ctx R) (src : Nat → R) (num_data_points : Int) :
    Ctx R :=
  if c.plot.m_fill && !c.n_fill.m_data_valid then
    let fdst := c.n_fill.geometry.vertexData
    let fdst := writeFill ops src num_data_points fdst
    { c with
      n_fill := { c.n_fill with
        geometry := { c.n_fill.geometry with m_data := fdst }
        m_data_valid := true }
      dirty_state := { c.dirty_state with DirtyGeometry := true }
      trace := c.trace ++ [Effect.writeVertices Layer.fill] }
  else c

/-- Lines 694-708: the line vertices are rewritten when line is enabled and invalid. -/
def rebuildLine (ops : Numerics R) (c : Ctx R) (src : Nat → R) (num_data_points : Int) :
    Ctx R :=
  if c.plot.m_line && !c.n_line.m_data_valid then
    let ldst := c.n_line.geometry.vertexData
    let ldst := writeLine ops c.plot.m_logy src num_data_points ldst
    { c with
      n_line := { c.n_line with
        geometry := { c.n_line.geometry with m_data := ldst }
        m_data_valid := true }
      dirty_state := { c.dirty_state with DirtyGeometry := true }
      trace := c.trace ++ [Effect.writeVertices Layer.line] }
  else c

/-- Lines 710-724: the marker vertices are rewritten when marker is enabled and invalid. -/
def rebuildMarker (ops : Numerics R) (c : Ctx R) (src : Nat → R) (num_data_points : Int) :
    Ctx R :=
  if c.plot.m_marker && !c.n_marker.m_data_valid then
    let mdst := c.n_marker.geometry.vertexData
    let mdst := writeMarker ops c.plot.m_logy src num_data_points mdst
    { c with
      n_marker := { c.n_marker with
        geometry := { c.n_marker.geometry with m_data := mdst }
        m_data_valid := true }
      dirty_state := { c.dirty_state with DirtyGeometry := true }
      trace := c.trace ++ [Effect.writeVertices Layer.marker] }
  else c

/-- Lines 576-730: the part of `updatePaintNode` after the nodes exist, for the data
source `m_source`. -/
def updateNodes (ops : Numerics R) (m_source : DataSource R) (c : Ctx R) : Ctx R :=
  let c := syncBlocked c
  let num_data_points : Int := Int.tdiv m_source.dataWidth 2
  let c := updateFillNode ops c num_data_points
  let c := updateLineNode ops c num_data_points
  let c := updateMarkerNode ops c num_data_points
  let c := invalidate c
  let src := m_source.data
  let c := rebuildFill ops c src num_data_points
  let c := rebuildLine ops c src num_data_points
  rebuildMarker ops c src num_data_points

/-- Lines 563-574: the children of the root, appended first when there are none. -/
def ensureChildren (ops : Numerics R) (n : QSGNode R) : Children R × List Effect :=
  match n.children with
  | none =>
    (⟨FillNode.new ops, LineNode.new ops, MarkerNode.new ops⟩,
      [Effect.newNode Layer.fill, Effect.newNode Layer.line, Effect.newNode Layer.marker])
  | some ch => (ch, [])

/-- `XYPlot::updatePaintNode`; `n = none` is the null pointer. -/
def updatePaintNode (ops : Numerics R) (p : XYPlot R) (n : Option (QSGNode R)) : Frame R :=
  let root : QSGNode R × List Effect :=
    match n with
    | none => (⟨none⟩, [Effect.newRoot])
    | some n => (n, [])
  match p.m_source with
  | none =>
    if root.1.childCount ≠ 0 then
      { plot := p, root := ⟨none⟩, marked := none,
        trace := root.2 ++ [Effect.removeAllChildNodes, Effect.deleteNode Layer.fill,
          Effect.deleteNode Layer.line, Effect.deleteNode Layer.marker] }
    else
      { plot := p, root := root.1, marked := none, trace := root.2 }
  | some m_source =>
    let ch := ensureChildren ops root.1
    let c : Ctx R :=
      { plot := p, n_fill := ch.1.n_fill, n_line := ch.1.n_line, n_marker := ch.1.n_marker,
        dirty_state := ⟨true, false, false⟩, trace := root.2 ++ ch.2 }
    let c := updateNodes ops m_source c
    { plot := c.plot, root := ⟨some ⟨c.n_fill, c.n_line, c.n_marker⟩⟩,
      marked := some c.dirty_state, trace := c.trace }

end FrameUpdate

/-! ## Vertex shaders (`xyplot.cpp`, lines 42-57, 154-167, 247-260) -/

/-- GLSL `vec2`. -/
structure Vec2 (R : Type) where
  x : R
  y : R
deriving DecidableEq

/-- GLSL `vec4`. -/
structure Vec4 (R : Type) where
  x : R
  y : R
  z : R
  w : R
deriving DecidableEq

/-- The uniforms `size`, `scale` and `offset` shared by the three programs. -/
structure Uniforms (R : Type) where
  size : Vec2 R
  scale : Vec2 R
  offset : Vec2 R
deriving DecidableEq

section Shaders

variable {R : Type} [LinearOrderedField R]

/-- `XYFillMaterialShader::updateState`: the material parameters bound as uniforms. -/
def XYFillMaterialShader.updateState (material : XYFillMaterial R) : Uniforms R :=
  { size := ⟨material.m_size.wd, material.m_size.ht⟩
    scale := ⟨material.m_scale.wd, material.m_scale.ht⟩
    offset := ⟨material.m_offset.xp, material.m_offset.yp⟩ }

/-- `XYLineMaterialShader::updateState`: the material parameters bound as uniforms. -/
def XYLineMaterialShader.updateState (material : XYLineMaterial R) : Uniforms R :=
  { size := ⟨material.m_size.wd, material.m_size.ht⟩
    scale := ⟨material.m_scale.wd, material.m_scale.ht⟩
    offset := ⟨material.m_offset.xp, material.m_offset.yp⟩ }

/-- `XYMarkerMaterialShader::updateState`: the material parameters bound as uniforms. -/
def XYMarkerMaterialShader.updateState (material : XYMarkerMaterial R) : Uniforms R :=
  { size := ⟨material.m_size.wd, material.m_size.ht⟩
    scale := ⟨material.m_scale.wd, material.m_scale.ht⟩
    offset := ⟨material.m_offset.xp, material.m_offset.yp⟩ }

/-- `XYFillMaterialShader::vertexShader`, the value of `gl_Position`; `matrix` is
the multiplication by the uniform `matrix`. -/
def XYFillMaterialShader.vertexShader (matrix : Vec4 R → Vec4 R) (u : Uniforms R)
    (vertex : Vec4 R) : Vec4 R :=
  let p : Vec2 R :=
    ⟨(vertex.x - u.offset.x) * u.scale.x * u.size.x,
     (vertex.y - u.offset.y) * u.scale.y * u.size.y⟩
  matrix ⟨p.x, u.size.y - p.y, 0, 1⟩

/-- `XYLineMaterialShader::vertexShader`, the value of `gl_Position`. -/
def XYLineMaterialShader.vertexShader (matrix : Vec4 R → Vec4 R) (u : Uniforms R)
    (vertex : Vec4 R) : Vec4 R :=
  let p : Vec2 R :=
    ⟨(vertex.x - u.offset.x) * u.scale.x * u.size.x,
     (vertex.y - u.offset.y) * u.scale.y * u.size.y⟩
  matrix ⟨p.x, u.size.y - p.y, 0, 1⟩

/-- `XYMarkerMaterialShader::vertexShader`, the values of `gl_Position` and
`gl_PointSize`. -/
def XYMarkerMaterialShader.vertexShader (matrix : Vec4 R → Vec4 R) (u : Uniforms R)
    (msize : R) (vertex : Vec4 R) : Vec4 R × R :=
  let p : Vec2 R :=
    ⟨(vertex.x - u.offset.x) * u.scale.x * u.size.x,
     (vertex.y - u.offset.y) * u.scale.y * u.size.y⟩
  (matrix ⟨p.x, u.size.y - p.y, 0, 1⟩, msize)

end Shaders

/-! ## Float texture (`qsgfloattexture.cpp`) -/

/-- The texture targets used by `QSGFloatTexture::bind`. -/
inductive GLTarget where
  | GL_TEXTURE_1D
  | GL_TEXTURE_2D
  | GL_TEXTURE_3D
deriving DecidableEq

/-- The texture parameter names set by `QSGFloatTexture::bind`. -/
inductive GLParam where
  | GL_TEXTURE_MIN_FILTER
  | GL_TEXTURE_MAG_FILTER
  | GL_TEXTURE_WRAP_S
  | GL_TEXTURE_WRAP_T
  | GL_TEXTURE_WRAP_R
deriving DecidableEq

/-- The texture parameter values set by `QSGFloatTexture::bind`. -/
inductive GLValue where
  | GL_LINEAR
  | GL_CLAMP_TO_EDGE
deriving DecidableEq

/-- The internal formats selected by `QSGFloatTexture::bind`. -/
inductive GLInternalFormat where
  | GL_R32F
  | GL_RG32F
  | GL_RGB32F
  | GL_RGBA32F
deriving DecidableEq

/-- The pixel formats selected by `QSGFloatTexture::bind`. -/
inductive GLFormat where
  | GL_RED
  | GL_RG
  | GL_RGB
  | GL_RGBA
deriving DecidableEq

/-- The calls a `QSGFloatTexture` makes into OpenGL and the heap; a pointer argument is
recorded with the contents behind it at the time of the call (`none`: null pointer).
The pixel type of every upload is `GL_FLOAT`. -/
inductive Call (R : Type) where
  | glBindTexture (target : GLTarget) (texture : Nat)
  | glTexParameteri (target : GLTarget) (pname : GLParam) (param : GLValue)
  | glTexImage1D (internal_format : GLInternalFormat) (width : Int) (format : GLFormat)
      (pixels : Option (Nat → R))
  | glTexImage2D (internal_format : GLInternalFormat) (width height : Int) (format : GLFormat)
      (pixels : Option (Nat → R))
  | glTexImage3D (internal_format : GLInternalFormat) (width height depth : Int)
      (format : GLFormat) (pixels : Option (Nat → R))
  | deleteArray
  | newArray (n : Int)

/-- Whether a call is one of the uploads `glTexImage1D`, `glTexImage2D`, `glTexImage3D`. -/
def Call.isUpload {R : Type} : Call R → Bool
  | Call.glTexImage1D _ _ _ _ => true
  | Call.glTexImage2D _ _ _ _ _ => true
  | Call.glTexImage3D _ _ _ _ _ _ => true
  | _ => false

/-- Class `QSGFloatTexture`; `calls` collects the calls made so far. -/
structure QSGFloatTexture (R : Type) where
  m_id_texture : Nat
  m_num_dims : Int
  m_num_components : Int
  m_dims_0 : Int
  m_dims_1 : Int
  m_dims_2 : Int
  m_buffer : Option (Nat → R)
  m_buffer_size : Int
  m_needs_upload : Bool
  calls : List (Call R)

section FloatTexture

variable {R : Type}

/-- Constructor `QSGFloatTexture::QSGFloatTexture`; `id` is the name `glGenTextures`
returns. -/
def QSGFloatTexture.new (id : Nat) : QSGFloatTexture R :=
  { m_id_texture := id, m_num_dims := 0, m_num_components := 0,
    m_dims_0 := 0, m_dims_1 := 0, m_dims_2 := 0,
    m_buffer := none, m_buffer_size := 0, m_needs_upload := false, calls := [] }

/-- One call into OpenGL or the heap. -/
def QSGFloatTexture.call (t : QSGFloatTexture R) (c : Call R) : QSGFloatTexture R :=
  { t with calls := t.calls ++ [c] }

/-- The first `switch (m_num_dims)` of `bind` (lines 53-77). -/
def QSGFloatTexture.bindTarget (t : QSGFloatTexture R) : QSGFloatTexture R :=
  if t.m_num_dims = 1 then
    let t := t.call (Call.glBindTexture GLTarget.GL_TEXTURE_1D t.m_id_texture)
    let t := t.call
      (Call.glTexParameteri GLTarget.GL_TEXTURE_1D GLParam.GL_TEXTURE_MIN_FILTER GLValue.GL_LINEAR)
    let t := t.call
      (Call.glTexParameteri GLTarget.GL_TEXTURE_1D GLParam.GL_TEXTURE_MAG_FILTER GLValue.GL_LINEAR)
    t.call (Call.glTexParameteri GLTarget.GL_TEXTURE_1D GLParam.GL_TEXTURE_WRAP_S
      GLValue.GL_CLAMP_TO_EDGE)
  else if t.m_num_dims = 2 then
    let t := t.call (Call.glBindTexture GLTarget.GL_TEXTURE_2D t.m_id_texture)
    let t := t.call
      (Call.glTexParameteri GLTarget.GL_TEXTURE_2D GLParam.GL_TEXTURE_MIN_FILTER GLValue.GL_LINEAR)
    let t := t.call
      (Call.glTexParameteri GLTarget.GL_TEXTURE_2D GLParam.GL_TEXTURE_MAG_FILTER GLValue.GL_LINEAR)
    let t := t.call (Call.glTexParameteri GLTarget.GL_TEXTURE_2D GLParam.GL_TEXTURE_WRAP_S
      GLValue.GL_CLAMP_TO_EDGE)
    t.call (Call.glTexParameteri GLTarget.GL_TEXTURE_2D GLParam.GL_TEXTURE_WRAP_T
      GLValue.GL_CLAMP_TO_EDGE)
  else if t.m_num_dims = 3 then
    let t := t.call (Call.glBindTexture GLTarget.GL_TEXTURE_3D t.m_id_texture)
    let t := t.call
      (Call.glTexParameteri GLTarget.GL_TEXTURE_3D GLParam.GL_TEXTURE_MIN_FILTER GLValue.GL_LINEAR)
    let t := t.call
      (Call.glTexParameteri GLTarget.GL_TEXTURE_3D GLParam.GL_TEXTURE_MAG_FILTER GLValue.GL_LINEAR)
    let t := t.call (Call.glTexParameteri GLTarget.GL_TEXTURE_3D GLParam.GL_TEXTURE_WRAP_S
      GLValue.GL_CLAMP_TO_EDGE)
    let t := t.call (Call.glTexParameteri GLTarget.GL_TEXTURE_3D GLParam.GL_TEXTURE_WRAP_T
      GLValue.GL_CLAMP_TO_EDGE)
    t.call (Call.glTexParameteri GLTarget.GL_TEXTURE_3D GLParam.GL_TEXTURE_WRAP_R
      GLValue.GL_CLAMP_TO_EDGE)
  else t

/-- The `switch (m_num_components)` of `bind` (lines 84-103); `none` is the `default`
branch, which returns. -/
def colorFormat (m_num_components : Int) : Option (GLInternalFormat × GLFormat) :=
  if m_num_components = 1 then some (GLInternalFormat.GL_R32F, GLFormat.GL_RED)
  else if m_num_components = 2 then some (GLInternalFormat.GL_RG32F, GLFormat.GL_RG)
  else if m_num_components = 3 then some (GLInternalFormat.GL_RGB32F, GLFormat.GL_RGB)
  else if m_num_components = 4 then some (GLInternalFormat.GL_RGBA32F, GLFormat.GL_RGBA)
  else none

/-- `QSGFloatTexture::bind`. -/
def QSGFloatTexture.bind (t : QSGFloatTexture R) : QSGFloatTexture R :=
  let t := t.bindTarget
  if t.m_needs_upload then
    let t := { t with m_needs_upload := false }
    match colorFormat t.m_num_components with
    | none => t
    | some (internal_format, format) =>
      if t.m_num_dims = 1 then
        t.call (Call.glTexImage1D internal_format t.m_dims_0 format t.m_buffer)
      else if t.m_num_dims = 2 then
        t.call (Call.glTexImage2D internal_format t.m_dims_0 t.m_dims_1 format t.m_buffer)
      else if t.m_num_dims = 3 then
        t.call (Call.glTexImage3D internal_format t.m_dims_0 t.m_dims_1 t.m_dims_2 format
          t.m_buffer)
      else t
  else t

/-- Lines 128-136, common to the three `setData` functions: grow the buffer when it is
smaller than `n`, copy `n` values, mark the texture for upload. -/
def QSGFloatTexture.fillBuffer (ops : Numerics R) (t : QSGFloatTexture R) (data : Nat → R)
    (n : Int) : QSGFloatTexture R :=
  let t :=
    if t.m_buffer_size < n then
      let t := if t.m_buffer.isSome then t.call Call.deleteArray else t
      let t := t.call (Call.newArray n)
      { t with m_buffer := some (fun _ => ops.uninit), m_buffer_size := n }
    else t
  let t := forLoop n (fun i t =>
    { t with m_buffer := t.m_buffer.map (fun b => Function.update b i (ops.toFloat (data i))) }) t
  { t with m_needs_upload := true }

/-- `QSGFloatTexture::setData1D`. -/
def QSGFloatTexture.setData1D (ops : Numerics R) (t : QSGFloatTexture R) (data : Nat → R)
    (size num_components : Int) : QSGFloatTexture R :=
  let t := { t with m_dims_0 := size, m_num_dims := 1, m_num_components := num_components }
  let n : Int := size * num_components
  t.fillBuffer ops data n

/-- `QSGFloatTexture::setData2D`. -/
def QSGFloatTexture.setData2D (ops : Numerics R) (t : QSGFloatTexture R) (data : Nat → R)
    (width height num_components : Int) : QSGFloatTexture R :=
  let t := { t with m_dims_0 := width, m_dims_1 := height, m_num_dims := 2,
                    m_num_components := num_components }
  let n : Int := width * height * num_components
  t.fillBuffer ops data n

/-- `QSGFloatTexture::setData3D`. -/
def QSGFloatTexture.setData3D (ops : Numerics R) (t : QSGFloatTexture R) (data : Nat → R)
    (width height depth num_components : Int) : QSGFloatTexture R :=
  let t := { t with m_dims_0 := width, m_dims_1 := height, m_dims_2 := depth, m_num_dims := 3,
                    m_num_components := num_components }
  let n : Int := width * height * depth * num_components
  t.fillBuffer ops data n

/-- One call of a `setData` function with its arguments. -/
inductive SetData (R : Type) where
  | d1 (data : Nat → R) (size num_components : Int)
  | d2 (data : Nat → R) (width height num_components : Int)
  | d3 (data : Nat → R) (width height depth num_components : Int)

/-- The texture after the `setData` call `c`. -/
def QSGFloatTexture.setData (ops : Numerics R) (t : QSGFloatTexture R) :
    SetData R → QSGFloatTexture R
  | SetData.d1 data size nc => t.setData1D ops data size nc
  | SetData.d2 data w h nc => t.setData2D ops data w h nc
  | SetData.d3 data w h d nc => t.setData3D ops data w h d nc

/-- The texture after a sequence of `setData` calls. -/
def QSGFloatTexture.setDataSeq (ops : Numerics R) (t : QSGFloatTexture R)
    (cs : List (SetData R)) : QSGFloatTexture R :=
  cs.foldl (fun t c => t.setData ops c) t

/-- The sample pointer of a `setData` call. -/
def SetData.data : SetData R → Nat → R
  | SetData.d1 data _ _ => data
  | SetData.d2 data _ _ _ => data
  | SetData.d3 data _ _ _ _ => data

/-- The number `n` of values a `setData` call copies. -/
def SetData.n : SetData R → Int
  | SetData.d1 _ size nc => size * nc
  | SetData.d2 _ w h nc => w * h * nc
  | SetData.d3 _ w h d nc => w * h * d * nc

/-- The rank of a `setData` call. -/
def SetData.rank : SetData R → Int
  | SetData.d1 _ _ _ => 1
  | SetData.d2 _ _ _ _ => 2
  | SetData.d3 _ _ _ _ _ => 3

/-- The dimensions passed to a `setData` call. -/
def SetData.dims : SetData R → List Int
  | SetData.d1 _ size _ => [size]
  | SetData.d2 _ w h _ => [w, h]
  | SetData.d3 _ w h d _ => [w, h, d]

/-- The component count passed to a `setData` call. -/
def SetData.components : SetData R → Int
  | SetData.d1 _ _ nc => nc
  | SetData.d2 _ _ _ nc => nc
  | SetData.d3 _ _ _ _ nc => nc

/-- The stored dimensions `m_dims[0 .. m_num_dims-1]`. -/
def QSGFloatTexture.dims (t : QSGFloatTexture R) : List Int :=
  [t.m_dims_0, t.m_dims_1, t.m_dims_2].take t.m_num_dims.toNat

end FloatTexture


/-! ## Vocabulary of the statements -/

section Vocabulary

variable {R : Type} [LinearOrderedField R] [FloorRing R]

/-- The sample count `num_data_points` of line 595. -/
def sampleCount (src : DataSource R) : Int := Int.tdiv src.dataWidth 2

/-- The three nodes a frame update starts from: the children of the root it is given,
or newly constructed nodes when the root is null or has no children. -/
def startChildren (ops : Numerics R) (n : Option (QSGNode R)) : Children R :=
  (ensureChildren ops (n.getD ⟨none⟩)).1

/-- The effects of a frame update up to line 576, with a data source present. -/
def startTrace (n : Option (QSGNode R)) : List Effect :=
  (match n with
    | none => [Effect.newRoot]
    | some _ => [])
  ++ (match (n.getD ⟨none⟩).children with
    | none => [Effect.newNode Layer.fill, Effect.newNode Layer.line, Effect.newNode Layer.marker]
    | some _ => [])

/-- The local state of `updatePaintNode` at line 576. -/
def startCtx (ops : Numerics R) (p : XYPlot R) (n : Option (QSGNode R)) : Ctx R :=
  { plot := p, n_fill := (startChildren ops n).n_fill, n_line := (startChildren ops n).n_line,
    n_marker := (startChildren ops n).n_marker, dirty_state := ⟨true, false, false⟩,
    trace := startTrace n }

/-- Whether the visibility check of lines 587-593 fires. -/
def toggled (c : Ctx R) : Bool :=
  c.n_fill.m_blocked == c.plot.m_fill || c.n_line.m_blocked == c.plot.m_line
    || c.n_marker.m_blocked == c.plot.m_marker

/-- Whether lines 640-642 find the marker image out of date. -/
def markerImageStale (c : Ctx R) : Prop :=
  c.n_marker.material.m_markersize ≠ c.plot.m_markersize
    ∨ c.n_marker.material.m_markersegments ≠ c.plot.m_markersegments
    ∨ c.n_marker.material.m_markerborder ≠ c.plot.m_markerborder

instance (c : Ctx R) : Decidable (markerImageStale c) := by
  unfold markerImageStale; infer_instance

/-- The marker image painted by lines 643-648 for the plot `p`. -/
def paintedMarkerImage (ops : Numerics R) (p : XYPlot R) : QSGDataTexture R :=
  { m_dims := [Int.ceil p.m_markersize, Int.ceil p.m_markersize], m_num_components := 4,
    m_image := some (paintPolygon ops ⟨Int.ceil p.m_markersize, Int.ceil p.m_markersize,
      some 0x00ffffff, []⟩ (p.m_markersegments % 2 ^ 32).toNat p.m_markerborder),
    m_needs_upload := true }

/-- Whether the layer is enabled in the plot. -/
def XYPlot.enabled (p : XYPlot R) : Layer → Bool
  | Layer.fill => p.m_fill
  | Layer.line => p.m_line
  | Layer.marker => p.m_marker

/-- The vertex count lines 613, 632 and 665 require of the layer for `N` samples. -/
def requiredCount (N : Int) : Layer → Int
  | Layer.fill => 2 * N
  | Layer.line => N
  | Layer.marker => N

/-- The vertex count of the layer's geometry. -/
def Children.vertexCount (ch : Children R) : Layer → Int
  | Layer.fill => ch.n_fill.geometry.vertexCount
  | Layer.line => ch.n_line.geometry.vertexCount
  | Layer.marker => ch.n_marker.geometry.vertexCount

/-- The flag `m_data_valid` of the layer's node. -/
def Children.dataValid (ch : Children R) : Layer → Bool
  | Layer.fill => ch.n_fill.m_data_valid
  | Layer.line => ch.n_line.m_data_valid
  | Layer.marker => ch.n_marker.m_data_valid

/-- The flag `m_blocked` of the layer's node. -/
def Children.blocked (ch : Children R) : Layer → Bool
  | Layer.fill => ch.n_fill.m_blocked
  | Layer.line => ch.n_line.m_blocked
  | Layer.marker => ch.n_marker.m_blocked

/-- The vertex storage of the layer's geometry. -/
def Children.vertexData (ch : Children R) : Layer → Nat → R
  | Layer.fill => ch.n_fill.geometry.vertexData
  | Layer.line => ch.n_line.geometry.vertexData
  | Layer.marker => ch.n_marker.geometry.vertexData

/-- The layer is enabled and the vertex count of its geometry is not the required one:
the condition under which lines 613-616, 632-635, 665-668 reallocate. -/
def reallocates (ops : Numerics R) (p : XYPlot R) (n : Option (QSGNode R))
    (src : DataSource R) (l : Layer) : Bool :=
  p.enabled l && decide ((startChildren ops n).vertexCount l ≠ requiredCount (sampleCount src) l)

/-- The condition of line 672 when it is reached. -/
def invalidates (ops : Numerics R) (p : XYPlot R) (n : Option (QSGNode R))
    (src : DataSource R) : Bool :=
  p.m_new_source || p.m_new_data || reallocates ops p n src Layer.fill
    || reallocates ops p n src Layer.line || reallocates ops p n src Layer.marker

/-- The conditions of lines 682, 694 and 710 when they are reached. -/
def rewrites (ops : Numerics R) (p : XYPlot R) (n : Option (QSGNode R))
    (src : DataSource R) (l : Layer) : Bool :=
  p.enabled l && (invalidates ops p n src || !(startChildren ops n).dataValid l)

/-- The frame update called again with the plot and the root the previous call left. -/
def nextFrame (ops : Numerics R) (f : Frame R) : Frame R :=
  updatePaintNode ops f.plot (some f.root)

/-- The nodes left by a frame update with a data source. -/
def nodesAfter (ops : Numerics R) (p : XYPlot R) (n : Option (QSGNode R))
    (src : DataSource R) : Children R :=
  ⟨(updateNodes ops src (startCtx ops p n)).n_fill,
    (updateNodes ops src (startCtx ops p n)).n_line,
    (updateNodes ops src (startCtx ops p n)).n_marker⟩

/-- A sample buffer holding the interleaved values `xs` (and zeros behind them). -/
def bufferOf (xs : List R) : Nat → R := fun i => xs.getD i 0

/-- A plot over the buffer `[(0,1),(1,10),(2,100)]` with view rectangle `(0,0)→(2,100)`
and item size 200 x 100, with the given layer toggles and logarithmic-y setting. -/
def examplePlot (fill line marker logy : Bool) : XYPlot R :=
  { m_source := some ⟨bufferOf [0, 1, 1, 10, 2, 100], 6, 1⟩
    m_new_source := true, m_new_data := true
    m_view_rect := ⟨0, 0, 2, 100⟩
    m_fill := fill, m_fillcolor := ⟨1, 65535, 0, 0, 65535⟩
    m_line := line, m_linewidth := 1, m_linecolor := ⟨1, 65535, 0, 0, 0⟩
    m_marker := marker, m_markersegments := 4, m_markersize := 5
    m_markercolor := ⟨1, 65535, 65535, 0, 0⟩, m_markerborder := false
    m_logy := logy, width := 200, height := 100, emitted := [], updates := 0 }

end Vocabulary

section Vocab9
variable {R : Type} [LinearOrderedField R]

/-- The point at distance `r` from the centre `c` at angle `θ` measured clockwise from the
top of the raster, the raster y axis pointing down: at `θ = π/2` it is the right-most
point `(c.x + r, c.y)`. -/
def clockwiseFromTop (ops : Numerics R) (c : QPointF R) (r θ : R) : QPointF R :=
  ⟨c.xp + r * ops.sin θ, c.yp - r * ops.cos θ⟩

/-- The point at distance `r` from the centre `c` at angle `θ` measured counter-clockwise
from the top of the raster, the raster y axis pointing down: at `θ = π/2` it is the
left-most point `(c.x - r, c.y)`. -/
def counterClockwiseFromTop (ops : Numerics R) (c : QPointF R) (r θ : R) : QPointF R :=
  ⟨c.xp - r * ops.sin θ, c.yp - r * ops.cos θ⟩

/-- The point `q` turned about `c` by the angle `φ`, clockwise as seen on the raster (y
axis pointing down): a quarter turn takes the top point to the right-most point. -/
def turnClockwise (ops : Numerics R) (c : QPointF R) (φ : R) (q : QPointF R) : QPointF R :=
  ⟨c.xp + (q.xp - c.xp) * ops.cos φ - (q.yp - c.yp) * ops.sin φ,
    c.yp + (q.xp - c.xp) * ops.sin φ + (q.yp - c.yp) * ops.cos φ⟩

/-- The point `q` turned about `c` by the angle `φ`, counter-clockwise as seen on the
raster (y axis pointing down): a quarter turn takes the top point to the left-most point. -/
def turnCounterClockwise (ops : Numerics R) (c : QPointF R) (φ : R) (q : QPointF R) :
    QPointF R :=
  ⟨c.xp + (q.xp - c.xp) * ops.cos φ + (q.yp - c.yp) * ops.sin φ,
    c.yp - (q.xp - c.xp) * ops.sin φ + (q.yp - c.yp) * ops.cos φ⟩

end Vocab9

section Vocab10
variable {R : Type}

/-- The texture reached from a newly constructed one by the `setData` calls `cs`. -/
def QSGFloatTexture.reached (ops : Numerics R) (id : Nat) (cs : List (SetData R)) :
    QSGFloatTexture R :=
  (QSGFloatTexture.new id).setDataSeq ops cs

/-- A null buffer has capacity 0, an invariant of the texture. -/
def QSGFloatTexture.BufferOk (t : QSGFloatTexture R) : Prop :=
  0 < t.m_buffer_size → t.m_buffer.isSome = true

end Vocab10

section Vocab11
variable {R : Type}

/-- One operation on a float texture: a `setData` call or a `bind` call. -/
inductive TexOp (R : Type) where
  | setData (c : SetData R)
  | bind

/-- The texture after one operation. -/
def QSGFloatTexture.perform (ops : Numerics R) (t : QSGFloatTexture R) :
    TexOp R → QSGFloatTexture R
  | TexOp.setData c => t.setData ops c
  | TexOp.bind => t.bind

/-- The texture a newly constructed one becomes by the operations `h`. -/
def QSGFloatTexture.history (ops : Numerics R) (id : Nat) (h : List (TexOp R)) :
    QSGFloatTexture R :=
  h.foldl (fun t o => t.perform ops o) (QSGFloatTexture.new id)

/-- The texture after `k` successive `bind` calls. -/
def QSGFloatTexture.bindTimes (t : QSGFloatTexture R) : Nat → QSGFloatTexture R
  | 0 => t
  | k + 1 => (t.bindTimes k).bind

/-- The calls made between the state `before` and the later state `after`. -/
def callsSince (before after : QSGFloatTexture R) : List (Call R) :=
  after.calls.drop before.calls.length

/-- The GPU uploads among the calls `cs`. -/
def uploads (cs : List (Call R)) : List (Call R) := cs.filter Call.isUpload

/-- The upload of the dimensions of the `setData` call `c` in the given format. -/
def SetData.upload (c : SetData R) (internal_format : GLInternalFormat) (format : GLFormat)
    (pixels : Option (Nat → R)) : Call R :=
  match c with
  | SetData.d1 _ size _ => Call.glTexImage1D internal_format size format pixels
  | SetData.d2 _ w h _ => Call.glTexImage2D internal_format w h format pixels
  | SetData.d3 _ w h d _ => Call.glTexImage3D internal_format w h d format pixels

/-- The calls of the first `switch` of `bind`: target binding, filters and wrap modes. -/
def targetCalls (t : QSGFloatTexture R) : List (Call R) :=
  callsSince t t.bindTarget

/-- The texture after the operations `h`, the `setData` calls `cs` and the `setData`
call `c`. -/
def QSGFloatTexture.afterSetData (ops : Numerics R) (id : Nat) (h : List (TexOp R))
    (cs : List (SetData R)) (c : SetData R) : QSGFloatTexture R :=
  ((QSGFloatTexture.history ops id h).setDataSeq ops cs).setData ops c

end Vocab11

section Vocab15
variable {R : Type} [LinearOrderedField R] [FloorRing R]

/-- The events in the life of a plot item: the twelve setters; a change of the samples or
the dimensions of the data source (it now holds `src`); a change of the data source itself;
the two notifications of the data client, which raise `m_new_data` and `m_new_source`; the
release of the node tree by the scene graph; the frame update. -/
inductive Event (R : Type) where
  | setViewRect (v : QRectF R)
  | setFillEnabled (v : Bool)
  | setFillColor (v : QColor)
  | setLineEnabled (v : Bool)
  | setLineWidth (v : R)
  | setLineColor (v : QColor)
  | setMarkerEnabled (v : Bool)
  | setMarkerSegments (v : Int)
  | setMarkerSize (v : R)
  | setMarkerColor (v : QColor)
  | setMarkerBorder (v : Bool)
  | setLogY (v : Bool)
  | bufferChanged (src : DataSource R)
  | sourceReplaced (s : Option (DataSource R))
  | newData
  | newSource
  | releaseRoot
  | frame

/-- A plot item between two events: the plot, the root node the scene graph holds for it
(`none`: no node yet, the next frame update gets the null pointer), and a history variable
that is not part of the program: `unannounced` holds when the samples or the data source
changed and no frame update has since started with `m_new_data` or `m_new_source` raised. -/
structure Item (R : Type) where
  plot : XYPlot R
  root : Option (QSGNode R)
  unannounced : Bool

/-- A plot item before its first frame update. -/
def Item.new (p : XYPlot R) : Item R := ⟨p, none, false⟩

/-- Modelled from the spec: the two flags are members of class `DataClient`, which is not
under `src/`; `updatePaintNode` reads and clears them. Raising `m_new_data`. -/
def XYPlot.raiseNewData (p : XYPlot R) : XYPlot R := { p with m_new_data := true }

/-- Modelled from the spec: raising `m_new_source` (class `DataClient`, not under `src/`). -/
def XYPlot.raiseNewSource (p : XYPlot R) : XYPlot R := { p with m_new_source := true }

/-- One event on a plot item. A frame update runs `updatePaintNode` on the root the scene
graph holds and stores the returned root; a frame update that starts with a raised flag
has been told of every change before it. -/
def Item.step (ops : Numerics R) (m : Item R) : Event R → Item R
  | Event.setViewRect v => { m with plot := m.plot.setViewRect ops v }
  | Event.setFillEnabled v => { m with plot := m.plot.setFillEnabled v }
  | Event.setFillColor v => { m with plot := m.plot.setFillColor v }
  | Event.setLineEnabled v => { m with plot := m.plot.setLineEnabled v }
  | Event.setLineWidth v => { m with plot := m.plot.setLineWidth ops v }
  | Event.setLineColor v => { m with plot := m.plot.setLineColor v }
  | Event.setMarkerEnabled v => { m with plot := m.plot.setMarkerEnabled v }
  | Event.setMarkerSegments v => { m with plot := m.plot.setMarkerSegments v }
  | Event.setMarkerSize v => { m with plot := m.plot.setMarkerSize ops v }
  | Event.setMarkerColor v => { m with plot := m.plot.setMarkerColor v }
  | Event.setMarkerBorder v => { m with plot := m.plot.setMarkerBorder v }
  | Event.setLogY v => { m with plot := m.plot.setLogY v }
  | Event.bufferChanged src =>
    { m with plot := { m.plot with m_source := m.plot.m_source.map (fun _ => src) }
             unannounced := true }
  | Event.sourceReplaced s =>
    { m with plot := { m.plot with m_source := s }, unannounced := true }
  | Event.newData => { m with plot := m.plot.raiseNewData }
  | Event.newSource => { m with plot := m.plot.raiseNewSource }
  | Event.releaseRoot => { m with root := none }
  | Event.frame =>
    { plot := (updatePaintNode ops m.plot m.root).plot
      root := some (updatePaintNode ops m.plot m.root).root
      unannounced := m.unannounced && !(m.plot.m_new_data || m.plot.m_new_source) }

/-- The plot item after the events `es`. -/
def Item.run (ops : Numerics R) (m : Item R) (es : List (Event R)) : Item R :=
  es.foldl (fun m e => m.step ops e) m

/-- The output of the layer's vertex builder for the samples of `src`, written into newly
allocated storage. -/
def builderOutput (ops : Numerics R) (logy : Bool) (src : DataSource R) : Layer → Nat → R
  | Layer.fill => writeFill ops src.data (sampleCount src) (fun _ => ops.uninit)
  | Layer.line => writeLine ops logy src.data (sampleCount src) (fun _ => ops.uninit)
  | Layer.marker => writeMarker ops logy src.data (sampleCount src) (fun _ => ops.uninit)

/-- The layer's geometry has the required vertex count and every float of its vertices is
the one the layer's builder writes for the samples of `src` and the setting `logy`. -/
def Children.Fresh (ops : Numerics R) (ch : Children R) (logy : Bool) (src : DataSource R)
    (l : Layer) : Prop :=
  ch.vertexCount l = requiredCount (sampleCount src) l ∧
  ∀ k : Nat, (k : Int) < 2 * requiredCount (sampleCount src) l →
    ch.vertexData l k = builderOutput ops logy src l k

/-- The invariant of the plot item: while every change has been announced and neither flag
is raised, every layer marked valid is fresh for the current source and logarithmic-y
setting. -/
def Item.Inv (ops : Numerics R) (m : Item R) : Prop :=
  ∀ r ch src, m.root = some r → r.children = some ch → m.plot.m_source = some src →
    m.unannounced = false → m.plot.m_new_data = false → m.plot.m_new_source = false →
    ∀ l, ch.dataValid l = true → ch.Fresh ops m.plot.m_logy src l

end Vocab15

set_option linter.unusedSectionVars false
set_option linter.unnecessarySeqFocus false

/-! ## Loop lemmas -/

section LoopLemmas

variable {R : Type} [LinearOrderedField R]

theorem forLoop_zero {σ : Type} (body : Nat → σ → σ) (s : σ) : forLoop 0 body s = s := by
  simp [forLoop]

theorem forLoop_succ {σ : Type} (n : Nat) (body : Nat → σ → σ) (s : σ) :
    forLoop ((n + 1 : Nat) : Int) body s = body n (forLoop (n : Int) body s) := by
  simp [forLoop, List.range_succ, List.foldl_append]

theorem forLoop_nonpos {σ : Type} (n : Int) (hn : n ≤ 0) (body : Nat → σ → σ) (s : σ) :
    forLoop n body s = s := by
  simp [forLoop, Int.toNat_eq_zero.mpr hn]

theorem forLoop_toNat {σ : Type} (n : Int) (body : Nat → σ → σ) (s : σ) :
    forLoop n body s = forLoop (n.toNat : Int) body s := by
  unfold forLoop
  rw [Int.toNat_ofNat]

/-- The fill loop over `n` samples: what each float of the destination holds. -/
theorem writeFill_nat (ops : Numerics R) (src fdst : Nat → R) (n : Nat) :
    (∀ i, i < n →
      writeFill ops src n fdst (4 * i) = ops.toFloat (src (2 * i)) ∧
      writeFill ops src n fdst (4 * i + 1) = ops.toFloat 0 ∧
      writeFill ops src n fdst (4 * i + 2) = ops.toFloat (src (2 * i)) ∧
      writeFill ops src n fdst (4 * i + 3) = ops.toFloat (src (2 * i + 1))) ∧
    (∀ k, 4 * n ≤ k → writeFill ops src n fdst k = fdst k) := by
  induction n with
  | zero =>
    refine ⟨fun i hi => absurd hi (Nat.not_lt_zero i), fun k _ => ?_⟩
    simp [writeFill, forLoop_zero]
  | succ m ih =>
    obtain ⟨ih1, ih2⟩ := ih
    have hstep : writeFill ops src ((m + 1 : Nat) : Int) fdst =
        Function.update (Function.update (Function.update (Function.update
          (writeFill ops src (m : Int) fdst) (4 * m + 0) (ops.toFloat (src (2 * m + 0))))
          (4 * m + 1) (ops.toFloat 0)) (4 * m + 2) (ops.toFloat (src (2 * m + 0))))
          (4 * m + 3) (ops.toFloat (src (2 * m + 1))) := by
      unfold writeFill
      rw [forLoop_succ]
    refine ⟨fun i hi => ?_, fun k hk => ?_⟩
    · rw [hstep]
      rcases Nat.lt_succ_iff_lt_or_eq.mp hi with h | h
      · obtain ⟨a, b, c, d⟩ := ih1 i h
        simp only [Function.update_apply]
        refine ⟨?_, ?_, ?_, ?_⟩
        · rw [if_neg (by omega), if_neg (by omega), if_neg (by omega), if_neg (by omega)]
          exact a
        · rw [if_neg (by omega), if_neg (by omega), if_neg (by omega), if_neg (by omega)]
          exact b
        · rw [if_neg (by omega), if_neg (by omega), if_neg (by omega), if_neg (by omega)]
          exact c
        · rw [if_neg (by omega), if_neg (by omega), if_neg (by omega), if_neg (by omega)]
          exact d
      · subst h
        simp [Function.update_apply]
    · rw [hstep]
      simp only [Function.update_apply]
      rw [if_neg (by omega), if_neg (by omega), if_neg (by omega), if_neg (by omega)]
      exact ih2 k (by omega)

end LoopLemmas

section LineLoops

/-- The flat copy loop of the line and marker builders over `m` floats. -/
theorem flatCopy_nat {R : Type} (ops : Numerics R) (src dst : Nat → R) (m : Nat) (k : Nat) :
    forLoop (m : Int) (fun i (d : Nat → R) => Function.update d i (ops.toFloat (src i))) dst k =
      if k < m then ops.toFloat (src k) else dst k := by
  induction m with
  | zero => simp [forLoop_zero]
  | succ j ih =>
    rw [forLoop_succ, Function.update_apply, ih]
    split_ifs <;> first | rfl | (exfalso; omega) | (subst_vars; rfl)

/-- The logarithmic loop of the line and marker builders over `n` samples. -/
theorem logCopy_nat {R : Type} (ops : Numerics R) (src dst : Nat → R) (n : Nat) (k : Nat) :
    forLoop (n : Int) (fun i (d : Nat → R) =>
        Function.update (Function.update d (i * 2 + 0) (ops.toFloat (src (i * 2 + 0))))
          (i * 2 + 1) (ops.toFloat (ops.log10 (src (i * 2 + 1))))) dst k =
      if k < 2 * n then
        (if k % 2 = 0 then ops.toFloat (src k) else ops.toFloat (ops.log10 (src k)))
      else dst k := by
  induction n with
  | zero => simp [forLoop_zero]
  | succ j ih =>
    rw [forLoop_succ]
    simp only [Function.update_apply, ih]
    split_ifs <;> first | rfl | (exfalso; omega) | (subst_vars; rfl)

variable {R : Type} [LinearOrderedField R]

/-- What the line builder leaves in each float of the destination. -/
theorem writeLine_apply (ops : Numerics R) (logy : Bool) (src ldst : Nat → R) (n : Int)
    (k : Nat) :
    writeLine ops logy src n ldst k =
      if (k : Int) < 2 * n then
        (if logy = true ∧ k % 2 = 1 then ops.toFloat (ops.log10 (src k)) else ops.toFloat (src k))
      else ldst k := by
  unfold writeLine
  cases logy with
  | true =>
    rw [if_pos rfl, forLoop_toNat, logCopy_nat]
    split_ifs with h1 h2 h3 <;>
      first | rfl | (exfalso; omega) | (exfalso; simp at *; done) | (exfalso; simp at *; omega)
  | false =>
    rw [if_neg (by simp), forLoop_toNat, flatCopy_nat]
    split_ifs with h1 h2 h3 <;>
      first | rfl | (exfalso; omega) | (exfalso; simp at *)

/-- The marker builder is the line builder. -/
theorem writeMarker_eq_writeLine (ops : Numerics R) (logy : Bool) (src dst : Nat → R) (n : Int) :
    writeMarker ops logy src n dst = writeLine ops logy src n dst := rfl

/-- What the fill builder leaves in each float of the destination. -/
theorem writeFill_apply (ops : Numerics R) (src fdst : Nat → R) (n : Int) (i : Nat)
    (hi : (i : Int) < n) :
    writeFill ops src n fdst (4 * i) = ops.toFloat (src (2 * i)) ∧
    writeFill ops src n fdst (4 * i + 1) = ops.toFloat 0 ∧
    writeFill ops src n fdst (4 * i + 2) = ops.toFloat (src (2 * i)) ∧
    writeFill ops src n fdst (4 * i + 3) = ops.toFloat (src (2 * i + 1)) := by
  have h := (writeFill_nat ops src fdst n.toNat).1 i (by omega)
  have e : writeFill ops src n fdst = writeFill ops src (n.toNat : Int) fdst := by
    unfold writeFill
    rw [forLoop_toNat]
  rw [e]
  exact h

end LineLoops

/-! ## The phases of the frame update, projection by projection -/

section PhaseLemmas

variable {R : Type} [LinearOrderedField R] [FloorRing R]

@[simp] theorem syncBlocked_plot (c : Ctx R) : (syncBlocked c).plot = c.plot := by
  unfold syncBlocked; split <;> rfl

@[simp] theorem syncBlocked_trace (c : Ctx R) : (syncBlocked c).trace = c.trace := by
  unfold syncBlocked; split <;> rfl

@[simp] theorem syncBlocked_n_fill (c : Ctx R) :
    (syncBlocked c).n_fill = { c.n_fill with m_blocked := !c.plot.m_fill } := by
  unfold syncBlocked
  split
  · rfl
  · next h =>
    rcases c with ⟨plot, ⟨g, m, b, v⟩, nl, nm, ds, tr⟩
    simp only [Bool.or_eq_true, not_or, beq_iff_eq] at h
    simp only [FillNode.mk.injEq, true_and]
    cases b <;> cases hf : plot.m_fill <;> simp_all

@[simp] theorem syncBlocked_n_line (c : Ctx R) :
    (syncBlocked c).n_line = { c.n_line with m_blocked := !c.plot.m_line } := by
  unfold syncBlocked
  split
  · rfl
  · next h =>
    rcases c with ⟨plot, nf, ⟨g, m, b, v⟩, nm, ds, tr⟩
    simp only [Bool.or_eq_true, not_or, beq_iff_eq] at h
    simp only [LineNode.mk.injEq, true_and]
    cases b <;> cases hf : plot.m_line <;> simp_all

@[simp] theorem syncBlocked_n_marker (c : Ctx R) :
    (syncBlocked c).n_marker = { c.n_marker with m_blocked := !c.plot.m_marker } := by
  unfold syncBlocked
  split
  · rfl
  · next h =>
    rcases c with ⟨plot, nf, nl, ⟨g, m, b, v⟩, ds, tr⟩
    simp only [Bool.or_eq_true, not_or, beq_iff_eq] at h
    simp only [MarkerNode.mk.injEq, true_and]
    cases b <;> cases hf : plot.m_marker <;> simp_all

@[simp] theorem syncBlocked_dirty_state (c : Ctx R) :
    (syncBlocked c).dirty_state =
      { c.dirty_state with
        DirtySubtreeBlocked := c.dirty_state.DirtySubtreeBlocked || toggled c } := by
  unfold syncBlocked toggled
  split
  · next h => simp [h]
  · next h => simp [h]

end PhaseLemmas

section PhaseLemmasFill

variable {R : Type} [LinearOrderedField R] [FloorRing R]

@[simp] theorem updateFillNode_n_line (ops : Numerics R) (c : Ctx R) (N : Int) :
    (updateFillNode ops c N).n_line = c.n_line := by
  unfold updateFillNode; dsimp only; split_ifs <;> rfl

@[simp] theorem updateFillNode_n_marker (ops : Numerics R) (c : Ctx R) (N : Int) :
    (updateFillNode ops c N).n_marker = c.n_marker := by
  unfold updateFillNode; dsimp only; split_ifs <;> rfl

@[simp] theorem updateFillNode_dirty_state (ops : Numerics R) (c : Ctx R) (N : Int) :
    (updateFillNode ops c N).dirty_state = c.dirty_state := by
  unfold updateFillNode; dsimp only; split_ifs <;> rfl

@[simp] theorem updateFillNode_plot (ops : Numerics R) (c : Ctx R) (N : Int) :
    (updateFillNode ops c N).plot =
      { c.plot with
        m_new_data := c.plot.m_new_data ||
          (c.plot.m_fill && decide (c.n_fill.geometry.vertexCount ≠ 2 * N)) } := by
  rcases c with ⟨p, nf, nl, nm, ds, tr⟩
  cases p
  unfold updateFillNode; dsimp only; split_ifs with h1 h2 <;> simp_all

@[simp] theorem updateFillNode_trace (ops : Numerics R) (c : Ctx R) (N : Int) :
    (updateFillNode ops c N).trace =
      c.trace ++ (if c.plot.m_fill = true ∧ c.n_fill.geometry.vertexCount ≠ 2 * N
        then [Effect.allocate Layer.fill (2 * N)] else []) := by
  unfold updateFillNode; dsimp only; split_ifs <;> simp_all

@[simp] theorem updateFillNode_n_fill_geometry (ops : Numerics R) (c : Ctx R) (N : Int) :
    (updateFillNode ops c N).n_fill.geometry =
      (if c.plot.m_fill = true ∧ c.n_fill.geometry.vertexCount ≠ 2 * N
        then c.n_fill.geometry.allocate ops (2 * N) else c.n_fill.geometry) := by
  unfold updateFillNode; dsimp only; split_ifs <;> simp_all

@[simp] theorem updateFillNode_n_fill_m_blocked (ops : Numerics R) (c : Ctx R) (N : Int) :
    (updateFillNode ops c N).n_fill.m_blocked = c.n_fill.m_blocked := by
  unfold updateFillNode; dsimp only; split_ifs <;> rfl

@[simp] theorem updateFillNode_n_fill_m_data_valid (ops : Numerics R) (c : Ctx R) (N : Int) :
    (updateFillNode ops c N).n_fill.m_data_valid = c.n_fill.m_data_valid := by
  unfold updateFillNode; dsimp only; split_ifs <;> rfl

@[simp] theorem updateFillNode_n_fill_material (ops : Numerics R) (c : Ctx R) (N : Int) :
    (updateFillNode ops c N).n_fill.material =
      (if c.plot.m_fill = true then
        { m_size := ⟨c.plot.width, c.plot.height⟩
          m_scale := ⟨1 / c.plot.m_view_rect.w, 1 / c.plot.m_view_rect.h⟩
          m_offset := ⟨c.plot.m_view_rect.xp, c.plot.m_view_rect.yp⟩
          m_color := c.plot.m_fillcolor
          blending := decide (c.plot.m_fillcolor.alphaF ≠ (1 : R)) }
      else c.n_fill.material) := by
  unfold updateFillNode; dsimp only; split_ifs <;> rfl

end PhaseLemmasFill

section PhaseLemmasLine

variable {R : Type} [LinearOrderedField R] [FloorRing R]

@[simp] theorem updateLineNode_n_fill (ops : Numerics R) (c : Ctx R) (N : Int) :
    (updateLineNode ops c N).n_fill = c.n_fill := by
  unfold updateLineNode; dsimp only; split_ifs <;> rfl

@[simp] theorem updateLineNode_n_marker (ops : Numerics R) (c : Ctx R) (N : Int) :
    (updateLineNode ops c N).n_marker = c.n_marker := by
  unfold updateLineNode; dsimp only; split_ifs <;> rfl

@[simp] theorem updateLineNode_dirty_state (ops : Numerics R) (c : Ctx R) (N : Int) :
    (updateLineNode ops c N).dirty_state = c.dirty_state := by
  unfold updateLineNode; dsimp only; split_ifs <;> rfl

@[simp] theorem updateLineNode_plot (ops : Numerics R) (c : Ctx R) (N : Int) :
    (updateLineNode ops c N).plot =
      { c.plot with
        m_new_data := c.plot.m_new_data ||
          (c.plot.m_line && decide (c.n_line.geometry.vertexCount ≠ N)) } := by
  rcases c with ⟨p, nf, nl, nm, ds, tr⟩
  cases p
  unfold updateLineNode QSGGeometry.vertexCount; dsimp only; split_ifs with h1 h2 <;> simp_all

@[simp] theorem updateLineNode_trace (ops : Numerics R) (c : Ctx R) (N : Int) :
    (updateLineNode ops c N).trace =
      c.trace ++ (if c.plot.m_line = true ∧ c.n_line.geometry.vertexCount ≠ N
        then [Effect.allocate Layer.line N] else []) := by
  unfold updateLineNode QSGGeometry.vertexCount; dsimp only; split_ifs <;> simp_all

@[simp] theorem updateLineNode_n_line_geometry (ops : Numerics R) (c : Ctx R) (N : Int) :
    (updateLineNode ops c N).n_line.geometry =
      (if c.plot.m_line = true then
        (if c.n_line.geometry.vertexCount ≠ N then
          QSGGeometry.allocate ops
            { c.n_line.geometry with m_line_width := ops.toFloat c.plot.m_linewidth } N
        else { c.n_line.geometry with m_line_width := ops.toFloat c.plot.m_linewidth })
      else c.n_line.geometry) := by
  unfold updateLineNode QSGGeometry.vertexCount; dsimp only; split_ifs <;> simp_all

@[simp] theorem updateLineNode_n_line_m_blocked (ops : Numerics R) (c : Ctx R) (N : Int) :
    (updateLineNode ops c N).n_line.m_blocked = c.n_line.m_blocked := by
  unfold updateLineNode; dsimp only; split_ifs <;> rfl

@[simp] theorem updateLineNode_n_line_m_data_valid (ops : Numerics R) (c : Ctx R) (N : Int) :
    (updateLineNode ops c N).n_line.m_data_valid = c.n_line.m_data_valid := by
  unfold updateLineNode; dsimp only; split_ifs <;> rfl

@[simp] theorem updateLineNode_n_line_material (ops : Numerics R) (c : Ctx R) (N : Int) :
    (updateLineNode ops c N).n_line.material =
      (if c.plot.m_line = true then
        { m_size := ⟨c.plot.width, c.plot.height⟩
          m_scale := ⟨1 / c.plot.m_view_rect.w, 1 / c.plot.m_view_rect.h⟩
          m_offset := ⟨c.plot.m_view_rect.xp, c.plot.m_view_rect.yp⟩
          m_color := c.plot.m_linecolor
          blending := decide (c.plot.m_linecolor.alphaF ≠ (1 : R)) }
      else c.n_line.material) := by
  unfold updateLineNode; dsimp only; split_ifs <;> rfl

end PhaseLemmasLine

section PhaseLemmasMarker

variable {R : Type} [LinearOrderedField R] [FloorRing R]

@[simp] theorem updateMarkerNode_n_fill (ops : Numerics R) (c : Ctx R) (N : Int) :
    (updateMarkerNode ops c N).n_fill = c.n_fill := by
  unfold updateMarkerNode updateMarkerImage; dsimp only; split_ifs <;> rfl

@[simp] theorem updateMarkerNode_n_line (ops : Numerics R) (c : Ctx R) (N : Int) :
    (updateMarkerNode ops c N).n_line = c.n_line := by
  unfold updateMarkerNode updateMarkerImage; dsimp only; split_ifs <;> rfl

@[simp] theorem updateMarkerNode_dirty_state (ops : Numerics R) (c : Ctx R) (N : Int) :
    (updateMarkerNode ops c N).dirty_state = c.dirty_state := by
  unfold updateMarkerNode updateMarkerImage; dsimp only; split_ifs <;> rfl

@[simp] theorem updateMarkerNode_plot (ops : Numerics R) (c : Ctx R) (N : Int) :
    (updateMarkerNode ops c N).plot =
      { c.plot with
        m_new_data := c.plot.m_new_data ||
          (c.plot.m_marker && decide (c.n_marker.geometry.vertexCount ≠ N)) } := by
  rcases c with ⟨p, nf, nl, nm, ds, tr⟩
  cases p
  unfold updateMarkerNode updateMarkerImage QSGGeometry.vertexCount
  dsimp only; split_ifs <;> simp_all

@[simp] theorem updateMarkerNode_trace (ops : Numerics R) (c : Ctx R) (N : Int) :
    (updateMarkerNode ops c N).trace =
      c.trace
        ++ (if c.plot.m_marker = true ∧ markerImageStale c
          then [Effect.paintMarkerImage (Int.ceil c.plot.m_markersize)] else [])
        ++ (if c.plot.m_marker = true ∧ c.n_marker.geometry.vertexCount ≠ N
          then [Effect.allocate Layer.marker N] else []) := by
  unfold updateMarkerNode updateMarkerImage markerImageStale QSGGeometry.vertexCount
  dsimp only; split_ifs <;> simp_all

@[simp] theorem updateMarkerNode_n_marker_geometry (ops : Numerics R) (c : Ctx R) (N : Int) :
    (updateMarkerNode ops c N).n_marker.geometry =
      (if c.plot.m_marker = true ∧ c.n_marker.geometry.vertexCount ≠ N
        then c.n_marker.geometry.allocate ops N else c.n_marker.geometry) := by
  unfold updateMarkerNode updateMarkerImage QSGGeometry.vertexCount
  dsimp only; split_ifs <;> simp_all

@[simp] theorem updateMarkerNode_n_marker_m_blocked (ops : Numerics R) (c : Ctx R) (N : Int) :
    (updateMarkerNode ops c N).n_marker.m_blocked = c.n_marker.m_blocked := by
  unfold updateMarkerNode updateMarkerImage; dsimp only; split_ifs <;> rfl

@[simp] theorem updateMarkerNode_n_marker_m_data_valid (ops : Numerics R) (c : Ctx R) (N : Int) :
    (updateMarkerNode ops c N).n_marker.m_data_valid = c.n_marker.m_data_valid := by
  unfold updateMarkerNode updateMarkerImage; dsimp only; split_ifs <;> rfl

@[simp] theorem updateMarkerNode_n_marker_material (ops : Numerics R) (c : Ctx R) (N : Int) :
    (updateMarkerNode ops c N).n_marker.material =
      (if c.plot.m_marker = true then
        { m_size := ⟨c.plot.width, c.plot.height⟩
          m_scale := ⟨1 / c.plot.m_view_rect.w, 1 / c.plot.m_view_rect.h⟩
          m_offset := ⟨c.plot.m_view_rect.xp, c.plot.m_view_rect.yp⟩
          m_markercolor := c.plot.m_markercolor
          m_markersize := c.plot.m_markersize
          m_markersegments := c.plot.m_markersegments
          m_markerborder := c.plot.m_markerborder
          m_markerimage :=
            if markerImageStale c then paintedMarkerImage ops c.plot
            else c.n_marker.material.m_markerimage
          blending := true }
      else c.n_marker.material) := by
  unfold updateMarkerNode updateMarkerImage markerImageStale paintedMarkerImage
  dsimp only; split_ifs <;> rfl

end PhaseLemmasMarker

section PhaseLemmasRebuild

variable {R : Type} [LinearOrderedField R] [FloorRing R]

@[simp] theorem invalidate_dirty_state (c : Ctx R) :
    (invalidate c).dirty_state = c.dirty_state := by
  unfold invalidate; split <;> rfl

@[simp] theorem invalidate_trace (c : Ctx R) : (invalidate c).trace = c.trace := by
  unfold invalidate; split <;> rfl

@[simp] theorem invalidate_plot (c : Ctx R) :
    (invalidate c).plot = { c.plot with m_new_source := false, m_new_data := false } := by
  rcases c with ⟨p, nf, nl, nm, ds, tr⟩
  cases p
  unfold invalidate; dsimp only; split_ifs <;> simp_all

@[simp] theorem invalidate_n_fill (c : Ctx R) :
    (invalidate c).n_fill =
      { c.n_fill with
        m_data_valid := c.n_fill.m_data_valid && !(c.plot.m_new_source || c.plot.m_new_data) } := by
  rcases c with ⟨p, ⟨g, m, b, v⟩, nl, nm, ds, tr⟩
  unfold invalidate; dsimp only
  cases h1 : p.m_new_source <;> cases h2 : p.m_new_data <;> cases v <;> simp

@[simp] theorem invalidate_n_line (c : Ctx R) :
    (invalidate c).n_line =
      { c.n_line with
        m_data_valid := c.n_line.m_data_valid && !(c.plot.m_new_source || c.plot.m_new_data) } := by
  rcases c with ⟨p, nf, ⟨g, m, b, v⟩, nm, ds, tr⟩
  unfold invalidate; dsimp only
  cases h1 : p.m_new_source <;> cases h2 : p.m_new_data <;> cases v <;> simp

@[simp] theorem invalidate_n_marker (c : Ctx R) :
    (invalidate c).n_marker =
      { c.n_marker with
        m_data_valid :=
          c.n_marker.m_data_valid && !(c.plot.m_new_source || c.plot.m_new_data) } := by
  rcases c with ⟨p, nf, nl, ⟨g, m, b, v⟩, ds, tr⟩
  unfold invalidate; dsimp only
  cases h1 : p.m_new_source <;> cases h2 : p.m_new_data <;> cases v <;> simp

@[simp] theorem rebuildFill_plot (ops : Numerics R) (c : Ctx R) (src : Nat → R) (N : Int) :
    (rebuildFill ops c src N).plot = c.plot := by
  unfold rebuildFill; dsimp only; split_ifs <;> rfl

@[simp] theorem rebuildFill_n_line (ops : Numerics R) (c : Ctx R) (src : Nat → R) (N : Int) :
    (rebuildFill ops c src N).n_line = c.n_line := by
  unfold rebuildFill; dsimp only; split_ifs <;> rfl

@[simp] theorem rebuildFill_n_marker (ops : Numerics R) (c : Ctx R) (src : Nat → R) (N : Int) :
    (rebuildFill ops c src N).n_marker = c.n_marker := by
  unfold rebuildFill; dsimp only; split_ifs <;> rfl

@[simp] theorem rebuildFill_n_fill (ops : Numerics R) (c : Ctx R) (src : Nat → R) (N : Int) :
    (rebuildFill ops c src N).n_fill =
      (if c.plot.m_fill = true ∧ c.n_fill.m_data_valid = false then
        { c.n_fill with
          geometry := { c.n_fill.geometry with
            m_data := writeFill ops src N c.n_fill.geometry.m_data }
          m_data_valid := true }
      else c.n_fill) := by
  unfold rebuildFill QSGGeometry.vertexData; dsimp only; split_ifs <;> simp_all

@[simp] theorem rebuildFill_dirty_state (ops : Numerics R) (c : Ctx R) (src : Nat → R)
    (N : Int) :
    (rebuildFill ops c src N).dirty_state =
      { c.dirty_state with
        DirtyGeometry := c.dirty_state.DirtyGeometry ||
          (c.plot.m_fill && !c.n_fill.m_data_valid) } := by
  rcases c with ⟨p, nf, nl, nm, ⟨a, b, d⟩, tr⟩
  unfold rebuildFill; dsimp only; split_ifs <;> simp_all

@[simp] theorem rebuildFill_trace (ops : Numerics R) (c : Ctx R) (src : Nat → R) (N : Int) :
    (rebuildFill ops c src N).trace =
      c.trace ++ (if c.plot.m_fill = true ∧ c.n_fill.m_data_valid = false
        then [Effect.writeVertices Layer.fill] else []) := by
  unfold rebuildFill; dsimp only; split_ifs <;> simp_all

@[simp] theorem rebuildLine_plot (ops : Numerics R) (c : Ctx R) (src : Nat → R) (N : Int) :
    (rebuildLine ops c src N).plot = c.plot := by
  unfold rebuildLine; dsimp only; split_ifs <;> rfl

@[simp] theorem rebuildLine_n_fill (ops : Numerics R) (c : Ctx R) (src : Nat → R) (N : Int) :
    (rebuildLine ops c src N).n_fill = c.n_fill := by
  unfold rebuildLine; dsimp only; split_ifs <;> rfl

@[simp] theorem rebuildLine_n_marker (ops : Numerics R) (c : Ctx R) (src : Nat → R) (N : Int) :
    (rebuildLine ops c src N).n_marker = c.n_marker := by
  unfold rebuildLine; dsimp only; split_ifs <;> rfl

@[simp] theorem rebuildLine_n_line (ops : Numerics R) (c : Ctx R) (src : Nat → R) (N : Int) :
    (rebuildLine ops c src N).n_line =
      (if c.plot.m_line = true ∧ c.n_line.m_data_valid = false then
        { c.n_line with
          geometry := { c.n_line.geometry with
            m_data := writeLine ops c.plot.m_logy src N c.n_line.geometry.m_data }
          m_data_valid := true }
      else c.n_line) := by
  unfold rebuildLine QSGGeometry.vertexData; dsimp only; split_ifs <;> simp_all

@[simp] theorem rebuildLine_dirty_state (ops : Numerics R) (c : Ctx R) (src : Nat → R)
    (N : Int) :
    (rebuildLine ops c src N).dirty_state =
      { c.dirty_state with
        DirtyGeometry := c.dirty_state.DirtyGeometry ||
          (c.plot.m_line && !c.n_line.m_data_valid) } := by
  rcases c with ⟨p, nf, nl, nm, ⟨a, b, d⟩, tr⟩
  unfold rebuildLine; dsimp only; split_ifs <;> simp_all

@[simp] theorem rebuildLine_trace (ops : Numerics R) (c : Ctx R) (src : Nat → R) (N : Int) :
    (rebuildLine ops c src N).trace =
      c.trace ++ (if c.plot.m_line = true ∧ c.n_line.m_data_valid = false
        then [Effect.writeVertices Layer.line] else []) := by
  unfold rebuildLine; dsimp only; split_ifs <;> simp_all

@[simp] theorem rebuildMarker_plot (ops : Numerics R) (c : Ctx R) (src : Nat → R) (N : Int) :
    (rebuildMarker ops c src N).plot = c.plot := by
  unfold rebuildMarker; dsimp only; split_ifs <;> rfl

@[simp] theorem rebuildMarker_n_fill (ops : Numerics R) (c : Ctx R) (src : Nat → R) (N : Int) :
    (rebuildMarker ops c src N).n_fill = c.n_fill := by
  unfold rebuildMarker; dsimp only; split_ifs <;> rfl

@[simp] theorem rebuildMarker_n_line (ops : Numerics R) (c : Ctx R) (src : Nat → R) (N : Int) :
    (rebuildMarker ops c src N).n_line = c.n_line := by
  unfold rebuildMarker; dsimp only; split_ifs <;> rfl

@[simp] theorem rebuildMarker_n_marker (ops : Numerics R) (c : Ctx R) (src : Nat → R)
    (N : Int) :
    (rebuildMarker ops c src N).n_marker =
      (if c.plot.m_marker = true ∧ c.n_marker.m_data_valid = false then
        { c.n_marker with
          geometry := { c.n_marker.geometry with
            m_data := writeMarker ops c.plot.m_logy src N c.n_marker.geometry.m_data }
          m_data_valid := true }
      else c.n_marker) := by
  unfold rebuildMarker QSGGeometry.vertexData; dsimp only; split_ifs <;> simp_all

@[simp] theorem rebuildMarker_dirty_state (ops : Numerics R) (c : Ctx R) (src : Nat → R)
    (N : Int) :
    (rebuildMarker ops c src N).dirty_state =
      { c.dirty_state with
        DirtyGeometry := c.dirty_state.DirtyGeometry ||
          (c.plot.m_marker && !c.n_marker.m_data_valid) } := by
  rcases c with ⟨p, nf, nl, nm, ⟨a, b, d⟩, tr⟩
  unfold rebuildMarker; dsimp only; split_ifs <;> simp_all

@[simp] theorem rebuildMarker_trace (ops : Numerics R) (c : Ctx R) (src : Nat → R) (N : Int) :
    (rebuildMarker ops c src N).trace =
      c.trace ++ (if c.plot.m_marker = true ∧ c.n_marker.m_data_valid = false
        then [Effect.writeVertices Layer.marker] else []) := by
  unfold rebuildMarker; dsimp only; split_ifs <;> simp_all

end PhaseLemmasRebuild

/-! ## The frame update as a whole -/

section FrameLemmas

variable {R : Type} [LinearOrderedField R] [FloorRing R]

theorem ite_list_congr {α : Type} {P Q : Prop} [Decidable P] [Decidable Q] (h : P ↔ Q)
    (x : List α) : (if P then x else []) = (if Q then x else []) :=
  if_congr h rfl rfl

theorem append_ite_congr {α : Type} {P Q : Prop} [Decidable P] [Decidable Q] (h : P ↔ Q)
    {x y z : List α} (hyz : y = z) :
    (if P then x else []) ++ y = (if Q then x else []) ++ z := by
  rw [ite_list_congr h, hyz]

/-- With a data source the frame update is `updateNodes` run from `startCtx`. -/
theorem updatePaintNode_source (ops : Numerics R) (p : XYPlot R) (n : Option (QSGNode R))
    (src : DataSource R) (h : p.m_source = some src) :
    updatePaintNode ops p n =
      { plot := (updateNodes ops src (startCtx ops p n)).plot
        root := ⟨some ⟨(updateNodes ops src (startCtx ops p n)).n_fill,
          (updateNodes ops src (startCtx ops p n)).n_line,
          (updateNodes ops src (startCtx ops p n)).n_marker⟩⟩
        marked := some (updateNodes ops src (startCtx ops p n)).dirty_state
        trace := (updateNodes ops src (startCtx ops p n)).trace } := by
  unfold updatePaintNode
  simp only [h]
  cases n with
  | none => rfl
  | some r =>
    rcases r with ⟨_ | ch⟩ <;> rfl

/-- The plot after a frame update with a data source: both flags are cleared. -/
theorem updateNodes_plot (ops : Numerics R) (p : XYPlot R) (n : Option (QSGNode R))
    (src : DataSource R) :
    (updateNodes ops src (startCtx ops p n)).plot =
      { p with m_new_source := false, m_new_data := false } := by
  simp [updateNodes, startCtx]

/-- The effects of a frame update with a data source, in program order. -/
theorem updateNodes_trace (ops : Numerics R) (p : XYPlot R) (n : Option (QSGNode R))
    (src : DataSource R) :
    (updateNodes ops src (startCtx ops p n)).trace =
      startTrace n
        ++ (if reallocates ops p n src Layer.fill = true
          then [Effect.allocate Layer.fill (2 * sampleCount src)] else [])
        ++ (if reallocates ops p n src Layer.line = true
          then [Effect.allocate Layer.line (sampleCount src)] else [])
        ++ (if p.m_marker = true ∧ markerImageStale (startCtx ops p n)
          then [Effect.paintMarkerImage (Int.ceil p.m_markersize)] else [])
        ++ (if reallocates ops p n src Layer.marker = true
          then [Effect.allocate Layer.marker (sampleCount src)] else [])
        ++ (if rewrites ops p n src Layer.fill = true
          then [Effect.writeVertices Layer.fill] else [])
        ++ (if rewrites ops p n src Layer.line = true
          then [Effect.writeVertices Layer.line] else [])
        ++ (if rewrites ops p n src Layer.marker = true
          then [Effect.writeVertices Layer.marker] else []) := by
  simp only [updateNodes, rewrites, invalidates, reallocates, XYPlot.enabled, requiredCount,
    Children.vertexCount, Children.dataValid]
  simp [startCtx, sampleCount, markerImageStale]
  repeat' first
    | refine append_ite_congr ?_ ?_
    | refine ite_list_congr ?_ _
  all_goals (simp only [← Bool.not_eq_true]; tauto)

end FrameLemmas

section NodeSummaries

variable {R : Type} [LinearOrderedField R] [FloorRing R]

theorem updateNodes_fill_count (ops : Numerics R) (p : XYPlot R) (n : Option (QSGNode R))
    (src : DataSource R) :
    (updateNodes ops src (startCtx ops p n)).n_fill.geometry.vertexCount =
      (if p.m_fill = true then 2 * sampleCount src
        else (startChildren ops n).n_fill.geometry.vertexCount) := by
  simp only [updateNodes, startCtx, sampleCount]
  simp
  split_ifs <;> simp_all [QSGGeometry.vertexCount, QSGGeometry.allocate]

theorem updateNodes_line_count (ops : Numerics R) (p : XYPlot R) (n : Option (QSGNode R))
    (src : DataSource R) :
    (updateNodes ops src (startCtx ops p n)).n_line.geometry.vertexCount =
      (if p.m_line = true then sampleCount src
        else (startChildren ops n).n_line.geometry.vertexCount) := by
  simp only [updateNodes, startCtx, sampleCount]
  simp
  split_ifs <;> simp_all [QSGGeometry.vertexCount, QSGGeometry.allocate]

theorem updateNodes_marker_count (ops : Numerics R) (p : XYPlot R) (n : Option (QSGNode R))
    (src : DataSource R) :
    (updateNodes ops src (startCtx ops p n)).n_marker.geometry.vertexCount =
      (if p.m_marker = true then sampleCount src
        else (startChildren ops n).n_marker.geometry.vertexCount) := by
  simp only [updateNodes, startCtx, sampleCount]
  simp
  split_ifs <;> simp_all [QSGGeometry.vertexCount, QSGGeometry.allocate]

theorem updateNodes_fill_data (ops : Numerics R) (p : XYPlot R) (n : Option (QSGNode R))
    (src : DataSource R) :
    (updateNodes ops src (startCtx ops p n)).n_fill.geometry.vertexData =
      (if rewrites ops p n src Layer.fill = true then
        writeFill ops src.data (sampleCount src)
          (if reallocates ops p n src Layer.fill = true then fun _ => ops.uninit
            else (startChildren ops n).n_fill.geometry.vertexData)
      else (startChildren ops n).n_fill.geometry.vertexData) := by
  simp only [updateNodes, rewrites, invalidates, reallocates, XYPlot.enabled, requiredCount,
    Children.vertexCount, Children.dataValid]
  simp [startCtx, sampleCount]
  split_ifs <;> simp_all [QSGGeometry.vertexData, QSGGeometry.allocate] <;>
    first | tauto | (simp only [← Bool.not_eq_true] at *; tauto)

theorem updateNodes_line_data (ops : Numerics R) (p : XYPlot R) (n : Option (QSGNode R))
    (src : DataSource R) :
    (updateNodes ops src (startCtx ops p n)).n_line.geometry.vertexData =
      (if rewrites ops p n src Layer.line = true then
        writeLine ops p.m_logy src.data (sampleCount src)
          (if reallocates ops p n src Layer.line = true then fun _ => ops.uninit
            else (startChildren ops n).n_line.geometry.vertexData)
      else (startChildren ops n).n_line.geometry.vertexData) := by
  simp only [updateNodes, rewrites, invalidates, reallocates, XYPlot.enabled, requiredCount,
    Children.vertexCount, Children.dataValid]
  simp [startCtx, sampleCount]
  split_ifs <;> simp_all [QSGGeometry.vertexData, QSGGeometry.allocate] <;>
    first | tauto | (simp only [← Bool.not_eq_true] at *; tauto)

theorem updateNodes_marker_data (ops : Numerics R) (p : XYPlot R) (n : Option (QSGNode R))
    (src : DataSource R) :
    (updateNodes ops src (startCtx ops p n)).n_marker.geometry.vertexData =
      (if rewrites ops p n src Layer.marker = true then
        writeMarker ops p.m_logy src.data (sampleCount src)
          (if reallocates ops p n src Layer.marker = true then fun _ => ops.uninit
            else (startChildren ops n).n_marker.geometry.vertexData)
      else (startChildren ops n).n_marker.geometry.vertexData) := by
  simp only [updateNodes, rewrites, invalidates, reallocates, XYPlot.enabled, requiredCount,
    Children.vertexCount, Children.dataValid]
  simp [startCtx, sampleCount]
  split_ifs <;> simp_all [QSGGeometry.vertexData, QSGGeometry.allocate] <;>
    first | tauto | (simp only [← Bool.not_eq_true] at *; tauto)

theorem updateNodes_data_valid (ops : Numerics R) (p : XYPlot R) (n : Option (QSGNode R))
    (src : DataSource R) :
    (updateNodes ops src (startCtx ops p n)).n_fill.m_data_valid =
        (p.m_fill || ((startChildren ops n).n_fill.m_data_valid && !invalidates ops p n src)) ∧
      (updateNodes ops src (startCtx ops p n)).n_line.m_data_valid =
        (p.m_line || ((startChildren ops n).n_line.m_data_valid && !invalidates ops p n src)) ∧
      (updateNodes ops src (startCtx ops p n)).n_marker.m_data_valid =
        (p.m_marker ||
          ((startChildren ops n).n_marker.m_data_valid && !invalidates ops p n src)) := by
  simp only [updateNodes, rewrites, invalidates, reallocates, XYPlot.enabled, requiredCount,
    Children.vertexCount, Children.dataValid]
  simp [startCtx, sampleCount]
  refine ⟨?_, ?_, ?_⟩ <;>
  · split_ifs <;> simp_all <;>
      first | tauto | (simp only [Bool.and_assoc]) | (simp only [← Bool.not_eq_true] at *; tauto)

theorem updateNodes_blocked (ops : Numerics R) (p : XYPlot R) (n : Option (QSGNode R))
    (src : DataSource R) :
    (updateNodes ops src (startCtx ops p n)).n_fill.m_blocked = (!p.m_fill) ∧
      (updateNodes ops src (startCtx ops p n)).n_line.m_blocked = (!p.m_line) ∧
      (updateNodes ops src (startCtx ops p n)).n_marker.m_blocked = (!p.m_marker) := by
  simp only [updateNodes]
  simp [startCtx, sampleCount]
  refine ⟨?_, ?_, ?_⟩ <;>
  · split_ifs <;> simp_all

theorem updateNodes_dirty_state (ops : Numerics R) (p : XYPlot R) (n : Option (QSGNode R))
    (src : DataSource R) :
    (updateNodes ops src (startCtx ops p n)).dirty_state =
      { DirtyMaterial := true
        DirtyGeometry := rewrites ops p n src Layer.fill || rewrites ops p n src Layer.line
          || rewrites ops p n src Layer.marker
        DirtySubtreeBlocked := toggled (startCtx ops p n) } := by
  simp only [updateNodes, rewrites, invalidates, reallocates, XYPlot.enabled, requiredCount,
    Children.vertexCount, Children.dataValid]
  simp [startCtx, sampleCount, toggled]
  ac_rfl

theorem updateNodes_fill_material (ops : Numerics R) (p : XYPlot R) (n : Option (QSGNode R))
    (src : DataSource R) :
    (updateNodes ops src (startCtx ops p n)).n_fill.material =
      (if p.m_fill = true then
        { m_size := ⟨p.width, p.height⟩
          m_scale := ⟨1 / p.m_view_rect.w, 1 / p.m_view_rect.h⟩
          m_offset := ⟨p.m_view_rect.xp, p.m_view_rect.yp⟩
          m_color := p.m_fillcolor
          blending := decide (p.m_fillcolor.alphaF ≠ (1 : R)) }
      else (startChildren ops n).n_fill.material) := by
  simp only [updateNodes]
  simp [startCtx]
  split_ifs <;> simp_all

theorem updateNodes_line_material (ops : Numerics R) (p : XYPlot R) (n : Option (QSGNode R))
    (src : DataSource R) :
    (updateNodes ops src (startCtx ops p n)).n_line.material =
      (if p.m_line = true then
        { m_size := ⟨p.width, p.height⟩
          m_scale := ⟨1 / p.m_view_rect.w, 1 / p.m_view_rect.h⟩
          m_offset := ⟨p.m_view_rect.xp, p.m_view_rect.yp⟩
          m_color := p.m_linecolor
          blending := decide (p.m_linecolor.alphaF ≠ (1 : R)) }
      else (startChildren ops n).n_line.material) := by
  simp only [updateNodes]
  simp [startCtx]
  split_ifs <;> simp_all

theorem updateNodes_marker_material (ops : Numerics R) (p : XYPlot R)
    (n : Option (QSGNode R)) (src : DataSource R) :
    (updateNodes ops src (startCtx ops p n)).n_marker.material =
      (if p.m_marker = true then
        { m_size := ⟨p.width, p.height⟩
          m_scale := ⟨1 / p.m_view_rect.w, 1 / p.m_view_rect.h⟩
          m_offset := ⟨p.m_view_rect.xp, p.m_view_rect.yp⟩
          m_markercolor := p.m_markercolor
          m_markersize := p.m_markersize
          m_markersegments := p.m_markersegments
          m_markerborder := p.m_markerborder
          m_markerimage :=
            if markerImageStale (startCtx ops p n) then paintedMarkerImage ops p
            else (startChildren ops n).n_marker.material.m_markerimage
          blending := true }
      else (startChildren ops n).n_marker.material) := by
  simp only [updateNodes]
  simp [startCtx, markerImageStale, paintedMarkerImage]
  split_ifs <;> simp_all

end NodeSummaries

section Claims123

variable {R : Type} [LinearOrderedField R] [FloorRing R]

/-- With a data source the returned root holds the three nodes `updateNodes` leaves. -/
theorem frame_children (ops : Numerics R) (p : XYPlot R) (n : Option (QSGNode R))
    (src : DataSource R) (h : p.m_source = some src) :
    (updatePaintNode ops p n).root.children =
      some ⟨(updateNodes ops src (startCtx ops p n)).n_fill,
        (updateNodes ops src (startCtx ops p n)).n_line,
        (updateNodes ops src (startCtx ops p n)).n_marker⟩ := by
  rw [updatePaintNode_source ops p n src h]

/-- With a data source the trace of the frame is the trace `updateNodes` leaves. -/
theorem frame_trace (ops : Numerics R) (p : XYPlot R) (n : Option (QSGNode R))
    (src : DataSource R) (h : p.m_source = some src) :
    (updatePaintNode ops p n).trace = (updateNodes ops src (startCtx ops p n)).trace := by
  rw [updatePaintNode_source ops p n src h]

theorem startTrace_no_write (n : Option (QSGNode R)) (l : Layer) :
    Effect.writeVertices l ∉ startTrace n := by
  unfold startTrace
  rcases n with _ | ⟨_ | ch⟩ <;> simp

/-- The vertices of a layer are rewritten exactly when `rewrites` holds. -/
theorem writeVertices_mem_iff (ops : Numerics R) (p : XYPlot R) (n : Option (QSGNode R))
    (src : DataSource R) (l : Layer) :
    Effect.writeVertices l ∈ (updateNodes ops src (startCtx ops p n)).trace ↔
      rewrites ops p n src l = true := by
  rw [updateNodes_trace]
  have h0 := startTrace_no_write n l
  cases l <;> simp [h0]

/-- Claim C1, amended: after a frame update with a data source present, the geometry of
every enabled layer has exactly `2N` (fill) respectively `N` (line, marker) vertices,
where `N = dataWidth / 2`; the geometry of a disabled layer keeps the vertex count it had
before the update (0 for a node created by this update). -/
theorem vertex_counts_after_update (ops : Numerics R) (p : XYPlot R)
    (n : Option (QSGNode R)) (src : DataSource R) (h : p.m_source = some src) :
    ∃ ch, (updatePaintNode ops p n).root.children = some ch ∧
      ch.n_fill.geometry.vertexCount =
        (if p.m_fill = true then 2 * sampleCount src
          else (startChildren ops n).n_fill.geometry.vertexCount) ∧
      ch.n_line.geometry.vertexCount =
        (if p.m_line = true then sampleCount src
          else (startChildren ops n).n_line.geometry.vertexCount) ∧
      ch.n_marker.geometry.vertexCount =
        (if p.m_marker = true then sampleCount src
          else (startChildren ops n).n_marker.geometry.vertexCount) :=
  ⟨_, frame_children ops p n src h, updateNodes_fill_count ops p n src,
    updateNodes_line_count ops p n src, updateNodes_marker_count ops p n src⟩

/-- Witness of C1 (amended): three samples, fill and line enabled, marker disabled, no
root yet: 6 fill vertices, 3 line vertices, and the new marker geometry stays empty. -/
theorem vertex_counts_after_update_witness :
    (examplePlot true true false false : XYPlot ℝ).m_source
        = some ⟨bufferOf [0, 1, 1, 10, 2, 100], 6, 1⟩ ∧
      ∃ ch, (updatePaintNode Numerics.exact (examplePlot true true false false) none).root.children
          = some ch ∧
        ch.n_fill.geometry.vertexCount = 6 ∧ ch.n_line.geometry.vertexCount = 3 ∧
        ch.n_marker.geometry.vertexCount = 0 := by
  refine ⟨rfl, ?_⟩
  obtain ⟨ch, hch, h1, h2, h3⟩ := vertex_counts_after_update Numerics.exact
    (examplePlot true true false false) none ⟨bufferOf [0, 1, 1, 10, 2, 100], 6, 1⟩ rfl
  refine ⟨ch, hch, ?_, ?_, ?_⟩
  · rw [h1]; rfl
  · rw [h2]; rfl
  · rw [h3]; rfl

/-- Counterexample to C1 as stated: with the fill layer disabled and three samples, the
fill geometry of the first frame has 0 vertices, not `2N = 6`. -/
theorem vertex_count_disabled_fill_counterexample :
    ∃ ch, (updatePaintNode Numerics.exact (examplePlot false true true false) none).root.children
        = some ch ∧
      sampleCount (⟨bufferOf [0, 1, 1, 10, 2, 100], 6, 1⟩ : DataSource ℝ) = 3 ∧
      ch.n_fill.geometry.vertexCount = 0 ∧
      ch.n_fill.geometry.vertexCount
        ≠ 2 * sampleCount (⟨bufferOf [0, 1, 1, 10, 2, 100], 6, 1⟩ : DataSource ℝ) := by
  have hc := updateNodes_fill_count Numerics.exact (examplePlot false true true false) none
    (⟨bufferOf [0, 1, 1, 10, 2, 100], 6, 1⟩ : DataSource ℝ)
  have h0 : (updateNodes Numerics.exact (⟨bufferOf [0, 1, 1, 10, 2, 100], 6, 1⟩ : DataSource ℝ)
      (startCtx Numerics.exact (examplePlot false true true false) none)).n_fill.geometry.vertexCount
      = 0 := by
    rw [hc]; rfl
  refine ⟨_, frame_children _ _ _ _ rfl, rfl, h0, ?_⟩
  rw [h0]
  decide

/-- Vertex `i < N` of a rewritten line geometry. -/
theorem writeLine_vertex (ops : Numerics R) (logy : Bool) (src dst : Nat → R) (N : Int)
    (i : Nat) (hi : (i : Int) < N) :
    (writeLine ops logy src N dst (2 * i), writeLine ops logy src N dst (2 * i + 1)) =
      (ops.toFloat (src (2 * i)),
        ops.toFloat (if logy = true then ops.log10 (src (2 * i + 1)) else src (2 * i + 1))) := by
  have a : writeLine ops logy src N dst (2 * i) = ops.toFloat (src (2 * i)) := by
    rw [writeLine_apply]
    split_ifs with h1 h2 <;> first | rfl | (exfalso; omega)
  have b : writeLine ops logy src N dst (2 * i + 1) =
      ops.toFloat (if logy = true then ops.log10 (src (2 * i + 1)) else src (2 * i + 1)) := by
    rw [writeLine_apply]
    split_ifs with h1 h2 h3 <;>
      first | rfl | (exfalso; omega) | (exfalso; simp_all; done) | (exfalso; simp_all; omega)
  rw [a, b]

/-- Claim C2: when the line (marker) layer is enabled and a frame update rewrites its
vertices from a buffer of `N` interleaved samples `(x_i, y_i)`, vertex `i` is the sample
converted to `float`, `(x_i, y_i)` with logarithmic-y off and `(x_i, log10 y_i)` with it
on, for every `i < N` in buffer order; and the marker vertices equal the line vertices. -/
theorem line_marker_vertices (ops : Numerics R) (p : XYPlot R) (n : Option (QSGNode R))
    (src : DataSource R) (ch : Children R) (h : p.m_source = some src)
    (hch : (updatePaintNode ops p n).root.children = some ch) :
    (p.m_line = true → Effect.writeVertices Layer.line ∈ (updatePaintNode ops p n).trace →
      ∀ i : Nat, (i : Int) < sampleCount src →
        ch.n_line.geometry.vertex i =
          (ops.toFloat (src.data (2 * i)),
            ops.toFloat (if p.m_logy = true then ops.log10 (src.data (2 * i + 1))
              else src.data (2 * i + 1)))) ∧
    (p.m_marker = true → Effect.writeVertices Layer.marker ∈ (updatePaintNode ops p n).trace →
      ∀ i : Nat, (i : Int) < sampleCount src →
        ch.n_marker.geometry.vertex i =
          (ops.toFloat (src.data (2 * i)),
            ops.toFloat (if p.m_logy = true then ops.log10 (src.data (2 * i + 1))
              else src.data (2 * i + 1)))) ∧
    (p.m_line = true → p.m_marker = true →
      Effect.writeVertices Layer.line ∈ (updatePaintNode ops p n).trace →
      Effect.writeVertices Layer.marker ∈ (updatePaintNode ops p n).trace →
      ∀ i : Nat, (i : Int) < sampleCount src →
        ch.n_marker.geometry.vertex i = ch.n_line.geometry.vertex i) := by
  rw [frame_children ops p n src h] at hch
  rw [frame_trace ops p n src h, writeVertices_mem_iff, writeVertices_mem_iff]
  cases hch
  have hl : rewrites ops p n src Layer.line = true → ∀ i : Nat, (i : Int) < sampleCount src →
      (updateNodes ops src (startCtx ops p n)).n_line.geometry.vertex i =
        (ops.toFloat (src.data (2 * i)),
          ops.toFloat (if p.m_logy = true then ops.log10 (src.data (2 * i + 1))
            else src.data (2 * i + 1))) := by
    intro hr i hi
    have hd := updateNodes_line_data ops p n src
    rw [if_pos hr] at hd
    unfold QSGGeometry.vertex
    unfold QSGGeometry.vertexData at hd
    rw [hd]
    exact writeLine_vertex ops p.m_logy src.data _ (sampleCount src) i hi
  have hm : rewrites ops p n src Layer.marker = true → ∀ i : Nat, (i : Int) < sampleCount src →
      (updateNodes ops src (startCtx ops p n)).n_marker.geometry.vertex i =
        (ops.toFloat (src.data (2 * i)),
          ops.toFloat (if p.m_logy = true then ops.log10 (src.data (2 * i + 1))
            else src.data (2 * i + 1))) := by
    intro hr i hi
    have hd := updateNodes_marker_data ops p n src
    rw [if_pos hr, writeMarker_eq_writeLine] at hd
    unfold QSGGeometry.vertex
    unfold QSGGeometry.vertexData at hd
    rw [hd]
    exact writeLine_vertex ops p.m_logy src.data _ (sampleCount src) i hi
  refine ⟨fun _ hr => hl hr, fun _ hr => hm hr, fun _ _ hr1 hr2 i hi => ?_⟩
  rw [hl hr1 i hi, hm hr2 i hi]

end Claims123

section ExactExamples

theorem exact_log10_one : Numerics.exact.log10 1 = 0 := by
  simp [Numerics.exact]

theorem exact_log10_ten : Numerics.exact.log10 10 = 1 := by
  simp only [Numerics.exact]
  exact Real.logb_self_eq_one (by norm_num)

theorem exact_log10_hundred : Numerics.exact.log10 100 = 2 := by
  simp only [Numerics.exact]
  have h : (100 : ℝ) = 10 ^ 2 := by norm_num
  rw [h, Real.logb_pow, Real.logb_self_eq_one (by norm_num)]
  norm_num

/-- In the example plot both flags are raised, so every enabled layer is rewritten. -/
theorem examplePlot_rewrites (fill line marker logy : Bool) (l : Layer)
    (hl : (examplePlot fill line marker logy : XYPlot ℝ).enabled l = true) :
    Effect.writeVertices l ∈
      (updatePaintNode Numerics.exact (examplePlot fill line marker logy) none).trace := by
  rw [frame_trace _ _ _ _ rfl, writeVertices_mem_iff]
  unfold rewrites invalidates
  rw [hl]
  rfl

/-- Witness of C2: the buffer `[(0,1),(1,10),(2,100)]` gives the line and marker vertices
`(0,1),(1,10),(2,100)` with logarithmic-y off and `(0,0),(1,1),(2,2)` with it on. -/
theorem line_marker_vertices_witness :
    (∃ ch, (updatePaintNode Numerics.exact (examplePlot false true true false) none).root.children
        = some ch ∧
      ch.n_line.geometry.vertex 0 = ((0 : ℝ), (1 : ℝ)) ∧
      ch.n_line.geometry.vertex 1 = ((1 : ℝ), (10 : ℝ)) ∧
      ch.n_line.geometry.vertex 2 = ((2 : ℝ), (100 : ℝ)) ∧
      ch.n_marker.geometry.vertex 0 = ((0 : ℝ), (1 : ℝ)) ∧
      ch.n_marker.geometry.vertex 1 = ((1 : ℝ), (10 : ℝ)) ∧
      ch.n_marker.geometry.vertex 2 = ((2 : ℝ), (100 : ℝ))) ∧
    (∃ ch, (updatePaintNode Numerics.exact (examplePlot false true true true) none).root.children
        = some ch ∧
      ch.n_line.geometry.vertex 0 = ((0 : ℝ), (0 : ℝ)) ∧
      ch.n_line.geometry.vertex 1 = ((1 : ℝ), (1 : ℝ)) ∧
      ch.n_line.geometry.vertex 2 = ((2 : ℝ), (2 : ℝ)) ∧
      ch.n_marker.geometry.vertex 0 = ((0 : ℝ), (0 : ℝ)) ∧
      ch.n_marker.geometry.vertex 1 = ((1 : ℝ), (1 : ℝ)) ∧
      ch.n_marker.geometry.vertex 2 = ((2 : ℝ), (2 : ℝ))) := by
  constructor
  · obtain ⟨hl, hm, _⟩ := line_marker_vertices Numerics.exact
      (examplePlot false true true false) none ⟨bufferOf [0, 1, 1, 10, 2, 100], 6, 1⟩ _ rfl
      (frame_children _ _ _ _ rfl)
    have hl := hl rfl (examplePlot_rewrites _ _ _ _ Layer.line rfl)
    have hm := hm rfl (examplePlot_rewrites _ _ _ _ Layer.marker rfl)
    refine ⟨_, frame_children _ _ _ _ rfl, ?_, ?_, ?_, ?_, ?_, ?_⟩
    · rw [hl 0 (by decide)]; rfl
    · rw [hl 1 (by decide)]; rfl
    · rw [hl 2 (by decide)]; rfl
    · rw [hm 0 (by decide)]; rfl
    · rw [hm 1 (by decide)]; rfl
    · rw [hm 2 (by decide)]; rfl
  · obtain ⟨hl, hm, _⟩ := line_marker_vertices Numerics.exact
      (examplePlot false true true true) none ⟨bufferOf [0, 1, 1, 10, 2, 100], 6, 1⟩ _ rfl
      (frame_children _ _ _ _ rfl)
    have hl := hl rfl (examplePlot_rewrites _ _ _ _ Layer.line rfl)
    have hm := hm rfl (examplePlot_rewrites _ _ _ _ Layer.marker rfl)
    have e0 : Numerics.exact.toFloat (Numerics.exact.log10 (1 : ℝ)) = 0 := by
      rw [exact_log10_one]; rfl
    have e1 : Numerics.exact.toFloat (Numerics.exact.log10 (10 : ℝ)) = 1 := by
      rw [exact_log10_ten]; rfl
    have e2 : Numerics.exact.toFloat (Numerics.exact.log10 (100 : ℝ)) = 2 := by
      rw [exact_log10_hundred]; rfl
    refine ⟨_, frame_children _ _ _ _ rfl, ?_, ?_, ?_, ?_, ?_, ?_⟩
    · rw [hl 0 (by decide)]; exact Prod.ext rfl e0
    · rw [hl 1 (by decide)]; exact Prod.ext rfl e1
    · rw [hl 2 (by decide)]; exact Prod.ext rfl e2
    · rw [hm 0 (by decide)]; exact Prod.ext rfl e0
    · rw [hm 1 (by decide)]; exact Prod.ext rfl e1
    · rw [hm 2 (by decide)]; exact Prod.ext rfl e2

end ExactExamples
section Claim3

variable {R : Type} [LinearOrderedField R] [FloorRing R]

/-- The fill node a frame update leaves does not depend on the logarithmic-y setting. -/
theorem updateNodes_fill_logy (ops : Numerics R) (p : XYPlot R) (n : Option (QSGNode R))
    (src : DataSource R) (b : Bool) :
    (updateNodes ops src (startCtx ops { p with m_logy := b } n)).n_fill =
      (updateNodes ops src (startCtx ops p n)).n_fill := by
  simp only [updateNodes]
  simp [startCtx]

/-- Claim C3: when the fill layer is enabled and a frame update rewrites its vertices from
`N` samples `(x_i, y_i)`, the vertex array holds, for every `i < N`, the pair `(x_i, 0)`
at position `2i` and `(x_i, y_i)` at position `2i+1` (converted to `float`); and the fill
node is the same whether logarithmic-y is on or off. -/
theorem fill_vertices (ops : Numerics R) (p : XYPlot R) (n : Option (QSGNode R))
    (src : DataSource R) (ch : Children R) (h : p.m_source = some src)
    (hch : (updatePaintNode ops p n).root.children = some ch) :
    (p.m_fill = true → Effect.writeVertices Layer.fill ∈ (updatePaintNode ops p n).trace →
      ∀ i : Nat, (i : Int) < sampleCount src →
        ch.n_fill.geometry.vertex (2 * i) = (ops.toFloat (src.data (2 * i)), ops.toFloat 0) ∧
        ch.n_fill.geometry.vertex (2 * i + 1) =
          (ops.toFloat (src.data (2 * i)), ops.toFloat (src.data (2 * i + 1)))) ∧
    (∀ b : Bool, ∃ ch2,
      (updatePaintNode ops { p with m_logy := b } n).root.children = some ch2 ∧
      ch2.n_fill.geometry.vertexCount = ch.n_fill.geometry.vertexCount ∧
      ch2.n_fill.geometry.vertexData = ch.n_fill.geometry.vertexData ∧
      ch2.n_fill.m_data_valid = ch.n_fill.m_data_valid) := by
  rw [frame_children ops p n src h] at hch
  rw [frame_trace ops p n src h, writeVertices_mem_iff]
  cases hch
  refine ⟨fun _ hr i hi => ?_, fun b => ?_⟩
  · have hd := updateNodes_fill_data ops p n src
    rw [if_pos hr] at hd
    unfold QSGGeometry.vertex
    unfold QSGGeometry.vertexData at hd
    rw [hd]
    obtain ⟨a0, a1, a2, a3⟩ := writeFill_apply ops src.data
      (if reallocates ops p n src Layer.fill = true then fun _ => ops.uninit
        else (startChildren ops n).n_fill.geometry.m_data) (sampleCount src) i hi
    have e0 : 2 * (2 * i) = 4 * i := by omega
    have e1 : 2 * (2 * i) + 1 = 4 * i + 1 := by omega
    have e2 : 2 * (2 * i + 1) = 4 * i + 2 := by omega
    have e3 : 2 * (2 * i + 1) + 1 = 4 * i + 3 := by omega
    rw [e1, e3, e0, e2, a0, a1, a2, a3]
    exact ⟨rfl, rfl⟩
  · refine ⟨_, frame_children ops { p with m_logy := b } n src h, ?_, ?_, ?_⟩ <;>
      rw [updateNodes_fill_logy]

end Claim3

section Claim3Example

/-- Witness of C3: the buffer `[(0,1),(1,10),(2,100)]` gives the fill vertices
`(0,0),(0,1),(1,0),(1,10),(2,0),(2,100)`, with logarithmic-y on. -/
theorem fill_vertices_witness :
    ∃ ch, (updatePaintNode Numerics.exact (examplePlot true false false true) none).root.children
        = some ch ∧
      ch.n_fill.geometry.vertex 0 = ((0 : ℝ), (0 : ℝ)) ∧
      ch.n_fill.geometry.vertex 1 = ((0 : ℝ), (1 : ℝ)) ∧
      ch.n_fill.geometry.vertex 2 = ((1 : ℝ), (0 : ℝ)) ∧
      ch.n_fill.geometry.vertex 3 = ((1 : ℝ), (10 : ℝ)) ∧
      ch.n_fill.geometry.vertex 4 = ((2 : ℝ), (0 : ℝ)) ∧
      ch.n_fill.geometry.vertex 5 = ((2 : ℝ), (100 : ℝ)) := by
  obtain ⟨hf, _⟩ := fill_vertices Numerics.exact
    (examplePlot true false false true) none ⟨bufferOf [0, 1, 1, 10, 2, 100], 6, 1⟩ _ rfl
    (frame_children _ _ _ _ rfl)
  have hf := hf rfl (examplePlot_rewrites _ _ _ _ Layer.fill rfl)
  refine ⟨_, frame_children _ _ _ _ rfl, ?_, ?_, ?_, ?_, ?_, ?_⟩
  · exact ((hf 0 (by decide)).1).trans rfl
  · exact ((hf 0 (by decide)).2).trans rfl
  · exact ((hf 1 (by decide)).1).trans rfl
  · exact ((hf 1 (by decide)).2).trans rfl
  · exact ((hf 2 (by decide)).1).trans rfl
  · exact ((hf 2 (by decide)).2).trans rfl

end Claim3Example

section Claim4

variable {R : Type} [LinearOrderedField R]

/-- A `double` compares unequal to itself exactly when it is not-a-number. -/
theorem ne_self (ops : Numerics R) (a : R) : ops.ne a a = ops.isNaN a := by
  simp [Numerics.ne]

/-- Two different values compare unequal. -/
theorem ne_of_ne (ops : Numerics R) (a b : R) (h : a ≠ b) : ops.ne a b = true := by
  simp [Numerics.ne, h]

/-- A rectangle compares unequal to itself exactly when it holds a not-a-number. -/
theorem rect_ne_self (ops : Numerics R) (r : QRectF R) : QRectF.ne ops r r = r.hasNaN ops := by
  simp [QRectF.ne, QRectF.hasNaN, ne_self]

/-- Two different rectangles compare unequal. -/
theorem rect_ne_of_ne (ops : Numerics R) (a b : QRectF R) (h : a ≠ b) :
    QRectF.ne ops a b = true := by
  rcases a with ⟨a1, a2, a3, a4⟩
  rcases b with ⟨b1, b2, b3, b4⟩
  by_contra hc
  simp only [QRectF.ne, Numerics.ne, Bool.or_eq_true, decide_eq_true_eq, not_or,
    Bool.not_eq_true, Decidable.not_not] at hc
  obtain ⟨⟨⟨⟨_, h1⟩, ⟨_, h2⟩⟩, ⟨_, h3⟩⟩, ⟨_, h4⟩⟩ := hc
  exact h (by rw [h1, h2, h3, h4])

/-- `setViewRect` called with the current rectangle. -/
theorem setViewRect_current (ops : Numerics R) (p : XYPlot R) :
    p.setViewRect ops p.m_view_rect =
      if p.m_view_rect.hasNaN ops then
        { p with emitted := p.emitted ++ [Signal.viewRectChanged p.m_view_rect]
                 updates := p.updates + 1 }
      else p := by
  unfold XYPlot.setViewRect
  rw [rect_ne_self]
  rfl

/-- `setLineWidth` called with the current line width. -/
theorem setLineWidth_current (ops : Numerics R) (p : XYPlot R) :
    p.setLineWidth ops p.m_linewidth =
      if ops.isNaN p.m_linewidth then
        { p with emitted := p.emitted ++ [Signal.lineWidthChanged p.m_linewidth]
                 updates := p.updates + 1 }
      else p := by
  unfold XYPlot.setLineWidth
  rw [ne_self]
  rfl

/-- `setMarkerSize` called with the current marker size. -/
theorem setMarkerSize_current (ops : Numerics R) (p : XYPlot R) :
    p.setMarkerSize ops p.m_markersize =
      if ops.isNaN p.m_markersize then
        { p with emitted := p.emitted ++ [Signal.markerSizeChanged p.m_markersize]
                 updates := p.updates + 1 }
      else p := by
  unfold XYPlot.setMarkerSize
  rw [ne_self]
  rfl

/-- Claim C4, amended: every configuration setter called with the value its property
currently holds returns the plot state unchanged (no field is written, no change
notification is emitted, no repaint is requested, the new-data flag is not raised),
provided that for the three properties holding `double` values (view rectangle, line
width, marker size) the current value is no not-a-number. When it is one, the guard `!=`
holds between the value and itself: the setter stores it again, emits the change
notification of the property once and requests one repaint. -/
theorem setter_current_value_noop (ops : Numerics R) (p : XYPlot R) :
    p.setFillEnabled p.m_fill = p ∧
    p.setFillColor p.m_fillcolor = p ∧
    p.setLineEnabled p.m_line = p ∧
    p.setLineColor p.m_linecolor = p ∧
    p.setMarkerEnabled p.m_marker = p ∧
    p.setMarkerSegments p.m_markersegments = p ∧
    p.setMarkerColor p.m_markercolor = p ∧
    p.setMarkerBorder p.m_markerborder = p ∧
    p.setLogY p.m_logy = p ∧
    (p.m_view_rect.hasNaN ops = false → p.setViewRect ops p.m_view_rect = p) ∧
    (ops.isNaN p.m_linewidth = false → p.setLineWidth ops p.m_linewidth = p) ∧
    (ops.isNaN p.m_markersize = false → p.setMarkerSize ops p.m_markersize = p) ∧
    (p.m_view_rect.hasNaN ops = true → p.setViewRect ops p.m_view_rect =
      { p with emitted := p.emitted ++ [Signal.viewRectChanged p.m_view_rect]
               updates := p.updates + 1 }) ∧
    (ops.isNaN p.m_linewidth = true → p.setLineWidth ops p.m_linewidth =
      { p with emitted := p.emitted ++ [Signal.lineWidthChanged p.m_linewidth]
               updates := p.updates + 1 }) ∧
    (ops.isNaN p.m_markersize = true → p.setMarkerSize ops p.m_markersize =
      { p with emitted := p.emitted ++ [Signal.markerSizeChanged p.m_markersize]
               updates := p.updates + 1 }) := by
  refine ⟨?_, ?_, ?_, ?_, ?_, ?_, ?_, ?_, ?_, ?_, ?_, ?_, ?_, ?_, ?_⟩
  · simp [XYPlot.setFillEnabled]
  · simp [XYPlot.setFillColor]
  · simp [XYPlot.setLineEnabled]
  · simp [XYPlot.setLineColor]
  · simp [XYPlot.setMarkerEnabled]
  · simp [XYPlot.setMarkerSegments]
  · simp [XYPlot.setMarkerColor]
  · simp [XYPlot.setMarkerBorder]
  · simp [XYPlot.setLogY]
  · intro h; rw [setViewRect_current, h]; rfl
  · intro h; rw [setLineWidth_current, h]; rfl
  · intro h; rw [setMarkerSize_current, h]; rfl
  · intro h; rw [setViewRect_current, h]; rfl
  · intro h; rw [setLineWidth_current, h]; rfl
  · intro h; rw [setMarkerSize_current, h]; rfl

end Claim4

section Claim4Example

/-- The claim as first stated fails: in the interpretation where `-1` stands for the
not-a-number, on the example plot holding it as line width, `setLineWidth` called with
that same value emits `lineWidthChanged` and requests a repaint; the plot state changes. -/
theorem setLineWidth_nan_counterexample :
    (Numerics.exactWithNaN (-1)).isNaN
      ({ (examplePlot true true false false : XYPlot ℝ) with m_linewidth := -1 }).m_linewidth
      = true ∧
    (({ (examplePlot true true false false : XYPlot ℝ) with m_linewidth := -1 }).setLineWidth
      (Numerics.exactWithNaN (-1)) (-1)).emitted = [Signal.lineWidthChanged (-1)] ∧
    (({ (examplePlot true true false false : XYPlot ℝ) with m_linewidth := -1 }).setLineWidth
      (Numerics.exactWithNaN (-1)) (-1)).updates = 1 ∧
    (({ (examplePlot true true false false : XYPlot ℝ) with m_linewidth := -1 }).setLineWidth
      (Numerics.exactWithNaN (-1)) (-1)).updates ≠
      ({ (examplePlot true true false false : XYPlot ℝ) with m_linewidth := -1 }).updates := by
  have hn : (Numerics.exactWithNaN (-1)).isNaN (-1) = true := by
    simp [Numerics.exactWithNaN]
  have h : ({ (examplePlot true true false false : XYPlot ℝ) with m_linewidth := -1 }).setLineWidth
      (Numerics.exactWithNaN (-1)) (-1) =
      { ({ (examplePlot true true false false : XYPlot ℝ) with m_linewidth := -1 }) with
        emitted := [Signal.lineWidthChanged (-1)], updates := 1 } := by
    refine (setLineWidth_current (Numerics.exactWithNaN (-1))
      ({ (examplePlot true true false false : XYPlot ℝ) with m_linewidth := -1 })).trans ?_
    exact (if_pos hn).trans rfl
  refine ⟨hn, (congrArg XYPlot.emitted h).trans rfl, (congrArg XYPlot.updates h).trans rfl, ?_⟩
  rw [congrArg XYPlot.updates h]
  exact Nat.one_ne_zero

/-- Witness of C4: on the example plot in exact arithmetic, which has no not-a-number,
each of the twelve setters called with the current value returns the plot unchanged. -/
theorem setter_current_value_noop_witness :
    (examplePlot true true false false : XYPlot ℝ).setFillEnabled true
      = examplePlot true true false false ∧
    (examplePlot true true false false : XYPlot ℝ).setLogY false
      = examplePlot true true false false ∧
    (examplePlot true true false false : XYPlot ℝ).setViewRect Numerics.exact ⟨0, 0, 2, 100⟩
      = examplePlot true true false false ∧
    (examplePlot true true false false : XYPlot ℝ).setLineWidth Numerics.exact 1
      = examplePlot true true false false ∧
    (examplePlot true true false false : XYPlot ℝ).setMarkerSize Numerics.exact 5
      = examplePlot true true false false := by
  obtain ⟨h1, _, _, _, _, _, _, _, h9, h10, h11, h12, _⟩ :=
    setter_current_value_noop Numerics.exact (examplePlot true true false false)
  exact ⟨h1, h9, h10 rfl, h11 rfl, h12 rfl⟩

end Claim4Example

section Claim7

variable {R : Type} [LinearOrderedField R] [FloorRing R]

/-- Claim C7: a frame update while the data source is absent returns a root with zero
children for every root it is given (null, without children, with the three nodes); the
three nodes, when present, are removed and deleted; no node is created apart from the
root for a null pointer; nothing is marked dirty and the plot, its new-data and
new-source flags included, is left unchanged. -/
theorem no_source_empties_root (ops : Numerics R) (p : XYPlot R) (n : Option (QSGNode R))
    (h : p.m_source = none) :
    (updatePaintNode ops p n).root.children = none ∧
    (updatePaintNode ops p n).root.childCount = 0 ∧
    (updatePaintNode ops p n).plot = p ∧
    (updatePaintNode ops p n).marked = none ∧
    (updatePaintNode ops p n).trace =
      (match n with
        | none => [Effect.newRoot]
        | some r =>
          match r.children with
          | none => []
          | some _ => [Effect.removeAllChildNodes, Effect.deleteNode Layer.fill,
              Effect.deleteNode Layer.line, Effect.deleteNode Layer.marker]) ∧
    (∀ l, Effect.newNode l ∉ (updatePaintNode ops p n).trace) := by
  unfold updatePaintNode
  simp only [h]
  rcases n with _ | ⟨_ | ch⟩ <;> simp [QSGNode.childCount]

end Claim7

section Claim7Example

/-- Witness of C7: the example plot loses its data source after a frame that created the
three nodes; the next frame removes and deletes them and leaves both flags as they were. -/
theorem no_source_empties_root_witness :
    ({ (examplePlot true true true false : XYPlot ℝ) with m_source := none }).m_source
      = none ∧
    (updatePaintNode Numerics.exact (examplePlot true true true false) none).root.childCount
      = 3 ∧
    (updatePaintNode Numerics.exact
      { (examplePlot true true true false : XYPlot ℝ) with m_source := none }
      (some (updatePaintNode Numerics.exact (examplePlot true true true false)
        none).root)).root.childCount = 0 ∧
    (updatePaintNode Numerics.exact
      { (examplePlot true true true false : XYPlot ℝ) with m_source := none }
      (some (updatePaintNode Numerics.exact (examplePlot true true true false)
        none).root)).trace =
      [Effect.removeAllChildNodes, Effect.deleteNode Layer.fill,
        Effect.deleteNode Layer.line, Effect.deleteNode Layer.marker] ∧
    (updatePaintNode Numerics.exact
      { (examplePlot true true true false : XYPlot ℝ) with m_source := none }
      (some (updatePaintNode Numerics.exact (examplePlot true true true false)
        none).root)).plot.m_new_data = true := by
  have hr := updatePaintNode_source Numerics.exact (examplePlot true true true false) none
    ⟨bufferOf [0, 1, 1, 10, 2, 100], 6, 1⟩ rfl
  obtain ⟨_, h2, h3, _, h5, _⟩ := no_source_empties_root Numerics.exact
    { (examplePlot true true true false : XYPlot ℝ) with m_source := none }
    (some (updatePaintNode Numerics.exact (examplePlot true true true false) none).root) rfl
  refine ⟨rfl, ?_, h2, ?_, ?_⟩
  · rw [hr]; rfl
  · rw [h5, hr]
  · rw [h3]
    rfl

end Claim7Example

section Claim5

variable {R : Type} [LinearOrderedField R] [FloorRing R]

/-- Claim C5: for a view rectangle with non-zero width and height and any item size,
after a frame update the vertex program of every enabled layer, run with the uniforms
bound from the layer's material (`offset` = view origin, `scale` = `(1/w, 1/h)`, `size` =
item size), sends the view origin to `(0, size.y)` and `origin + size of the view` to
`(size.x, 0)` before the multiplication by `matrix`; the fill, line and marker programs
compute the same position. -/
theorem view_corners_map_to_item_corners (ops : Numerics R) (p : XYPlot R)
    (n : Option (QSGNode R)) (src : DataSource R) (ch : Children R)
    (h : p.m_source = some src)
    (hch : (updatePaintNode ops p n).root.children = some ch)
    (hw : p.m_view_rect.w ≠ 0) (hh : p.m_view_rect.h ≠ 0)
    (matrix : Vec4 R → Vec4 R) (z w : R) :
    (p.m_fill = true →
      XYFillMaterialShader.vertexShader matrix
          (XYFillMaterialShader.updateState ch.n_fill.material)
          ⟨p.m_view_rect.xp, p.m_view_rect.yp, z, w⟩ = matrix ⟨0, p.height, 0, 1⟩ ∧
      XYFillMaterialShader.vertexShader matrix
          (XYFillMaterialShader.updateState ch.n_fill.material)
          ⟨p.m_view_rect.xp + p.m_view_rect.w, p.m_view_rect.yp + p.m_view_rect.h, z, w⟩
        = matrix ⟨p.width, 0, 0, 1⟩) ∧
    (p.m_line = true →
      XYLineMaterialShader.vertexShader matrix
          (XYLineMaterialShader.updateState ch.n_line.material)
          ⟨p.m_view_rect.xp, p.m_view_rect.yp, z, w⟩ = matrix ⟨0, p.height, 0, 1⟩ ∧
      XYLineMaterialShader.vertexShader matrix
          (XYLineMaterialShader.updateState ch.n_line.material)
          ⟨p.m_view_rect.xp + p.m_view_rect.w, p.m_view_rect.yp + p.m_view_rect.h, z, w⟩
        = matrix ⟨p.width, 0, 0, 1⟩) ∧
    (p.m_marker = true →
      (XYMarkerMaterialShader.vertexShader matrix
          (XYMarkerMaterialShader.updateState ch.n_marker.material)
          (ops.toFloat ch.n_marker.material.m_markersize)
          ⟨p.m_view_rect.xp, p.m_view_rect.yp, z, w⟩).1 = matrix ⟨0, p.height, 0, 1⟩ ∧
      (XYMarkerMaterialShader.vertexShader matrix
          (XYMarkerMaterialShader.updateState ch.n_marker.material)
          (ops.toFloat ch.n_marker.material.m_markersize)
          ⟨p.m_view_rect.xp + p.m_view_rect.w, p.m_view_rect.yp + p.m_view_rect.h, z, w⟩).1
        = matrix ⟨p.width, 0, 0, 1⟩) ∧
    (∀ (u : Uniforms R) (msize : R) (v : Vec4 R),
      XYFillMaterialShader.vertexShader matrix u v
        = XYLineMaterialShader.vertexShader matrix u v ∧
      (XYMarkerMaterialShader.vertexShader matrix u msize v).1
        = XYLineMaterialShader.vertexShader matrix u v) := by
  rw [updatePaintNode_source ops p n src h] at hch
  cases hch
  refine ⟨fun hf => ?_, fun hl => ?_, fun hm => ?_, fun u msize v => ⟨rfl, rfl⟩⟩
  · rw [updateNodes_fill_material, if_pos hf]
    simp only [XYFillMaterialShader.vertexShader, XYFillMaterialShader.updateState]
    constructor <;> congr 2 <;> field_simp
  · rw [updateNodes_line_material, if_pos hl]
    simp only [XYLineMaterialShader.vertexShader, XYLineMaterialShader.updateState]
    constructor <;> congr 2 <;> field_simp
  · rw [updateNodes_marker_material, if_pos hm]
    simp only [XYMarkerMaterialShader.vertexShader, XYMarkerMaterialShader.updateState]
    constructor <;> congr 2 <;> field_simp

end Claim5

section Claim5Example

/-- Witness of C5: view rectangle `(0,0)→(2,100)` in an item of 200 x 100: the fill, line
and marker programs send the view origin `(0,0)` to `(0,100)` and the opposite corner
`(2,100)` to `(200,0)`. -/
theorem view_corners_map_to_item_corners_witness :
    (examplePlot true true true false : XYPlot ℝ).m_view_rect.w ≠ 0 ∧
    (examplePlot true true true false : XYPlot ℝ).m_view_rect.h ≠ 0 ∧
    ∃ ch, (updatePaintNode Numerics.exact (examplePlot true true true false) none).root.children
        = some ch ∧
      XYFillMaterialShader.vertexShader id (XYFillMaterialShader.updateState ch.n_fill.material)
        ⟨0, 0, 0, 1⟩ = (⟨0, 100, 0, 1⟩ : Vec4 ℝ) ∧
      XYFillMaterialShader.vertexShader id (XYFillMaterialShader.updateState ch.n_fill.material)
        ⟨2, 100, 0, 1⟩ = (⟨200, 0, 0, 1⟩ : Vec4 ℝ) ∧
      XYLineMaterialShader.vertexShader id (XYLineMaterialShader.updateState ch.n_line.material)
        ⟨0, 0, 0, 1⟩ = (⟨0, 100, 0, 1⟩ : Vec4 ℝ) ∧
      XYLineMaterialShader.vertexShader id (XYLineMaterialShader.updateState ch.n_line.material)
        ⟨2, 100, 0, 1⟩ = (⟨200, 0, 0, 1⟩ : Vec4 ℝ) := by
  have hw : (examplePlot true true true false : XYPlot ℝ).m_view_rect.w ≠ 0 := by
    norm_num [examplePlot]
  have hh : (examplePlot true true true false : XYPlot ℝ).m_view_rect.h ≠ 0 := by
    norm_num [examplePlot]
  obtain ⟨hf, hl, _, _⟩ := view_corners_map_to_item_corners Numerics.exact
    (examplePlot true true true false) none ⟨bufferOf [0, 1, 1, 10, 2, 100], 6, 1⟩ _ rfl
    (frame_children _ _ _ _ rfl) hw hh id 0 1
  obtain ⟨hf1, hf2⟩ := hf rfl
  obtain ⟨hl1, hl2⟩ := hl rfl
  refine ⟨hw, hh, _, frame_children _ _ _ _ rfl, ?_, ?_, ?_, ?_⟩
  · simpa [examplePlot] using hf1
  · simpa [examplePlot] using hf2
  · simpa [examplePlot] using hl1
  · simpa [examplePlot] using hl2

end Claim5Example

section Claim6

variable {R : Type} [LinearOrderedField R] [FloorRing R]

/-- A frame update run on the root of the previous one starts from the nodes it left. -/
theorem startChildren_next (ops : Numerics R) (p : XYPlot R) (n : Option (QSGNode R))
    (src : DataSource R) (h : p.m_source = some src) :
    startChildren ops (some (updatePaintNode ops p n).root) = nodesAfter ops p n src := by
  rw [updatePaintNode_source ops p n src h]
  rfl

theorem startTrace_next (ops : Numerics R) (p : XYPlot R) (n : Option (QSGNode R))
    (src : DataSource R) (h : p.m_source = some src) :
    startTrace (some (updatePaintNode ops p n).root) = [] := by
  rw [updatePaintNode_source ops p n src h]
  rfl

/-- After a frame update every enabled layer has the required vertex count. -/
theorem nodesAfter_vertexCount (ops : Numerics R) (p : XYPlot R) (n : Option (QSGNode R))
    (src : DataSource R) (l : Layer) (he : p.enabled l = true) :
    (nodesAfter ops p n src).vertexCount l = requiredCount (sampleCount src) l := by
  cases l
  · simp only [XYPlot.enabled] at he
    simp only [nodesAfter, Children.vertexCount, requiredCount, updateNodes_fill_count, if_pos he]
  · simp only [XYPlot.enabled] at he
    simp only [nodesAfter, Children.vertexCount, requiredCount, updateNodes_line_count, if_pos he]
  · simp only [XYPlot.enabled] at he
    simp only [nodesAfter, Children.vertexCount, requiredCount, updateNodes_marker_count,
      if_pos he]

/-- After a frame update every enabled layer is valid. -/
theorem nodesAfter_dataValid (ops : Numerics R) (p : XYPlot R) (n : Option (QSGNode R))
    (src : DataSource R) (l : Layer) (he : p.enabled l = true) :
    (nodesAfter ops p n src).dataValid l = true := by
  obtain ⟨h1, h2, h3⟩ := updateNodes_data_valid ops p n src
  cases l
  · simp only [XYPlot.enabled] at he
    simp only [nodesAfter, Children.dataValid, h1, he, Bool.true_or]
  · simp only [XYPlot.enabled] at he
    simp only [nodesAfter, Children.dataValid, h2, he, Bool.true_or]
  · simp only [XYPlot.enabled] at he
    simp only [nodesAfter, Children.dataValid, h3, he, Bool.true_or]

/-- A frame update that follows one with the same sample count and the same layer
toggles, with neither flag raised in between, reallocates and rewrites nothing. -/
theorem next_frame_quiet (ops : Numerics R) (p p2 : XYPlot R) (n : Option (QSGNode R))
    (src src2 : DataSource R) (h : p.m_source = some src)
    (hN : sampleCount src2 = sampleCount src) (he : ∀ l, p2.enabled l = p.enabled l)
    (hs : p2.m_new_source = false) (hd : p2.m_new_data = false) :
    (∀ l, reallocates ops p2 (some (updatePaintNode ops p n).root) src2 l = false) ∧
    invalidates ops p2 (some (updatePaintNode ops p n).root) src2 = false ∧
    (∀ l, rewrites ops p2 (some (updatePaintNode ops p n).root) src2 l = false) := by
  have hr : ∀ l, reallocates ops p2 (some (updatePaintNode ops p n).root) src2 l = false := by
    intro l
    unfold reallocates
    rw [startChildren_next ops p n src h, he l, hN]
    cases hl : p.enabled l
    · rfl
    · rw [nodesAfter_vertexCount ops p n src l hl]
      simp
  have hi : invalidates ops p2 (some (updatePaintNode ops p n).root) src2 = false := by
    unfold invalidates
    rw [hr, hr, hr, hs, hd]
    rfl
  refine ⟨hr, hi, fun l => ?_⟩
  unfold rewrites
  rw [hi, startChildren_next ops p n src h, he l]
  cases hl : p.enabled l
  · rfl
  · rw [nodesAfter_dataValid ops p n src l hl]
    rfl

/-- After a frame update with the marker layer enabled the material caches the plot's
marker size, segment count and border flag. -/
theorem nodesAfter_marker_cache (ops : Numerics R) (p : XYPlot R) (n : Option (QSGNode R))
    (src : DataSource R) (hm : p.m_marker = true) :
    (nodesAfter ops p n src).n_marker.material.m_markersize = p.m_markersize ∧
    (nodesAfter ops p n src).n_marker.material.m_markersegments = p.m_markersegments ∧
    (nodesAfter ops p n src).n_marker.material.m_markerborder = p.m_markerborder := by
  simp only [nodesAfter, updateNodes_marker_material, if_pos hm, and_self]

/-- After a frame update every node is blocked exactly when its layer is disabled. -/
theorem nodesAfter_not_toggled (ops : Numerics R) (p p2 : XYPlot R) (n : Option (QSGNode R))
    (src : DataSource R) (h : p.m_source = some src) (he : ∀ l, p2.enabled l = p.enabled l) :
    toggled (startCtx ops p2 (some (updatePaintNode ops p n).root)) = false := by
  obtain ⟨b1, b2, b3⟩ := updateNodes_blocked ops p n src
  have e1 := he Layer.fill
  have e2 := he Layer.line
  have e3 := he Layer.marker
  simp only [XYPlot.enabled] at e1 e2 e3
  simp only [toggled, startCtx]
  rw [startChildren_next ops p n src h]
  simp only [nodesAfter, b1, b2, b3, e1, e2, e3]
  cases p.m_fill <;> cases p.m_line <;> cases p.m_marker <;> rfl

/-- A layer that a frame update neither reallocates nor rewrites, in a frame that does not
invalidate, keeps its data-valid flag, its vertex count and its vertex contents. -/
theorem quiet_layer (ops : Numerics R) (p : XYPlot R) (n : Option (QSGNode R))
    (src : DataSource R) (l : Layer) (hr : reallocates ops p n src l = false)
    (hi : invalidates ops p n src = false) (hw : rewrites ops p n src l = false) :
    (nodesAfter ops p n src).dataValid l = (startChildren ops n).dataValid l ∧
    (nodesAfter ops p n src).vertexCount l = (startChildren ops n).vertexCount l ∧
    (nodesAfter ops p n src).vertexData l = (startChildren ops n).vertexData l := by
  obtain ⟨v1, v2, v3⟩ := updateNodes_data_valid ops p n src
  have c1 := updateNodes_fill_count ops p n src
  have c2 := updateNodes_line_count ops p n src
  have c3 := updateNodes_marker_count ops p n src
  have d1 := updateNodes_fill_data ops p n src
  have d2 := updateNodes_line_data ops p n src
  have d3 := updateNodes_marker_data ops p n src
  unfold rewrites at hw
  unfold reallocates at hr
  rw [hi] at hw v1 v2 v3
  cases l
  · rw [rewrites, hi] at d1
    simp only [XYPlot.enabled, Children.dataValid, Children.vertexCount, requiredCount]
      at hw hr d1
    simp only [nodesAfter, Children.dataValid, Children.vertexCount, Children.vertexData,
      v1, c1, d1]
    by_cases hf : p.m_fill = true <;> simp_all
  · rw [rewrites, hi] at d2
    simp only [XYPlot.enabled, Children.dataValid, Children.vertexCount, requiredCount]
      at hw hr d2
    simp only [nodesAfter, Children.dataValid, Children.vertexCount, Children.vertexData,
      v2, c2, d2]
    by_cases hf : p.m_line = true <;> simp_all
  · rw [rewrites, hi] at d3
    simp only [XYPlot.enabled, Children.dataValid, Children.vertexCount, requiredCount]
      at hw hr d3
    simp only [nodesAfter, Children.dataValid, Children.vertexCount, Children.vertexData,
      v3, c3, d3]
    by_cases hf : p.m_marker = true <;> simp_all

/-- Claim C6: when `updatePaintNode` is called twice in succession with a data source, the
second call on the plot and root the first one left (same buffer, same sample count, same
configuration, no flag raised in between) has no effect at all: it reallocates no
geometry, rewrites no vertices, marks neither geometry nor visibility dirty, and leaves
the data-valid flag, the vertex count and the vertex contents of every layer as the first
call left them. -/
theorem second_frame_rebuilds_nothing (ops : Numerics R) (p : XYPlot R)
    (n : Option (QSGNode R)) (src : DataSource R) (h : p.m_source = some src) :
    ∃ ch1 ch2, (updatePaintNode ops p n).root.children = some ch1 ∧
      (nextFrame ops (updatePaintNode ops p n)).root.children = some ch2 ∧
      (nextFrame ops (updatePaintNode ops p n)).trace = [] ∧
      (∀ l k, Effect.allocate l k ∉ (nextFrame ops (updatePaintNode ops p n)).trace) ∧
      (∀ l, Effect.writeVertices l ∉ (nextFrame ops (updatePaintNode ops p n)).trace) ∧
      (nextFrame ops (updatePaintNode ops p n)).marked = some ⟨true, false, false⟩ ∧
      (∀ l, ch2.dataValid l = ch1.dataValid l ∧ ch2.vertexCount l = ch1.vertexCount l ∧
        ch2.vertexData l = ch1.vertexData l) := by
  have hp : (updatePaintNode ops p n).plot =
      { p with m_new_source := false, m_new_data := false } := by
    rw [updatePaintNode_source ops p n src h]
    exact updateNodes_plot ops p n src
  have h2 : (updatePaintNode ops p n).plot.m_source = some src := by rw [hp]; exact h
  have he : ∀ l, (updatePaintNode ops p n).plot.enabled l = p.enabled l := by
    intro l; rw [hp]; cases l <;> rfl
  obtain ⟨hr, hi, hw⟩ := next_frame_quiet ops p (updatePaintNode ops p n).plot n src src h rfl he
    (by rw [hp]) (by rw [hp])
  have htr : (nextFrame ops (updatePaintNode ops p n)).trace = [] := by
    unfold nextFrame
    rw [frame_trace _ _ _ _ h2, updateNodes_trace, hr, hr, hr, hw, hw, hw,
      startTrace_next ops p n src h]
    have hst : ¬((updatePaintNode ops p n).plot.m_marker = true ∧
        markerImageStale (startCtx ops (updatePaintNode ops p n).plot
          (some (updatePaintNode ops p n).root))) := by
      rintro ⟨hm, hs⟩
      have hm' : p.m_marker = true := by rw [hp] at hm; exact hm
      obtain ⟨c1, c2, c3⟩ := nodesAfter_marker_cache ops p n src hm'
      unfold markerImageStale at hs
      simp only [startCtx, startChildren_next ops p n src h, c1, c2, c3, hp] at hs
      simp at hs
    rw [if_neg hst]
    rfl
  refine ⟨_, _, frame_children ops p n src h, frame_children _ _ _ _ h2, htr, ?_, ?_, ?_, ?_⟩
  · intro l k; rw [htr]; exact List.not_mem_nil _
  · intro l; rw [htr]; exact List.not_mem_nil _
  · unfold nextFrame
    rw [updatePaintNode_source _ _ _ _ h2, updateNodes_dirty_state, hw, hw, hw,
      nodesAfter_not_toggled ops p _ n src h he]
    rfl
  · intro l
    have hq := quiet_layer ops (updatePaintNode ops p n).plot
      (some (updatePaintNode ops p n).root) src l (hr l) hi (hw l)
    rw [startChildren_next ops p n src h] at hq
    exact hq

end Claim6

section Claim6Example

/-- Witness of C6: on the example plot the first frame rewrites the line vertices, the
second frame has no effect and marks only the material dirty. -/
theorem second_frame_rebuilds_nothing_witness :
    Effect.writeVertices Layer.line ∈
      (updatePaintNode Numerics.exact (examplePlot true true true false) none).trace ∧
    (nextFrame Numerics.exact
      (updatePaintNode Numerics.exact (examplePlot true true true false) none)).trace = [] ∧
    (nextFrame Numerics.exact
      (updatePaintNode Numerics.exact (examplePlot true true true false) none)).marked
      = some ⟨true, false, false⟩ := by
  obtain ⟨_, _, _, _, h3, _, _, h6, _⟩ := second_frame_rebuilds_nothing Numerics.exact
    (examplePlot true true true false) none ⟨bufferOf [0, 1, 1, 10, 2, 100], 6, 1⟩ rfl
  exact ⟨examplePlot_rewrites _ _ _ _ Layer.line rfl, h3, h6⟩

end Claim6Example

section Claim8

variable {R : Type} [LinearOrderedField R] [FloorRing R]

theorem startTrace_no_paint (n : Option (QSGNode R)) (k : Int) :
    Effect.paintMarkerImage k ∉ startTrace n := by
  unfold startTrace
  rcases n with _ | ⟨_ | ch⟩ <;> simp

/-- The marker image is repainted exactly when the marker layer is enabled and the
material's cached size, segment count or border flag differs from the plot's. -/
theorem paintMarkerImage_mem_iff (ops : Numerics R) (p : XYPlot R) (n : Option (QSGNode R))
    (src : DataSource R) (k : Int) :
    Effect.paintMarkerImage k ∈ (updateNodes ops src (startCtx ops p n)).trace ↔
      (p.m_marker = true ∧ markerImageStale (startCtx ops p n)) ∧
        k = Int.ceil p.m_markersize := by
  rw [updateNodes_trace]
  have h0 := startTrace_no_paint n k
  simp only [List.mem_append, h0, false_or]
  constructor
  · intro hmem
    rcases hmem with ((((((hmem | hmem) | hmem) | hmem) | hmem) | hmem) | hmem) <;>
      split_ifs at hmem with hc <;> simp at hmem
    exact ⟨hc, hmem⟩
  · rintro ⟨hc, rfl⟩
    simp [hc]

/-- Claim C8: on a frame update with a data source and the marker layer enabled, the
marker glyph raster is repainted if and only if the marker size, the segment count or the
border flag differs from the value cached in the marker material; afterwards the material
caches the plot's three values, so that a following frame of any plot with the same three
values (whatever its marker colour) repaints nothing; a repainted raster is square with
side `ceil(marker size)` and has 4 components. -/
theorem marker_image_regeneration (ops : Numerics R) (p : XYPlot R) (n : Option (QSGNode R))
    (src : DataSource R) (ch : Children R) (h : p.m_source = some src)
    (hm : p.m_marker = true)
    (hch : (updatePaintNode ops p n).root.children = some ch) :
    ((∃ k, Effect.paintMarkerImage k ∈ (updatePaintNode ops p n).trace) ↔
      ((startChildren ops n).n_marker.material.m_markersize ≠ p.m_markersize ∨
        (startChildren ops n).n_marker.material.m_markersegments ≠ p.m_markersegments ∨
        (startChildren ops n).n_marker.material.m_markerborder ≠ p.m_markerborder)) ∧
    (ch.n_marker.material.m_markersize = p.m_markersize ∧
      ch.n_marker.material.m_markersegments = p.m_markersegments ∧
      ch.n_marker.material.m_markerborder = p.m_markerborder) ∧
    (∀ (p2 : XYPlot R) (src2 : DataSource R), p2.m_source = some src2 →
      p2.m_markersize = p.m_markersize → p2.m_markersegments = p.m_markersegments →
      p2.m_markerborder = p.m_markerborder →
      ∀ k, Effect.paintMarkerImage k ∉
        (updatePaintNode ops p2 (some (updatePaintNode ops p n).root)).trace) ∧
    ((∃ k, Effect.paintMarkerImage k ∈ (updatePaintNode ops p n).trace) →
      Effect.paintMarkerImage (Int.ceil p.m_markersize) ∈ (updatePaintNode ops p n).trace ∧
      ch.n_marker.material.m_markerimage.m_dims
        = [Int.ceil p.m_markersize, Int.ceil p.m_markersize] ∧
      ch.n_marker.material.m_markerimage.m_num_components = 4 ∧
      ∃ img, ch.n_marker.material.m_markerimage.m_image = some img ∧
        img.width = Int.ceil p.m_markersize ∧ img.height = Int.ceil p.m_markersize) := by
  rw [frame_children ops p n src h] at hch
  cases hch
  have hiff : (∃ k, Effect.paintMarkerImage k ∈ (updatePaintNode ops p n).trace) ↔
      markerImageStale (startCtx ops p n) := by
    rw [frame_trace ops p n src h]
    constructor
    · rintro ⟨k, hk⟩
      exact ((paintMarkerImage_mem_iff ops p n src k).1 hk).1.2
    · intro hs
      exact ⟨_, (paintMarkerImage_mem_iff ops p n src _).2 ⟨⟨hm, hs⟩, rfl⟩⟩
  refine ⟨hiff, nodesAfter_marker_cache ops p n src hm, ?_, ?_⟩
  · intro p2 src2 h2 e1 e2 e3 k hk
    rw [frame_trace _ _ _ _ h2, paintMarkerImage_mem_iff] at hk
    obtain ⟨c1, c2, c3⟩ := nodesAfter_marker_cache ops p n src hm
    have hs := hk.1.2
    unfold markerImageStale at hs
    simp only [startCtx, startChildren_next ops p n src h, c1, c2, c3, e1, e2, e3] at hs
    simp at hs
  · intro hex
    have hs := hiff.1 hex
    refine ⟨?_, ?_⟩
    · rw [frame_trace ops p n src h]
      exact (paintMarkerImage_mem_iff ops p n src _).2 ⟨⟨hm, hs⟩, rfl⟩
    · rw [updateNodes_marker_material, if_pos hm]
      simp only [if_pos hs]
      exact ⟨rfl, rfl, _, rfl, rfl, rfl⟩

end Claim8

section Claim8Example

theorem examplePlot_ceil_markersize (fill line marker logy : Bool) :
    Int.ceil (examplePlot fill line marker logy : XYPlot ℝ).m_markersize = 5 := by
  have h : (examplePlot fill line marker logy : XYPlot ℝ).m_markersize = ((5 : ℤ) : ℝ) := by
    simp [examplePlot]
  rw [h, Int.ceil_intCast]

/-- Witness of C8: the first frame of the example plot (marker size 5, 4 segments, no
border) finds the new material caching `(0, 0, false)` and paints a 5 x 5 raster with 4
components; a following frame with another marker colour paints nothing. -/
theorem marker_image_regeneration_witness :
    (examplePlot true true true false : XYPlot ℝ).m_marker = true ∧
    ∃ ch, (updatePaintNode Numerics.exact (examplePlot true true true false) none).root.children
        = some ch ∧
      Effect.paintMarkerImage 5 ∈
        (updatePaintNode Numerics.exact (examplePlot true true true false) none).trace ∧
      ch.n_marker.material.m_markerimage.m_dims = [5, 5] ∧
      ch.n_marker.material.m_markerimage.m_num_components = 4 ∧
      ∀ k, Effect.paintMarkerImage k ∉
        (updatePaintNode Numerics.exact
          { (examplePlot true true true false : XYPlot ℝ) with
            m_markercolor := ⟨1, 65535, 0, 65535, 0⟩ }
          (some (updatePaintNode Numerics.exact (examplePlot true true true false)
            none).root)).trace := by
  obtain ⟨h1, _, h3, h4⟩ := marker_image_regeneration Numerics.exact
    (examplePlot true true true false) none ⟨bufferOf [0, 1, 1, 10, 2, 100], 6, 1⟩ _ rfl rfl
    (frame_children _ _ _ _ rfl)
  have hex := h1.2 (Or.inl (by
    show (0 : ℝ) ≠ (5 : ℝ)
    norm_num))
  obtain ⟨a, b, c, _⟩ := h4 hex
  rw [examplePlot_ceil_markersize] at a b
  exact ⟨rfl, _, frame_children _ _ _ _ rfl, a, b, c,
    h3 _ ⟨bufferOf [0, 1, 1, 10, 2, 100], 6, 1⟩ rfl rfl rfl rfl⟩

end Claim8Example


section Claim9
variable {R : Type} [LinearOrderedField R]

/-- The loop `points[i] = f i` for `i < m` over a vector of `k` default points. -/
theorem setLoop_getElem? {α : Type} (f : Nat → α) (d : α) (k m : Nat) (j : Nat) :
    (forLoop (m : Int) (fun i (pts : List α) => pts.set i (f i)) (List.replicate k d))[j]? =
      if j < k then some (if j < m then f j else d) else none := by
  induction m with
  | zero => simp [forLoop_zero, List.getElem?_replicate]
  | succ m ih =>
    have hlen : ∀ m : Nat,
        (forLoop (m : Int) (fun i (pts : List α) => pts.set i (f i))
          (List.replicate k d)).length = k := by
      intro m
      induction m with
      | zero => simp [forLoop_zero]
      | succ m ihm => rw [forLoop_succ, List.length_set, ihm]
    rw [forLoop_succ, List.getElem?_set, ih, hlen]
    split_ifs <;> first | rfl | (exfalso; omega) | (subst_vars; rfl)

/-- The vertices `paintPolygon` computes: `k` points, point `i` at the angle
`i * (2 * M_PI * (1 / k))`. -/
theorem polygonPoints_getElem? (ops : Numerics R) (size : Int) (k : Nat) (i : Nat) :
    (polygonPoints ops size k)[i]? =
      if i < k then
        some ⟨(size : R) * 0.5 - (size : R) * 0.5 * ops.sin ((i : R) * (2 * ops.M_PI * (1 / (k : R)))),
          (size : R) * 0.5 - (size : R) * 0.5 * ops.cos ((i : R) * (2 * ops.M_PI * (1 / (k : R))))⟩
      else none := by
  unfold polygonPoints
  simp only []
  rw [setLoop_getElem? (fun i => (⟨(size : R) * 0.5 - (size : R) * 0.5
      * ops.sin ((i : R) * (2 * ops.M_PI * (1 / (k : R)))),
    (size : R) * 0.5 - (size : R) * 0.5
      * ops.cos ((i : R) * (2 * ops.M_PI * (1 / (k : R))))⟩ : QPointF R)) QPointF.new k k i]
  split_ifs <;> rfl

theorem polygonPoints_length (ops : Numerics R) (size : Int) (k : Nat) :
    (polygonPoints ops size k).length = k := by
  have h1 := polygonPoints_getElem? ops size k k
  have h2 : ∀ j, j < k → (polygonPoints ops size k)[j]? ≠ none := by
    intro j hj
    rw [polygonPoints_getElem? ops size k j, if_pos hj]
    simp
  rw [if_neg (lt_irrefl k)] at h1
  have h3 := List.getElem?_eq_none_iff.1 h1
  by_contra hne
  have hlt : (polygonPoints ops size k).length < k := by omega
  exact h2 _ hlt (List.getElem?_eq_none_iff.2 (le_refl _))

end Claim9
section Claim9Exact

/-- Vertex `i` of the polygon in exact arithmetic. -/
theorem exact_polygon_vertex (S : Int) (k i : Nat) (hi : i < k) :
    (polygonPoints Numerics.exact S k)[i]? =
      some (counterClockwiseFromTop Numerics.exact ⟨(S : ℝ) / 2, (S : ℝ) / 2⟩ ((S : ℝ) / 2)
        ((i : ℝ) * (2 * Real.pi / (k : ℝ)))) := by
  rw [polygonPoints_getElem?, if_pos hi]
  have e : (2 * Real.pi * (1 / (k : ℝ))) = 2 * Real.pi / (k : ℝ) := by ring
  have e5 : ((S : ℝ) * 0.5) = (S : ℝ) / 2 := by norm_num; ring
  simp only [counterClockwiseFromTop, Numerics.exact, e, e5]

/-- Claim C9, amended: for every raster side `S` and segment count `k >= 1`, `paintPolygon`
draws a convex polygon of exactly `k` vertices; vertex `i` is the point at distance `S/2`
from the raster centre `(S/2, S/2)` at angle `i*2*pi/k` measured COUNTER-clockwise from the
top of the raster (raster y axis pointing down): vertex 0 is the top-centre point
`(S/2, 0)` and each following vertex is reached by a counter-clockwise turn of `2*pi/k`
about the centre. For `k = 0` no polygon is built and the ellipse with origin `(1,1)` and
extent `S-2` is drawn instead. -/
theorem polygon_vertices_counter_clockwise (img : QImage ℝ) (border : Bool) :
    (∀ k : Nat, 1 ≤ k →
      (paintPolygon Numerics.exact img k border).painted =
        img.painted ++ (if border = false then [PaintOp.setPenNoPen] else [])
          ++ [PaintOp.setBrushWhite]
          ++ [PaintOp.drawConvexPolygon (polygonPoints Numerics.exact img.width k) (toInt32 k)] ∧
      (polygonPoints Numerics.exact img.width k).length = k ∧
      (∀ i, i < k → ∃ q, (polygonPoints Numerics.exact img.width k)[i]? = some q ∧
        q = counterClockwiseFromTop Numerics.exact
          ⟨(img.width : ℝ) / 2, (img.width : ℝ) / 2⟩ ((img.width : ℝ) / 2)
          ((i : ℝ) * (2 * Real.pi / (k : ℝ))) ∧
        (q.xp - (img.width : ℝ) / 2) ^ 2 + (q.yp - (img.width : ℝ) / 2) ^ 2
          = ((img.width : ℝ) / 2) ^ 2) ∧
      (polygonPoints Numerics.exact img.width k)[0]? = some ⟨(img.width : ℝ) / 2, 0⟩ ∧
      (∀ i, i + 1 < k → ∃ q q2, (polygonPoints Numerics.exact img.width k)[i]? = some q ∧
        (polygonPoints Numerics.exact img.width k)[i + 1]? = some q2 ∧
        q2 = turnCounterClockwise Numerics.exact
          ⟨(img.width : ℝ) / 2, (img.width : ℝ) / 2⟩ (2 * Real.pi / (k : ℝ)) q)) ∧
    (paintPolygon Numerics.exact img 0 border).painted =
      img.painted ++ (if border = false then [PaintOp.setPenNoPen] else [])
        ++ [PaintOp.setBrushWhite]
        ++ [PaintOp.drawEllipse 1 1 (img.width - 2) (img.width - 2)] := by
  refine ⟨fun k hk => ⟨?_, polygonPoints_length _ _ _, fun i hi => ?_, ?_, fun i hi => ?_⟩, ?_⟩
  · have hk0 : k ≠ 0 := by omega
    cases border <;> simp [paintPolygon, hk0]
  · refine ⟨_, exact_polygon_vertex img.width k i hi, rfl, ?_⟩
    simp only [counterClockwiseFromTop, Numerics.exact]
    have hsc := Real.sin_sq_add_cos_sq ((i : ℝ) * (2 * Real.pi / (k : ℝ)))
    linear_combination ((img.width : ℝ) / 2) ^ 2 * hsc
  · rw [exact_polygon_vertex img.width k 0 (by omega)]
    simp [counterClockwiseFromTop, Numerics.exact]
  · refine ⟨_, _, exact_polygon_vertex img.width k i (by omega),
      exact_polygon_vertex img.width k (i + 1) hi, ?_⟩
    simp only [counterClockwiseFromTop, turnCounterClockwise, Numerics.exact]
    have ha : (((i + 1 : Nat) : ℝ)) * (2 * Real.pi / (k : ℝ)) =
        (i : ℝ) * (2 * Real.pi / (k : ℝ)) + 2 * Real.pi / (k : ℝ) := by
      push_cast; ring
    rw [ha, Real.sin_add, Real.cos_add]
    congr 1 <;> ring
  · cases border <;> simp [paintPolygon]

/-- Witness of C9 (amended): for `S = 2` and `k = 4` the four vertices are the top
`(1,0)`, the left `(0,1)`, the bottom `(1,2)` and the right `(2,1)` point, in this order. -/
theorem polygon_vertices_counter_clockwise_witness :
    (polygonPoints Numerics.exact 2 4).length = 4 ∧
    (polygonPoints Numerics.exact 2 4)[0]? = some ⟨1, 0⟩ ∧
    (polygonPoints Numerics.exact 2 4)[1]? = some ⟨0, 1⟩ := by
  obtain ⟨h1, h2, h3, h4, h5⟩ :=
    (polygon_vertices_counter_clockwise ⟨2, 2, none, []⟩ false).1 4 (by decide)
  refine ⟨h2, ?_, ?_⟩
  · rw [h4]; norm_num
  · obtain ⟨q, hq, hq2, _⟩ := h3 1 (by decide)
    rw [hq, hq2]
    simp only [counterClockwiseFromTop, Numerics.exact]
    have e : ((1 : Nat) : ℝ) * (2 * Real.pi / ((4 : Nat) : ℝ)) = Real.pi / 2 := by
      push_cast; ring
    rw [e, Real.sin_pi_div_two, Real.cos_pi_div_two]
    norm_num

/-- Counterexample to C9 as stated: for `S = 2` and `k = 4`, vertex 1 is the left-most point
`(0,1)`, whereas the point at angle `2*pi/4` clockwise from the top, which is also the
clockwise quarter turn of vertex 0 = `(1,0)` about the centre, is the right-most point
`(2,1)`. -/
theorem polygon_clockwise_counterexample :
    (polygonPoints Numerics.exact 2 4)[0]? = some ⟨1, 0⟩ ∧
    (polygonPoints Numerics.exact 2 4)[1]? = some ⟨0, 1⟩ ∧
    clockwiseFromTop Numerics.exact ⟨1, 1⟩ 1 (1 * (2 * Real.pi / 4)) = ⟨2, 1⟩ ∧
    turnClockwise Numerics.exact ⟨1, 1⟩ (2 * Real.pi / 4) ⟨1, 0⟩ = ⟨2, 1⟩ ∧
    (polygonPoints Numerics.exact 2 4)[1]? ≠
      some (clockwiseFromTop Numerics.exact ⟨1, 1⟩ 1 (1 * (2 * Real.pi / 4))) := by
  have e : (1 : ℝ) * (2 * Real.pi / 4) = Real.pi / 2 := by ring
  have e2 : (2 * Real.pi / 4 : ℝ) = Real.pi / 2 := by ring
  have v0 : (polygonPoints Numerics.exact 2 4)[0]? = some ⟨1, 0⟩ := by
    rw [exact_polygon_vertex 2 4 0 (by decide)]
    simp [counterClockwiseFromTop, Numerics.exact]
  have v1 : (polygonPoints Numerics.exact 2 4)[1]? = some ⟨0, 1⟩ := by
    rw [exact_polygon_vertex 2 4 1 (by decide)]
    simp only [counterClockwiseFromTop, Numerics.exact]
    have e3 : ((1 : Nat) : ℝ) * (2 * Real.pi / ((4 : Nat) : ℝ)) = Real.pi / 2 := by
      push_cast; ring
    rw [e3, Real.sin_pi_div_two, Real.cos_pi_div_two]
    norm_num
  have c1 : clockwiseFromTop Numerics.exact ⟨1, 1⟩ 1 (1 * (2 * Real.pi / 4)) = ⟨2, 1⟩ := by
    simp only [clockwiseFromTop, Numerics.exact]
    rw [e, Real.sin_pi_div_two, Real.cos_pi_div_two]
    norm_num
  refine ⟨v0, v1, c1, ?_, ?_⟩
  · simp only [turnClockwise, Numerics.exact]
    rw [e2, Real.sin_pi_div_two, Real.cos_pi_div_two]
    norm_num
  · rw [v1, c1]
    intro h
    have h' := congrArg QPointF.xp (Option.some.inj h)
    norm_num at h'

end Claim9Exact


section Claim10
variable {R : Type}

/-- The copy loop of `setData` only writes through `m_buffer`. -/
theorem copyLoop_eq (ops : Numerics R) (data : Nat → R) (t : QSGFloatTexture R) (m : Nat) :
    forLoop (m : Int) (fun i (t : QSGFloatTexture R) =>
        { t with m_buffer :=
            t.m_buffer.map (fun b => Function.update b i (ops.toFloat (data i))) }) t =
      { t with m_buffer := t.m_buffer.map (fun b =>
          forLoop (m : Int) (fun i (d : Nat → R) =>
            Function.update d i (ops.toFloat (data i))) b) } := by
  induction m with
  | zero =>
    simp only [Nat.cast_zero, forLoop_zero]
    cases t with
    | mk a b c d e f g h i j => cases g <;> rfl
  | succ m ih =>
    rw [forLoop_succ, ih]
    cases t with
    | mk a b c d e f g h i j =>
      cases g with
      | none => rfl
      | some buf =>
        simp only [Option.map_some', forLoop_succ]

theorem copyLoop_int (ops : Numerics R) (data : Nat → R) (t : QSGFloatTexture R) (n : Int) :
    forLoop n (fun i (t : QSGFloatTexture R) =>
        { t with m_buffer :=
            t.m_buffer.map (fun b => Function.update b i (ops.toFloat (data i))) }) t =
      { t with m_buffer := t.m_buffer.map (fun b =>
          forLoop n (fun i (d : Nat → R) => Function.update d i (ops.toFloat (data i))) b) } := by
  rw [forLoop_toNat, copyLoop_eq]
  rfl

theorem flatCopy_int (ops : Numerics R) (data b : Nat → R) (n : Int) (i : Nat)
    (hi : (i : Int) < n) :
    forLoop n (fun i (d : Nat → R) => Function.update d i (ops.toFloat (data i))) b i =
      ops.toFloat (data i) := by
  rw [forLoop_toNat, flatCopy_nat, if_pos (by omega)]

/-- What `fillBuffer` leaves: capacity, contents, flag and calls. -/
theorem fillBuffer_spec (ops : Numerics R) (t : QSGFloatTexture R) (data : Nat → R) (n : Int)
    (hok : t.BufferOk) :
    (t.fillBuffer ops data n).m_buffer_size = max t.m_buffer_size n ∧
    (0 < n → ∃ b, (t.fillBuffer ops data n).m_buffer = some b ∧
      ∀ i : Nat, (i : Int) < n → b i = ops.toFloat (data i)) ∧
    (t.fillBuffer ops data n).m_needs_upload = true ∧
    (t.fillBuffer ops data n).calls =
      t.calls ++ (if t.m_buffer_size < n then
        (if t.m_buffer.isSome = true then [Call.deleteArray] else []) ++ [Call.newArray n]
        else []) ∧
    (t.fillBuffer ops data n).BufferOk ∧
    (t.fillBuffer ops data n).m_num_dims = t.m_num_dims ∧
    (t.fillBuffer ops data n).m_num_components = t.m_num_components ∧
    (t.fillBuffer ops data n).m_dims_0 = t.m_dims_0 ∧
    (t.fillBuffer ops data n).m_dims_1 = t.m_dims_1 ∧
    (t.fillBuffer ops data n).m_dims_2 = t.m_dims_2 ∧
    (t.fillBuffer ops data n).m_id_texture = t.m_id_texture := by
  unfold QSGFloatTexture.fillBuffer
  simp only []
  rw [copyLoop_int]
  by_cases hlt : t.m_buffer_size < n
  · rw [if_pos hlt, if_pos hlt]
    have hmax := max_eq_right (le_of_lt hlt)
    cases h : t.m_buffer.isSome <;>
      simp [QSGFloatTexture.call, hmax, QSGFloatTexture.BufferOk, h] <;>
      exact fun _ i hi => flatCopy_int ops data _ n i hi
  · rw [if_neg hlt, if_neg hlt]
    have hle : n ≤ t.m_buffer_size := not_lt.1 hlt
    have hmax := max_eq_left hle
    refine ⟨hmax.symm, ?_, trivial, by simp, ?_, rfl, rfl, rfl, rfl, rfl, rfl⟩
    · intro hn
      have hsome := hok (lt_of_lt_of_le hn hle)
      obtain ⟨b, hb⟩ := Option.isSome_iff_exists.1 hsome
      exact ⟨_, by simp only [hb, Option.map_some'],
        fun i hi => flatCopy_int ops data b n i hi⟩
    · intro hpos
      have hsome := hok hpos
      obtain ⟨b, hb⟩ := Option.isSome_iff_exists.1 hsome
      simp [hb]

/-- What one `setData` call leaves, on a texture satisfying the buffer invariant. -/
theorem setData_spec (ops : Numerics R) (t : QSGFloatTexture R) (c : SetData R)
    (hok : t.BufferOk) :
    (0 < c.n → ∃ b, (t.setData ops c).m_buffer = some b ∧
      ∀ i : Nat, (i : Int) < c.n → b i = ops.toFloat (c.data i)) ∧
    (t.setData ops c).m_num_dims = c.rank ∧
    (t.setData ops c).dims = c.dims ∧
    (t.setData ops c).m_num_components = c.components ∧
    (t.setData ops c).m_buffer_size = max t.m_buffer_size c.n ∧
    (t.setData ops c).calls =
      t.calls ++ (if t.m_buffer_size < c.n then
        (if t.m_buffer.isSome = true then [Call.deleteArray] else []) ++ [Call.newArray c.n]
        else []) ∧
    (t.setData ops c).m_needs_upload = true ∧
    (t.setData ops c).BufferOk := by
  cases c with
  | d1 data size nc =>
    obtain ⟨h1, h2, h3, h4, h5, h6, h7, h8, h9, h10, _⟩ := fillBuffer_spec ops
      { t with m_dims_0 := size, m_num_dims := 1, m_num_components := nc } data (size * nc) hok
    refine ⟨h2, h6, ?_, h7, h1, h4, h3, h5⟩
    simp only [QSGFloatTexture.dims, SetData.dims]
    rw [show (t.setData ops (SetData.d1 data size nc)).m_num_dims = 1 from h6,
      show (t.setData ops (SetData.d1 data size nc)).m_dims_0 = size from h8]
    rfl
  | d2 data w h nc =>
    obtain ⟨h1, h2, h3, h4, h5, h6, h7, h8, h9, h10, _⟩ := fillBuffer_spec ops
      { t with m_dims_0 := w, m_dims_1 := h, m_num_dims := 2, m_num_components := nc }
      data (w * h * nc) hok
    refine ⟨h2, h6, ?_, h7, h1, h4, h3, h5⟩
    simp only [QSGFloatTexture.dims, SetData.dims]
    rw [show (t.setData ops (SetData.d2 data w h nc)).m_num_dims = 2 from h6,
      show (t.setData ops (SetData.d2 data w h nc)).m_dims_0 = w from h8,
      show (t.setData ops (SetData.d2 data w h nc)).m_dims_1 = h from h9]
    rfl
  | d3 data w h d nc =>
    obtain ⟨h1, h2, h3, h4, h5, h6, h7, h8, h9, h10, _⟩ := fillBuffer_spec ops
      { t with m_dims_0 := w, m_dims_1 := h, m_dims_2 := d, m_num_dims := 3,
               m_num_components := nc }
      data (w * h * d * nc) hok
    refine ⟨h2, h6, ?_, h7, h1, h4, h3, h5⟩
    simp only [QSGFloatTexture.dims, SetData.dims]
    rw [show (t.setData ops (SetData.d3 data w h d nc)).m_num_dims = 3 from h6,
      show (t.setData ops (SetData.d3 data w h d nc)).m_dims_0 = w from h8,
      show (t.setData ops (SetData.d3 data w h d nc)).m_dims_1 = h from h9,
      show (t.setData ops (SetData.d3 data w h d nc)).m_dims_2 = d from h10]
    rfl

/-- Every sequence of `setData` calls preserves the buffer invariant and never lowers the
capacity. -/
theorem setDataSeq_spec (ops : Numerics R) (cs : List (SetData R)) (t : QSGFloatTexture R)
    (hok : t.BufferOk) :
    (t.setDataSeq ops cs).BufferOk ∧ t.m_buffer_size ≤ (t.setDataSeq ops cs).m_buffer_size := by
  induction cs generalizing t with
  | nil => exact ⟨hok, le_refl _⟩
  | cons c cs ih =>
    obtain ⟨_, _, _, _, hsz, _, _, hok2⟩ := setData_spec ops t c hok
    obtain ⟨a, b⟩ := ih (t.setData ops c) hok2
    refine ⟨a, le_trans ?_ b⟩
    rw [hsz]
    exact le_max_left _ _

theorem reached_bufferOk (ops : Numerics R) (id : Nat) (cs : List (SetData R)) :
    (QSGFloatTexture.reached ops id cs).BufferOk :=
  (setDataSeq_spec ops cs (QSGFloatTexture.new id) (fun h => absurd h (lt_irrefl 0))).1

/-- Claim C10: on every texture reached from a new one by `setData` calls, each of
`setData1D`, `setData2D`, `setData3D` with `n = product(dims) * components` leaves the `n`
input doubles, converted to `float` and in the same order, in the first `n` entries of the
buffer, stores the rank, the dimensions and the component count of the call, and leaves
the capacity `max(previous capacity, n)`; the buffer is reallocated exactly when `n`
exceeds the previous capacity, and over any further sequence of `setData` calls the
capacity never decreases. -/
theorem setData_contract (ops : Numerics R) (id : Nat) (cs : List (SetData R))
    (c : SetData R) :
    (0 < c.n → ∃ b, ((QSGFloatTexture.reached ops id cs).setData ops c).m_buffer = some b ∧
      ∀ i : Nat, (i : Int) < c.n → b i = ops.toFloat (c.data i)) ∧
    ((QSGFloatTexture.reached ops id cs).setData ops c).m_num_dims = c.rank ∧
    ((QSGFloatTexture.reached ops id cs).setData ops c).dims = c.dims ∧
    ((QSGFloatTexture.reached ops id cs).setData ops c).m_num_components = c.components ∧
    ((QSGFloatTexture.reached ops id cs).setData ops c).m_buffer_size =
      max (QSGFloatTexture.reached ops id cs).m_buffer_size c.n ∧
    (Call.newArray c.n ∈ (((QSGFloatTexture.reached ops id cs).setData ops c).calls.drop
        (QSGFloatTexture.reached ops id cs).calls.length) ↔
      (QSGFloatTexture.reached ops id cs).m_buffer_size < c.n) ∧
    ((QSGFloatTexture.reached ops id cs).setData ops c).calls =
      (QSGFloatTexture.reached ops id cs).calls ++
        (if (QSGFloatTexture.reached ops id cs).m_buffer_size < c.n then
          (if (QSGFloatTexture.reached ops id cs).m_buffer.isSome = true
            then [Call.deleteArray] else []) ++ [Call.newArray c.n]
        else []) ∧
    (∀ cs2 : List (SetData R),
      ((QSGFloatTexture.reached ops id cs).setData ops c).m_buffer_size ≤
        (((QSGFloatTexture.reached ops id cs).setData ops c).setDataSeq ops cs2).m_buffer_size) := by
  obtain ⟨h1, h2, h3, h4, h5, h6, _, h8⟩ :=
    setData_spec ops (QSGFloatTexture.reached ops id cs) c (reached_bufferOk ops id cs)
  refine ⟨h1, h2, h3, h4, h5, ?_, h6, fun cs2 => (setDataSeq_spec ops cs2 _ h8).2⟩
  rw [h6, List.drop_left]
  split_ifs with ha hb <;> simp [ha]

end Claim10

section Claim10Example

/-- The `setData` contract evaluated on a concrete sequence: `setData2D` with 2 x 2 x 1
values allocates 4 floats; a following `setData1D` with 3 values keeps capacity 4, stores
rank 1 and dimension 3, and holds the converted values in order. -/
theorem setData_contract_witness :
    ∃ b, (((QSGFloatTexture.reached Numerics.exact 7
        [SetData.d2 (bufferOf [1, 2, 3, 4]) 2 2 1]).setData Numerics.exact
          (SetData.d1 (bufferOf [5, 6, 7]) 3 1)).m_buffer = some b ∧
      b 0 = 5 ∧ b 1 = 6 ∧ b 2 = 7) ∧
    ((QSGFloatTexture.reached Numerics.exact 7
        [SetData.d2 (bufferOf [1, 2, 3, 4]) 2 2 1]).setData Numerics.exact
          (SetData.d1 (bufferOf [5, 6, 7]) 3 1)).m_buffer_size = 4 ∧
    ((QSGFloatTexture.reached Numerics.exact 7
        [SetData.d2 (bufferOf [1, 2, 3, 4]) 2 2 1]).setData Numerics.exact
          (SetData.d1 (bufferOf [5, 6, 7]) 3 1)).dims = [3] := by
  obtain ⟨h1, _, h3, _, h5, _, _, _⟩ := setData_contract Numerics.exact 7
    [SetData.d2 (bufferOf [1, 2, 3, 4]) 2 2 1] (SetData.d1 (bufferOf [5, 6, 7]) 3 1)
  obtain ⟨b, hb, hv⟩ := h1 (by decide)
  refine ⟨b, ⟨hb, ?_, ?_, ?_⟩, ?_, h3⟩
  · exact (hv 0 (by decide)).trans rfl
  · exact (hv 1 (by decide)).trans rfl
  · exact (hv 2 (by decide)).trans rfl
  · rw [h5]
    have hprev : (QSGFloatTexture.reached Numerics.exact 7
        [SetData.d2 (bufferOf [1, 2, 3, 4]) 2 2 1]).m_buffer_size = 4 := by
      have hs := (setData_spec Numerics.exact (QSGFloatTexture.new 7)
        (SetData.d2 (bufferOf [1, 2, 3, 4]) 2 2 1) (fun h => absurd h (lt_irrefl 0))).2.2.2.2.1
      exact hs.trans (by decide)
    rw [hprev]
    decide

end Claim10Example

section Claim11
variable {R : Type}

theorem bindTarget_eq (t : QSGFloatTexture R) :
    t.bindTarget = { t with calls := t.calls ++ targetCalls t } := by
  unfold targetCalls callsSince QSGFloatTexture.bindTarget
  split_ifs <;> simp [QSGFloatTexture.call]

theorem targetCalls_no_upload (t : QSGFloatTexture R) : uploads (targetCalls t) = [] := by
  unfold targetCalls callsSince QSGFloatTexture.bindTarget uploads
  split_ifs <;> simp [QSGFloatTexture.call, Call.isUpload]

theorem targetCalls_rank (t : QSGFloatTexture R)
    (h : ¬(1 ≤ t.m_num_dims ∧ t.m_num_dims ≤ 3)) : targetCalls t = [] := by
  unfold targetCalls callsSince QSGFloatTexture.bindTarget
  split_ifs with h1 h2 h3
  · omega
  · omega
  · omega
  · simp

/-- The uploads a `bind` call performs on the texture `t`. -/
theorem bind_eq (t : QSGFloatTexture R) :
    t.bind = { t with
      m_needs_upload := false
      calls := t.calls ++ targetCalls t ++
        (if t.m_needs_upload = true then
          match colorFormat t.m_num_components with
          | none => []
          | some (internal_format, format) =>
            if t.m_num_dims = 1 then
              [Call.glTexImage1D internal_format t.m_dims_0 format t.m_buffer]
            else if t.m_num_dims = 2 then
              [Call.glTexImage2D internal_format t.m_dims_0 t.m_dims_1 format t.m_buffer]
            else if t.m_num_dims = 3 then
              [Call.glTexImage3D internal_format t.m_dims_0 t.m_dims_1 t.m_dims_2 format
                t.m_buffer]
            else []
        else []) } := by
  unfold QSGFloatTexture.bind
  simp only []
  rw [bindTarget_eq]
  cases hu : t.m_needs_upload
  · cases t; simp_all
  · simp only [if_true]
    cases hc : colorFormat t.m_num_components with
    | none => cases t; simp_all
    | some f =>
      obtain ⟨i, f⟩ := f
      simp only []
      split_ifs <;> simp [QSGFloatTexture.call]

theorem callsSince_append (t u : QSGFloatTexture R) (X : List (Call R))
    (h : u.calls = t.calls ++ X) : callsSince t u = X := by
  unfold callsSince
  rw [h, List.drop_left]

theorem uploads_append (X Y : List (Call R)) : uploads (X ++ Y) = uploads X ++ uploads Y := by
  unfold uploads
  rw [List.filter_append]

theorem colorFormat_none_iff (n : Int) : colorFormat n = none ↔ ¬(1 ≤ n ∧ n ≤ 4) := by
  unfold colorFormat
  split_ifs <;> simp <;> omega

theorem bind_calls (t : QSGFloatTexture R) :
    callsSince t t.bind = targetCalls t ++
      (if t.m_needs_upload = true then
        match colorFormat t.m_num_components with
        | none => []
        | some (internal_format, format) =>
          if t.m_num_dims = 1 then
            [Call.glTexImage1D internal_format t.m_dims_0 format t.m_buffer]
          else if t.m_num_dims = 2 then
            [Call.glTexImage2D internal_format t.m_dims_0 t.m_dims_1 format t.m_buffer]
          else if t.m_num_dims = 3 then
            [Call.glTexImage3D internal_format t.m_dims_0 t.m_dims_1 t.m_dims_2 format
              t.m_buffer]
          else []
      else []) := by
  apply callsSince_append
  rw [bind_eq, List.append_assoc]

/-- A `bind` call uploads exactly when an upload is pending and the stored component count
and rank are supported. -/
theorem bind_uploads_iff (t : QSGFloatTexture R) :
    uploads (callsSince t t.bind) ≠ [] ↔
      (t.m_needs_upload = true ∧ (1 ≤ t.m_num_components ∧ t.m_num_components ≤ 4) ∧
        (1 ≤ t.m_num_dims ∧ t.m_num_dims ≤ 3)) := by
  rw [bind_calls, uploads_append, targetCalls_no_upload, List.nil_append]
  cases hu : t.m_needs_upload
  · simp [uploads]
  · simp only [if_true, true_and]
    cases hc : colorFormat t.m_num_components with
    | none =>
      have := (colorFormat_none_iff _).1 hc
      simp [uploads, this]
    | some f =>
      have hne : ¬(colorFormat t.m_num_components = none) := by rw [hc]; simp
      have hcomp : 1 ≤ t.m_num_components ∧ t.m_num_components ≤ 4 := by
        by_contra hcon
        exact hne ((colorFormat_none_iff _).2 hcon)
      obtain ⟨i, f⟩ := f
      simp only []
      split_ifs with h1 h2 h3 <;> simp [uploads, Call.isUpload, hcomp] <;> omega

/-- Claim C12: on every float texture whose stored component count is outside 1..4 or
whose stored rank is outside 1..3, `bind` performs no GPU upload, whether or not an upload
is pending, and nothing else happens than the calls of the target selection and the
clearing of the flag (no failure, no further call); `bind` performs an upload only when an
upload is pending, the component count is in 1..4 and the rank is in 1..3, and then it
does. -/
theorem bind_unsupported_skips_upload (t : QSGFloatTexture R) :
    ((¬(1 ≤ t.m_num_components ∧ t.m_num_components ≤ 4) ∨
        ¬(1 ≤ t.m_num_dims ∧ t.m_num_dims ≤ 3)) →
      uploads (callsSince t t.bind) = [] ∧
      callsSince t t.bind = targetCalls t ∧
      t.bind = { t with m_needs_upload := false, calls := t.calls ++ targetCalls t }) ∧
    (¬(1 ≤ t.m_num_dims ∧ t.m_num_dims ≤ 3) → callsSince t t.bind = []) ∧
    (uploads (callsSince t t.bind) ≠ [] ↔
      (t.m_needs_upload = true ∧ (1 ≤ t.m_num_components ∧ t.m_num_components ≤ 4) ∧
        (1 ≤ t.m_num_dims ∧ t.m_num_dims ≤ 3))) := by
  have hno : (¬(1 ≤ t.m_num_components ∧ t.m_num_components ≤ 4) ∨
      ¬(1 ≤ t.m_num_dims ∧ t.m_num_dims ≤ 3)) → uploads (callsSince t t.bind) = [] := by
    intro h
    by_contra hne
    have := (bind_uploads_iff t).1 hne
    tauto
  have hcalls : uploads (callsSince t t.bind) = [] → callsSince t t.bind = targetCalls t := by
    intro hu
    rw [bind_calls] at hu ⊢
    rw [uploads_append, targetCalls_no_upload, List.nil_append] at hu
    cases hf : t.m_needs_upload
    · simp
    · rw [hf] at hu
      simp only [if_true] at hu ⊢
      cases hc : colorFormat t.m_num_components with
      | none => simp
      | some f =>
        obtain ⟨i, f⟩ := f
        rw [hc] at hu
        simp only [] at hu ⊢
        split_ifs at hu ⊢ with h1 h2 h3 <;> simp [uploads, Call.isUpload] at hu ⊢
  refine ⟨fun h => ⟨hno h, hcalls (hno h), ?_⟩, fun h => ?_, bind_uploads_iff t⟩
  · have hc := hcalls (hno h)
    rw [bind_calls] at hc
    have hnil := List.append_cancel_left (hc.trans (List.append_nil _).symm)
    rw [bind_eq, hnil, List.append_nil]
  · rw [hcalls (hno (Or.inr h)), targetCalls_rank t h]

/-- Every `setData` call raises the flag and only appends calls that are no uploads. -/
theorem setData_calls (ops : Numerics R) (t : QSGFloatTexture R) (c : SetData R) :
    (t.setData ops c).m_needs_upload = true ∧
      ∃ X, (t.setData ops c).calls = t.calls ++ X ∧ uploads X = [] := by
  have hfb : ∀ (t : QSGFloatTexture R) (data : Nat → R) (n : Int),
      (t.fillBuffer ops data n).m_needs_upload = true ∧
      ∃ X, (t.fillBuffer ops data n).calls = t.calls ++ X ∧ uploads X = [] := by
    intro t data n
    unfold QSGFloatTexture.fillBuffer
    simp only []
    rw [copyLoop_int]
    refine ⟨trivial, ?_⟩
    by_cases hlt : t.m_buffer_size < n
    · rw [if_pos hlt]
      cases hs : t.m_buffer.isSome
      · exact ⟨[Call.newArray n], by simp [QSGFloatTexture.call, hs], rfl⟩
      · exact ⟨[Call.deleteArray, Call.newArray n], by simp [QSGFloatTexture.call, hs], rfl⟩
    · rw [if_neg hlt]
      exact ⟨[], by simp, rfl⟩
  cases c with
  | d1 data size nc =>
    exact hfb { t with m_dims_0 := size, m_num_dims := 1, m_num_components := nc } data
      (size * nc)
  | d2 data w h nc =>
    exact hfb { t with m_dims_0 := w, m_dims_1 := h, m_num_dims := 2, m_num_components := nc }
      data (w * h * nc)
  | d3 data w h d nc =>
    exact hfb { t with m_dims_0 := w, m_dims_1 := h, m_dims_2 := d, m_num_dims := 3,
                       m_num_components := nc } data (w * h * d * nc)

theorem setDataSeq_calls (ops : Numerics R) (cs : List (SetData R))
    (t : QSGFloatTexture R) :
    ∃ X, (t.setDataSeq ops cs).calls = t.calls ++ X ∧ uploads X = [] := by
  induction cs generalizing t with
  | nil => exact ⟨[], by simp [QSGFloatTexture.setDataSeq], rfl⟩
  | cons c cs ih =>
    obtain ⟨X, hX, hu⟩ := ih (t.setData ops c)
    obtain ⟨_, Y, hY, hv⟩ := setData_calls ops t c
    refine ⟨Y ++ X, ?_, ?_⟩
    · show ((t.setData ops c).setDataSeq ops cs).calls = _
      rw [hX, hY, List.append_assoc]
    · rw [uploads_append, hv, hu]; rfl

/-- The buffer invariant holds after every sequence of operations. -/
theorem history_bufferOk (ops : Numerics R) (id : Nat) (h : List (TexOp R)) :
    (QSGFloatTexture.history ops id h).BufferOk := by
  have hgen : ∀ (h : List (TexOp R)) (t : QSGFloatTexture R), t.BufferOk →
      (h.foldl (fun t o => t.perform ops o) t).BufferOk := by
    intro h
    induction h with
    | nil => exact fun t ht => ht
    | cons o h ih =>
      intro t ht
      apply ih
      cases o with
      | setData c => exact (setData_spec ops t c ht).2.2.2.2.2.2.2
      | bind =>
        show (t.bind).BufferOk
        rw [bind_eq]
        exact ht
  exact hgen h _ (fun h0 => absurd h0 (lt_irrefl 0))

/-- Once no upload is pending, further `bind` calls upload nothing. -/
theorem bindTimes_no_upload (t : QSGFloatTexture R) (hf : t.m_needs_upload = false) (k : Nat) :
    (t.bindTimes k).m_needs_upload = false ∧
      ∃ X, (t.bindTimes k).calls = t.calls ++ X ∧ uploads X = [] := by
  induction k with
  | zero => exact ⟨hf, [], by simp [QSGFloatTexture.bindTimes], rfl⟩
  | succ k ih =>
    obtain ⟨hk, X, hX, hu⟩ := ih
    refine ⟨by show ((t.bindTimes k).bind).m_needs_upload = false; rw [bind_eq], ?_⟩
    refine ⟨X ++ targetCalls (t.bindTimes k), ?_, ?_⟩
    · show ((t.bindTimes k).bind).calls = _
      rw [bind_eq]
      simp only [hk, Bool.false_eq_true, if_false, List.append_nil]
      rw [hX, List.append_assoc]
    · rw [uploads_append, hu, targetCalls_no_upload]; rfl

/-- The upload the first `bind` after the `setData` call `c` performs. -/
theorem bind_after_setData (ops : Numerics R) (t : QSGFloatTexture R) (c : SetData R)
    (ht : t.BufferOk) (hc1 : 1 ≤ c.components) (hc4 : c.components ≤ 4) :
    ∃ internal_format format, colorFormat c.components = some (internal_format, format) ∧
      uploads (callsSince (t.setData ops c) (t.setData ops c).bind) =
        [c.upload internal_format format (t.setData ops c).m_buffer] := by
  obtain ⟨_, hrank, hdims, hcomp, _, _, hflag, _⟩ := setData_spec ops t c ht
  have hsome : colorFormat c.components ≠ none := by
    intro h0
    exact (colorFormat_none_iff _).1 h0 ⟨hc1, hc4⟩
  obtain ⟨⟨i, f⟩, hif⟩ := Option.ne_none_iff_exists'.1 hsome
  refine ⟨i, f, hif, ?_⟩
  rw [bind_calls, uploads_append, targetCalls_no_upload, List.nil_append, hflag, hcomp, hif]
  simp only [if_true]
  cases c with
  | d1 data size nc =>
    simp only [SetData.rank] at hrank
    have h0 : (t.setData ops (SetData.d1 data size nc)).m_dims_0 = size := by
      simpa [QSGFloatTexture.dims, hrank, SetData.dims] using hdims
    rw [hrank, h0]
    rfl
  | d2 data w h nc =>
    simp only [SetData.rank] at hrank
    have h0 : (t.setData ops (SetData.d2 data w h nc)).m_dims_0 = w ∧
        (t.setData ops (SetData.d2 data w h nc)).m_dims_1 = h := by
      simpa [QSGFloatTexture.dims, hrank, SetData.dims] using hdims
    rw [hrank, h0.1, h0.2]
    rfl
  | d3 data w h d nc =>
    simp only [SetData.rank] at hrank
    have h0 : (t.setData ops (SetData.d3 data w h d nc)).m_dims_0 = w ∧
        (t.setData ops (SetData.d3 data w h d nc)).m_dims_1 = h ∧
        (t.setData ops (SetData.d3 data w h d nc)).m_dims_2 = d := by
      simpa [QSGFloatTexture.dims, hrank, SetData.dims] using hdims
    rw [hrank, h0.1, h0.2.1, h0.2.2]
    rfl

/-- The formats `bind` selects for 1, 2, 3 and 4 components. -/
theorem colorFormat_table (n : Int) (internal_format : GLInternalFormat) (format : GLFormat)
    (h : colorFormat n = some (internal_format, format)) :
    (n = 1 → internal_format = GLInternalFormat.GL_R32F ∧ format = GLFormat.GL_RED) ∧
    (n = 2 → internal_format = GLInternalFormat.GL_RG32F ∧ format = GLFormat.GL_RG) ∧
    (n = 3 → internal_format = GLInternalFormat.GL_RGB32F ∧ format = GLFormat.GL_RGB) ∧
    (n = 4 → internal_format = GLInternalFormat.GL_RGBA32F ∧ format = GLFormat.GL_RGBA) := by
  refine ⟨?_, ?_, ?_, ?_⟩ <;>
  · intro hn
    subst hn
    have h2 := Prod.mk.inj (Option.some.inj h)
    exact ⟨h2.1.symm, h2.2.symm⟩

/-- Claim C11: after any operations on a float texture, for one or more `setData` calls
(`cs`, then `c` with 1..4 components) followed by `bind` calls: no `setData` call uploads
and each leaves the pending-upload flag set; the first `bind` performs exactly one upload,
with the dimensions of the last `setData`, the format of its component count
(`GL_R32F`/`GL_RED` for 1, `GL_RG32F`/`GL_RG` for 2, `GL_RGB32F`/`GL_RGB` for 3,
`GL_RGBA32F`/`GL_RGBA` for 4) and the buffer holding its converted data, and clears the
flag; `k` further `bind` calls upload nothing; and after any `bind` call on any texture the
flag is false. -/
theorem upload_deferred_to_first_bind (ops : Numerics R) (id : Nat) (h : List (TexOp R))
    (cs : List (SetData R)) (c : SetData R) (k : Nat)
    (hc1 : 1 ≤ c.components) (hc4 : c.components ≤ 4) :
    uploads (callsSince (QSGFloatTexture.history ops id h)
      (QSGFloatTexture.afterSetData ops id h cs c)) = [] ∧
    (∀ (t : QSGFloatTexture R) (c2 : SetData R),
      (t.setData ops c2).m_needs_upload = true ∧
      uploads (callsSince t (t.setData ops c2)) = []) ∧
    (∃ internal_format format,
      uploads (callsSince (QSGFloatTexture.afterSetData ops id h cs c)
          (QSGFloatTexture.afterSetData ops id h cs c).bind) =
        [c.upload internal_format format (QSGFloatTexture.afterSetData ops id h cs c).m_buffer] ∧
      (c.components = 1 →
        internal_format = GLInternalFormat.GL_R32F ∧ format = GLFormat.GL_RED) ∧
      (c.components = 2 →
        internal_format = GLInternalFormat.GL_RG32F ∧ format = GLFormat.GL_RG) ∧
      (c.components = 3 →
        internal_format = GLInternalFormat.GL_RGB32F ∧ format = GLFormat.GL_RGB) ∧
      (c.components = 4 →
        internal_format = GLInternalFormat.GL_RGBA32F ∧ format = GLFormat.GL_RGBA)) ∧
    (0 < c.n → ∃ b, (QSGFloatTexture.afterSetData ops id h cs c).m_buffer = some b ∧
      ∀ i : Nat, (i : Int) < c.n → b i = ops.toFloat (c.data i)) ∧
    (QSGFloatTexture.afterSetData ops id h cs c).bind.m_needs_upload = false ∧
    uploads (callsSince (QSGFloatTexture.afterSetData ops id h cs c).bind
      ((QSGFloatTexture.afterSetData ops id h cs c).bind.bindTimes k)) = [] ∧
    (∀ t : QSGFloatTexture R, t.bind.m_needs_upload = false) := by
  have hflag : ∀ t : QSGFloatTexture R, t.bind.m_needs_upload = false := by
    intro t; rw [bind_eq]
  have hok := (setDataSeq_spec ops cs _ (history_bufferOk ops id h)).1
  refine ⟨?_, fun t c2 => ?_, ?_, ?_, hflag _, ?_, hflag⟩
  · obtain ⟨X, hX, hu⟩ := setDataSeq_calls ops cs (QSGFloatTexture.history ops id h)
    obtain ⟨_, Y, hY, hv⟩ := setData_calls ops
      ((QSGFloatTexture.history ops id h).setDataSeq ops cs) c
    have hall : (QSGFloatTexture.afterSetData ops id h cs c).calls =
        (QSGFloatTexture.history ops id h).calls ++ (X ++ Y) := by
      unfold QSGFloatTexture.afterSetData
      rw [hY, hX, List.append_assoc]
    rw [callsSince_append _ _ _ hall, uploads_append, hu, hv]
    rfl
  · obtain ⟨hf, X, hX, hu⟩ := setData_calls ops t c2
    exact ⟨hf, (congrArg uploads (callsSince_append t _ X hX)).trans hu⟩
  · obtain ⟨i, f, hif, hup⟩ := bind_after_setData ops _ c hok hc1 hc4
    exact ⟨i, f, hup, colorFormat_table _ i f hif⟩
  · exact (setData_spec ops _ c hok).1
  · obtain ⟨_, X, hX, hu⟩ := bindTimes_no_upload _ (hflag
      (QSGFloatTexture.afterSetData ops id h cs c)) k
    exact (congrArg uploads (callsSince_append _ _ X hX)).trans hu

end Claim11
section Claim11Example

/-- Witness of C11: `setData1D` then `setData2D` (1 x 2, three components) on a new
texture, then three `bind` calls: the first uploads once, as a 1 x 2 `GL_RGB32F`/`GL_RGB`
image of the buffer holding 1, 2, 3, 4, 5, 6; the next two upload nothing. -/
theorem upload_deferred_to_first_bind_witness :
    (1 : Int) ≤ (SetData.d2 (bufferOf [1, 2, 3, 4, 5, 6]) 1 2 3 : SetData ℝ).components ∧
    (SetData.d2 (bufferOf [1, 2, 3, 4, 5, 6]) 1 2 3 : SetData ℝ).components ≤ 4 ∧
    uploads (callsSince
        (QSGFloatTexture.afterSetData Numerics.exact 7 [] [SetData.d1 (bufferOf [1, 2]) 2 1]
          (SetData.d2 (bufferOf [1, 2, 3, 4, 5, 6]) 1 2 3))
        (QSGFloatTexture.afterSetData Numerics.exact 7 [] [SetData.d1 (bufferOf [1, 2]) 2 1]
          (SetData.d2 (bufferOf [1, 2, 3, 4, 5, 6]) 1 2 3)).bind) =
      [Call.glTexImage2D GLInternalFormat.GL_RGB32F 1 2 GLFormat.GL_RGB
        (QSGFloatTexture.afterSetData Numerics.exact 7 [] [SetData.d1 (bufferOf [1, 2]) 2 1]
          (SetData.d2 (bufferOf [1, 2, 3, 4, 5, 6]) 1 2 3)).m_buffer] ∧
    (∃ b, (QSGFloatTexture.afterSetData Numerics.exact 7 [] [SetData.d1 (bufferOf [1, 2]) 2 1]
        (SetData.d2 (bufferOf [1, 2, 3, 4, 5, 6]) 1 2 3)).m_buffer = some b ∧
      b 0 = 1 ∧ b 1 = 2 ∧ b 2 = 3 ∧ b 3 = 4 ∧ b 4 = 5 ∧ b 5 = 6) ∧
    uploads (callsSince
        (QSGFloatTexture.afterSetData Numerics.exact 7 [] [SetData.d1 (bufferOf [1, 2]) 2 1]
          (SetData.d2 (bufferOf [1, 2, 3, 4, 5, 6]) 1 2 3)).bind
        ((QSGFloatTexture.afterSetData Numerics.exact 7 [] [SetData.d1 (bufferOf [1, 2]) 2 1]
          (SetData.d2 (bufferOf [1, 2, 3, 4, 5, 6]) 1 2 3)).bind.bindTimes 2)) = [] := by
  obtain ⟨_, _, ⟨i, f, hup, _, _, h3, _⟩, hbuf, _, hk, _⟩ :=
    upload_deferred_to_first_bind Numerics.exact 7
    [] [SetData.d1 (bufferOf [1, 2]) 2 1] (SetData.d2 (bufferOf [1, 2, 3, 4, 5, 6]) 1 2 3) 2
    (by decide) (by decide)
  obtain ⟨hi, hf⟩ := h3 rfl
  obtain ⟨b, hb, hv⟩ := hbuf (by decide)
  refine ⟨by decide, by decide, ?_, ⟨b, hb, ?_, ?_, ?_, ?_, ?_, ?_⟩, hk⟩
  · rw [hup, hi, hf]
    rfl
  · exact (hv 0 (by decide)).trans rfl
  · exact (hv 1 (by decide)).trans rfl
  · exact (hv 2 (by decide)).trans rfl
  · exact (hv 3 (by decide)).trans rfl
  · exact (hv 4 (by decide)).trans rfl
  · exact (hv 5 (by decide)).trans rfl

/-- Witness of C12: a texture given 5 components by `setData1D` has an upload pending;
`bind` makes the four calls of the 1D target selection, uploads nothing and clears the
flag. A texture of rank 0 with an upload pending makes no call at all. -/
theorem bind_unsupported_skips_upload_witness :
    ((QSGFloatTexture.new 7 : QSGFloatTexture ℝ).setData1D Numerics.exact
        (bufferOf [1, 2, 3, 4, 5]) 1 5).m_needs_upload = true ∧
    ((QSGFloatTexture.new 7 : QSGFloatTexture ℝ).setData1D Numerics.exact
        (bufferOf [1, 2, 3, 4, 5]) 1 5).m_num_components = 5 ∧
    uploads (callsSince
      ((QSGFloatTexture.new 7 : QSGFloatTexture ℝ).setData1D Numerics.exact
        (bufferOf [1, 2, 3, 4, 5]) 1 5)
      ((QSGFloatTexture.new 7 : QSGFloatTexture ℝ).setData1D Numerics.exact
        (bufferOf [1, 2, 3, 4, 5]) 1 5).bind) = [] ∧
    (callsSince
      ((QSGFloatTexture.new 7 : QSGFloatTexture ℝ).setData1D Numerics.exact
        (bufferOf [1, 2, 3, 4, 5]) 1 5)
      ((QSGFloatTexture.new 7 : QSGFloatTexture ℝ).setData1D Numerics.exact
        (bufferOf [1, 2, 3, 4, 5]) 1 5).bind).length = 4 ∧
    ((QSGFloatTexture.new 7 : QSGFloatTexture ℝ).setData1D Numerics.exact
        (bufferOf [1, 2, 3, 4, 5]) 1 5).bind.m_needs_upload = false ∧
    callsSince ({ (QSGFloatTexture.new 7 : QSGFloatTexture ℝ) with m_needs_upload := true })
      ({ (QSGFloatTexture.new 7 : QSGFloatTexture ℝ) with m_needs_upload := true }).bind = [] := by
  have hcomp : ((QSGFloatTexture.new 7 : QSGFloatTexture ℝ).setData1D Numerics.exact
      (bufferOf [1, 2, 3, 4, 5]) 1 5).m_num_components = 5 := rfl
  obtain ⟨h1, _, _⟩ := bind_unsupported_skips_upload
    ((QSGFloatTexture.new 7 : QSGFloatTexture ℝ).setData1D Numerics.exact
      (bufferOf [1, 2, 3, 4, 5]) 1 5)
  obtain ⟨hu, hcalls, hst⟩ := h1 (Or.inl (by rw [hcomp]; decide))
  obtain ⟨_, h2, _⟩ := bind_unsupported_skips_upload
    ({ (QSGFloatTexture.new 7 : QSGFloatTexture ℝ) with m_needs_upload := true })
  refine ⟨rfl, hcomp, hu, ?_, ?_, h2 (by decide)⟩
  · rw [hcalls]
    rfl
  · rw [hst]

end Claim11Example

section Claim13
variable {R : Type} [LinearOrderedField R]

/-- What `setMarkerEnabled` does with a new value: it stores it, requests a repaint and
emits `lineEnabledChanged` (line 386), not `markerEnabledChanged`. -/
theorem setMarkerEnabled_new_value (p : XYPlot R) (enabled : Bool) (h : enabled ≠ p.m_marker) :
    p.setMarkerEnabled enabled =
      { p with m_marker := enabled
               emitted := p.emitted ++ [Signal.lineEnabledChanged enabled]
               updates := p.updates + 1 } := by
  unfold XYPlot.setMarkerEnabled
  rw [if_pos (Ne.symm h)]
  rfl

/-- The eleven setters other than `setMarkerEnabled` called with a new value store it, emit
the change notification of their own property once, carrying the new value, and request a
repaint; `setLogY` also raises the new-data flag. -/
theorem other_setters_new_value (ops : Numerics R) (p : XYPlot R) :
    (∀ v, v ≠ p.m_view_rect → p.setViewRect ops v =
      { p with m_view_rect := v, emitted := p.emitted ++ [Signal.viewRectChanged v],
               updates := p.updates + 1 }) ∧
    (∀ v, v ≠ p.m_fill → p.setFillEnabled v =
      { p with m_fill := v, emitted := p.emitted ++ [Signal.fillEnabledChanged v],
               updates := p.updates + 1 }) ∧
    (∀ v, v ≠ p.m_fillcolor → p.setFillColor v =
      { p with m_fillcolor := v, emitted := p.emitted ++ [Signal.fillColorChanged v],
               updates := p.updates + 1 }) ∧
    (∀ v, v ≠ p.m_line → p.setLineEnabled v =
      { p with m_line := v, emitted := p.emitted ++ [Signal.lineEnabledChanged v],
               updates := p.updates + 1 }) ∧
    (∀ v, v ≠ p.m_linewidth → p.setLineWidth ops v =
      { p with m_linewidth := v, emitted := p.emitted ++ [Signal.lineWidthChanged v],
               updates := p.updates + 1 }) ∧
    (∀ v, v ≠ p.m_linecolor → p.setLineColor v =
      { p with m_linecolor := v, emitted := p.emitted ++ [Signal.lineColorChanged v],
               updates := p.updates + 1 }) ∧
    (∀ v, v ≠ p.m_markersegments → p.setMarkerSegments v =
      { p with m_markersegments := v, emitted := p.emitted ++ [Signal.markerSegmentsChanged v],
               updates := p.updates + 1 }) ∧
    (∀ v, v ≠ p.m_markersize → p.setMarkerSize ops v =
      { p with m_markersize := v, emitted := p.emitted ++ [Signal.markerSizeChanged v],
               updates := p.updates + 1 }) ∧
    (∀ v, v ≠ p.m_markercolor → p.setMarkerColor v =
      { p with m_markercolor := v, emitted := p.emitted ++ [Signal.markerColorChanged v],
               updates := p.updates + 1 }) ∧
    (∀ v, v ≠ p.m_markerborder → p.setMarkerBorder v =
      { p with m_markerborder := v, emitted := p.emitted ++ [Signal.markerBorderChanged v],
               updates := p.updates + 1 }) ∧
    (∀ v, v ≠ p.m_logy → p.setLogY v =
      { p with m_logy := v, emitted := p.emitted ++ [Signal.logYChanged v],
               m_new_data := true, updates := p.updates + 1 }) := by
  refine ⟨?_, ?_, ?_, ?_, ?_, ?_, ?_, ?_, ?_, ?_, ?_⟩
  · intro v h; unfold XYPlot.setViewRect; rw [if_pos (rect_ne_of_ne ops _ _ h)]; rfl
  · intro v h; unfold XYPlot.setFillEnabled; rw [if_pos (Ne.symm h)]; rfl
  · intro v h; unfold XYPlot.setFillColor; rw [if_pos (Ne.symm h)]; rfl
  · intro v h; unfold XYPlot.setLineEnabled; rw [if_pos (Ne.symm h)]; rfl
  · intro v h; unfold XYPlot.setLineWidth; rw [if_pos (ne_of_ne ops _ _ (Ne.symm h))]; rfl
  · intro v h; unfold XYPlot.setLineColor; rw [if_pos (Ne.symm h)]; rfl
  · intro v h; unfold XYPlot.setMarkerSegments; rw [if_pos (Ne.symm h)]; rfl
  · intro v h; unfold XYPlot.setMarkerSize; rw [if_pos (ne_of_ne ops _ _ (Ne.symm h))]; rfl
  · intro v h; unfold XYPlot.setMarkerColor; rw [if_pos (Ne.symm h)]; rfl
  · intro v h; unfold XYPlot.setMarkerBorder; rw [if_pos (Ne.symm h)]; rfl
  · intro v h; unfold XYPlot.setLogY; rw [if_pos (Ne.symm h)]; rfl

end Claim13

section Claim13Example

/-- Claim C13, the code at the failing input: on the example plot with the marker layer
disabled, `setMarkerEnabled(true)` stores the value and requests one repaint, but the one
notification it emits is `lineEnabledChanged(true)`; no `markerEnabledChanged` is emitted.
`setLineEnabled(false)` on the same plot emits `lineEnabledChanged(false)`. -/
theorem setMarkerEnabled_emits_lineEnabledChanged :
    ((examplePlot true true false false : XYPlot ℝ).setMarkerEnabled true).m_marker = true ∧
    ((examplePlot true true false false : XYPlot ℝ).setMarkerEnabled true).updates = 1 ∧
    ((examplePlot true true false false : XYPlot ℝ).setMarkerEnabled true).emitted
      = [Signal.lineEnabledChanged true] ∧
    (∀ b, Signal.markerEnabledChanged b ∉
      ((examplePlot true true false false : XYPlot ℝ).setMarkerEnabled true).emitted) ∧
    ((examplePlot true true false false : XYPlot ℝ).setLineEnabled false).emitted
      = [Signal.lineEnabledChanged false] := by
  have h := setMarkerEnabled_new_value (examplePlot true true false false : XYPlot ℝ) true
    (by decide)
  have h4 := (other_setters_new_value Numerics.exact
    (examplePlot true true false false : XYPlot ℝ)).2.2.2.1
    false (by decide)
  rw [h, h4]
  refine ⟨rfl, rfl, rfl, ?_, rfl⟩
  intro b hb
  have hb2 : Signal.markerEnabledChanged b ∈ [(Signal.lineEnabledChanged true : Signal ℝ)] := hb
  simp at hb2

end Claim13Example

section Claim14
variable {R : Type} [LinearOrderedField R] [FloorRing R]

/-- Claim C14: after every frame update with a data source present each of the three
nodes has `m_blocked = !enabled`, whatever the flags and toggles were before; and the
dirty state passed to `markDirty` includes `DirtySubtreeBlocked` exactly when the blocked
flag of at least one node changed value during the update. -/
theorem blocked_is_not_enabled (ops : Numerics R) (p : XYPlot R) (n : Option (QSGNode R))
    (src : DataSource R) (ch : Children R) (ds : DirtyState) (h : p.m_source = some src)
    (hch : (updatePaintNode ops p n).root.children = some ch)
    (hds : (updatePaintNode ops p n).marked = some ds) :
    (∀ l, ch.blocked l = !p.enabled l) ∧
    (ds.DirtySubtreeBlocked = true ↔
      ∃ l, ch.blocked l ≠ (startChildren ops n).blocked l) := by
  rw [updatePaintNode_source ops p n src h] at hch hds
  cases hch
  cases hds
  obtain ⟨b1, b2, b3⟩ := updateNodes_blocked ops p n src
  have hb : ∀ l, (nodesAfter ops p n src).blocked l = !p.enabled l := by
    intro l
    cases l
    · exact b1
    · exact b2
    · exact b3
  have htog : toggled (startCtx ops p n) = true ↔
      ((startChildren ops n).n_fill.m_blocked = p.m_fill ∨
        (startChildren ops n).n_line.m_blocked = p.m_line ∨
        (startChildren ops n).n_marker.m_blocked = p.m_marker) := by
    simp [toggled, startCtx, or_assoc]
  have hds : (updateNodes ops src (startCtx ops p n)).dirty_state.DirtySubtreeBlocked =
      toggled (startCtx ops p n) := by
    rw [updateNodes_dirty_state]
  refine ⟨hb, ?_⟩
  rw [hds, htog]
  change _ ↔ ∃ l, (nodesAfter ops p n src).blocked l ≠ (startChildren ops n).blocked l
  constructor
  · rintro (h1 | h2 | h3)
    · refine ⟨Layer.fill, ?_⟩
      rw [hb]
      simp only [XYPlot.enabled, Children.blocked, h1]
      cases p.m_fill <;> simp
    · refine ⟨Layer.line, ?_⟩
      rw [hb]
      simp only [XYPlot.enabled, Children.blocked, h2]
      cases p.m_line <;> simp
    · refine ⟨Layer.marker, ?_⟩
      rw [hb]
      simp only [XYPlot.enabled, Children.blocked, h3]
      cases p.m_marker <;> simp
  · rintro ⟨l, hl⟩
    rw [hb] at hl
    cases l
    · left
      simp only [XYPlot.enabled, Children.blocked] at hl
      revert hl
      cases p.m_fill <;> cases (startChildren ops n).n_fill.m_blocked <;> simp
    · right; left
      simp only [XYPlot.enabled, Children.blocked] at hl
      revert hl
      cases p.m_line <;> cases (startChildren ops n).n_line.m_blocked <;> simp
    · right; right
      simp only [XYPlot.enabled, Children.blocked] at hl
      revert hl
      cases p.m_marker <;> cases (startChildren ops n).n_marker.m_blocked <;> simp

end Claim14
section Claim14Example

/-- Witness of C14: the first frame of the example plot with the marker layer disabled
blocks the new marker node, leaves the fill node unblocked and marks
`DirtySubtreeBlocked`. -/
theorem blocked_is_not_enabled_witness :
    ∃ ch ds, (updatePaintNode Numerics.exact (examplePlot true true false false) none).root.children
        = some ch ∧
      (updatePaintNode Numerics.exact (examplePlot true true false false) none).marked = some ds ∧
      ch.blocked Layer.fill = false ∧ ch.blocked Layer.line = false ∧
      ch.blocked Layer.marker = true ∧ ds.DirtySubtreeBlocked = true := by
  have hm : (updatePaintNode Numerics.exact (examplePlot true true false false) none).marked =
      some (updateNodes Numerics.exact ⟨bufferOf [0, 1, 1, 10, 2, 100], 6, 1⟩
        (startCtx Numerics.exact (examplePlot true true false false) none)).dirty_state := by
    rw [updatePaintNode_source _ _ _ _ rfl]
  obtain ⟨hb, hd⟩ := blocked_is_not_enabled Numerics.exact (examplePlot true true false false)
    none ⟨bufferOf [0, 1, 1, 10, 2, 100], 6, 1⟩ _ _ rfl (frame_children _ _ _ _ rfl) hm
  refine ⟨_, _, frame_children _ _ _ _ rfl, hm, hb Layer.fill, hb Layer.line, hb Layer.marker, ?_⟩
  refine hd.2 ⟨Layer.marker, ?_⟩
  rw [hb Layer.marker]
  decide

end Claim14Example

section Claim15
variable {R : Type} [LinearOrderedField R] [FloorRing R]

/-- Within the first `4N` floats the fill builder's output does not depend on what the
storage held before. -/
theorem writeFill_indep (ops : Numerics R) (src d1 d2 : Nat → R) (N : Int) (k : Nat)
    (hk : (k : Int) < 2 * (2 * N)) :
    writeFill ops src N d1 k = writeFill ops src N d2 k := by
  have hi : ((k / 4 : Nat) : Int) < N := by omega
  obtain ⟨a0, a1, a2, a3⟩ := writeFill_apply ops src d1 N (k / 4) hi
  obtain ⟨b0, b1, b2, b3⟩ := writeFill_apply ops src d2 N (k / 4) hi
  have hmod : k % 4 = 0 ∨ k % 4 = 1 ∨ k % 4 = 2 ∨ k % 4 = 3 := by omega
  rcases hmod with h | h | h | h
  · have e : k = 4 * (k / 4) := by omega
    rw [e, a0, b0]
  · have e : k = 4 * (k / 4) + 1 := by omega
    rw [e, a1, b1]
  · have e : k = 4 * (k / 4) + 2 := by omega
    rw [e, a2, b2]
  · have e : k = 4 * (k / 4) + 3 := by omega
    rw [e, a3, b3]

/-- Within the first `2N` floats the line builder's output does not depend on what the
storage held before. -/
theorem writeLine_indep (ops : Numerics R) (logy : Bool) (src d1 d2 : Nat → R) (N : Int)
    (k : Nat) (hk : (k : Int) < 2 * N) :
    writeLine ops logy src N d1 k = writeLine ops logy src N d2 k := by
  rw [writeLine_apply, writeLine_apply, if_pos hk, if_pos hk]

/-- A layer rewritten by a frame update is fresh. -/
theorem rewritten_fresh (ops : Numerics R) (p : XYPlot R) (n : Option (QSGNode R))
    (src : DataSource R) (l : Layer) (hw : rewrites ops p n src l = true) :
    (nodesAfter ops p n src).Fresh ops p.m_logy src l := by
  have he : p.enabled l = true := by
    unfold rewrites at hw
    cases h : p.enabled l
    · rw [h] at hw; simp at hw
    · rfl
  refine ⟨nodesAfter_vertexCount ops p n src l he, fun k hk => ?_⟩
  cases l
  · have hd := updateNodes_fill_data ops p n src
    rw [if_pos hw] at hd
    simp only [nodesAfter, Children.vertexData, builderOutput, hd]
    exact writeFill_indep ops _ _ _ _ k hk
  · have hd := updateNodes_line_data ops p n src
    rw [if_pos hw] at hd
    simp only [nodesAfter, Children.vertexData, builderOutput, hd]
    exact writeLine_indep ops _ _ _ _ _ k hk
  · have hd := updateNodes_marker_data ops p n src
    rw [if_pos hw] at hd
    simp only [nodesAfter, Children.vertexData, builderOutput, hd, writeMarker_eq_writeLine]
    exact writeLine_indep ops _ _ _ _ _ k hk

/-- Nodes that start a frame update valid are the children of the root it is given. -/
theorem startChildren_valid (ops : Numerics R) (n : Option (QSGNode R)) (l : Layer)
    (hv : (startChildren ops n).dataValid l = true) :
    ∃ r, n = some r ∧ r.children = some (startChildren ops n) := by
  rcases n with _ | ⟨_ | ch⟩
  · cases l <;> simp [startChildren, ensureChildren, Children.dataValid, FillNode.new,
      LineNode.new, MarkerNode.new] at hv
  · cases l <;> simp [startChildren, ensureChildren, Children.dataValid, FillNode.new,
      LineNode.new, MarkerNode.new] at hv
  · exact ⟨_, rfl, rfl⟩

/-- Without a data source the returned root has no children. -/
theorem no_source_children (ops : Numerics R) (p : XYPlot R) (n : Option (QSGNode R))
    (h : p.m_source = none) : (updatePaintNode ops p n).root.children = none := by
  unfold updatePaintNode
  simp only [h]
  rcases n with _ | ⟨_ | ch⟩ <;> simp [QSGNode.childCount]

/-- After a frame update with a data source, every layer marked valid is fresh, provided
the layers that were valid before were fresh while no flag was raised. -/
theorem frame_valid_fresh (ops : Numerics R) (p : XYPlot R) (n : Option (QSGNode R))
    (src : DataSource R) (l : Layer)
    (hinv : p.m_new_data = false → p.m_new_source = false →
      (startChildren ops n).dataValid l = true → (startChildren ops n).Fresh ops p.m_logy src l)
    (hv : (nodesAfter ops p n src).dataValid l = true) :
    (nodesAfter ops p n src).Fresh ops p.m_logy src l := by
  cases hw : rewrites ops p n src l
  · have hval : (nodesAfter ops p n src).dataValid l =
        (p.enabled l || ((startChildren ops n).dataValid l && !invalidates ops p n src)) := by
      obtain ⟨v1, v2, v3⟩ := updateNodes_data_valid ops p n src
      cases l
      · exact v1
      · exact v2
      · exact v3
    rw [hval] at hv
    have hfacts : invalidates ops p n src = false ∧ (startChildren ops n).dataValid l = true := by
      unfold rewrites at hw
      revert hv hw
      cases p.enabled l <;> cases invalidates ops p n src <;>
        cases (startChildren ops n).dataValid l <;> simp
    obtain ⟨hi, hsv⟩ := hfacts
    have hflags : p.m_new_source = false ∧ p.m_new_data = false ∧
        reallocates ops p n src l = false := by
      have hi2 := hi
      unfold invalidates at hi2
      simp only [Bool.or_eq_false_iff] at hi2
      obtain ⟨⟨⟨⟨a, b⟩, c⟩, d⟩, e⟩ := hi2
      refine ⟨a, b, ?_⟩
      cases l
      · exact c
      · exact d
      · exact e
    obtain ⟨hns, hnd, hr⟩ := hflags
    obtain ⟨_, q2, q3⟩ := quiet_layer ops p n src l hr hi hw
    obtain ⟨f1, f2⟩ := hinv hnd hns hsv
    refine ⟨q2.trans f1, fun k hk => ?_⟩
    rw [q3]
    exact f2 k hk
  · exact rewritten_fresh ops p n src l hw

/-- The setters leave the data source and the new-source flag alone, and they change the
logarithmic-y setting only together with raising the new-data flag. -/
theorem setter_flags (ops : Numerics R) (p : XYPlot R) :
    ∀ q : XYPlot R,
      (q = p ∨ (∃ v, q = p.setViewRect ops v) ∨ (∃ v, q = p.setFillEnabled v) ∨
        (∃ v, q = p.setFillColor v) ∨ (∃ v, q = p.setLineEnabled v) ∨
        (∃ v, q = p.setLineWidth ops v) ∨ (∃ v, q = p.setLineColor v) ∨
        (∃ v, q = p.setMarkerEnabled v) ∨ (∃ v, q = p.setMarkerSegments v) ∨
        (∃ v, q = p.setMarkerSize ops v) ∨ (∃ v, q = p.setMarkerColor v) ∨
        (∃ v, q = p.setMarkerBorder v) ∨ (∃ v, q = p.setLogY v)) →
      q.m_source = p.m_source ∧ q.m_new_source = p.m_new_source ∧
        (q.m_new_data = false → p.m_new_data = false ∧ q.m_logy = p.m_logy) := by
  intro q hq
  rcases hq with h | ⟨v, h⟩ | ⟨v, h⟩ | ⟨v, h⟩ | ⟨v, h⟩ | ⟨v, h⟩ | ⟨v, h⟩ | ⟨v, h⟩ | ⟨v, h⟩ |
    ⟨v, h⟩ | ⟨v, h⟩ | ⟨v, h⟩ | ⟨v, h⟩
  · subst h; exact ⟨rfl, rfl, fun h => ⟨h, rfl⟩⟩
  · subst h; unfold XYPlot.setViewRect
    split_ifs <;> exact ⟨rfl, rfl, fun h => ⟨h, rfl⟩⟩
  · subst h; unfold XYPlot.setFillEnabled
    split_ifs <;> exact ⟨rfl, rfl, fun h => ⟨h, rfl⟩⟩
  · subst h; unfold XYPlot.setFillColor
    split_ifs <;> exact ⟨rfl, rfl, fun h => ⟨h, rfl⟩⟩
  · subst h; unfold XYPlot.setLineEnabled
    split_ifs <;> exact ⟨rfl, rfl, fun h => ⟨h, rfl⟩⟩
  · subst h; unfold XYPlot.setLineWidth
    split_ifs <;> exact ⟨rfl, rfl, fun h => ⟨h, rfl⟩⟩
  · subst h; unfold XYPlot.setLineColor
    split_ifs <;> exact ⟨rfl, rfl, fun h => ⟨h, rfl⟩⟩
  · subst h; unfold XYPlot.setMarkerEnabled
    split_ifs <;> exact ⟨rfl, rfl, fun h => ⟨h, rfl⟩⟩
  · subst h; unfold XYPlot.setMarkerSegments
    split_ifs <;> exact ⟨rfl, rfl, fun h => ⟨h, rfl⟩⟩
  · subst h; unfold XYPlot.setMarkerSize
    split_ifs <;> exact ⟨rfl, rfl, fun h => ⟨h, rfl⟩⟩
  · subst h; unfold XYPlot.setMarkerColor
    split_ifs <;> exact ⟨rfl, rfl, fun h => ⟨h, rfl⟩⟩
  · subst h; unfold XYPlot.setMarkerBorder
    split_ifs <;> exact ⟨rfl, rfl, fun h => ⟨h, rfl⟩⟩
  · subst h; unfold XYPlot.setLogY
    split_ifs
    · exact ⟨rfl, rfl, fun h => absurd h (by simp [XYPlot.update, XYPlot.emit])⟩
    · exact ⟨rfl, rfl, fun h => ⟨h, rfl⟩⟩

/-- The invariant survives a change of the plot that keeps the source and the new-source
flag and changes the logarithmic-y setting only with the new-data flag raised. -/
theorem Inv_of_plot (ops : Numerics R) (m : Item R) (q : XYPlot R) (hm : m.Inv ops)
    (h : q.m_source = m.plot.m_source ∧ q.m_new_source = m.plot.m_new_source ∧
      (q.m_new_data = false → m.plot.m_new_data = false ∧ q.m_logy = m.plot.m_logy)) :
    Item.Inv ops { m with plot := q } := by
  intro r ch src hr hch hs hst hnd hns l hv
  obtain ⟨h1, h2, h3⟩ := h
  obtain ⟨h4, h5⟩ := h3 hnd
  have := hm r ch src hr hch (h1 ▸ hs) hst h4 (h2 ▸ hns) l hv
  show ch.Fresh ops q.m_logy src l
  rw [h5]
  exact this

/-- Every event preserves the invariant. -/
theorem Inv_step (ops : Numerics R) (m : Item R) (e : Event R) (hm : m.Inv ops) :
    (m.step ops e).Inv ops := by
  cases e with
  | setViewRect v => exact Inv_of_plot ops m _ hm (setter_flags ops m.plot _ (by tauto))
  | setFillEnabled v => exact Inv_of_plot ops m _ hm (setter_flags ops m.plot _ (by tauto))
  | setFillColor v => exact Inv_of_plot ops m _ hm (setter_flags ops m.plot _ (by tauto))
  | setLineEnabled v => exact Inv_of_plot ops m _ hm (setter_flags ops m.plot _ (by tauto))
  | setLineWidth v => exact Inv_of_plot ops m _ hm (setter_flags ops m.plot _ (by tauto))
  | setLineColor v => exact Inv_of_plot ops m _ hm (setter_flags ops m.plot _ (by tauto))
  | setMarkerEnabled v => exact Inv_of_plot ops m _ hm (setter_flags ops m.plot _ (by tauto))
  | setMarkerSegments v => exact Inv_of_plot ops m _ hm (setter_flags ops m.plot _ (by tauto))
  | setMarkerSize v => exact Inv_of_plot ops m _ hm (setter_flags ops m.plot _ (by tauto))
  | setMarkerColor v => exact Inv_of_plot ops m _ hm (setter_flags ops m.plot _ (by tauto))
  | setMarkerBorder v => exact Inv_of_plot ops m _ hm (setter_flags ops m.plot _ (by tauto))
  | setLogY v => exact Inv_of_plot ops m _ hm (setter_flags ops m.plot _ (by tauto))
  | bufferChanged src2 =>
    intro r ch src hr hch hs hst
    simp [Item.step] at hst
  | sourceReplaced s =>
    intro r ch src hr hch hs hst
    simp [Item.step] at hst
  | newData =>
    intro r ch src hr hch hs hst hnd
    simp [Item.step, XYPlot.raiseNewData] at hnd
  | newSource =>
    intro r ch src hr hch hs hst hnd hns
    simp [Item.step, XYPlot.raiseNewSource] at hns
  | releaseRoot =>
    intro r ch src hr
    simp [Item.step] at hr
  | frame =>
    intro r ch src hr hch hs hst hnd hns l hv
    simp only [Item.step] at hr hch hs hst hnd hns hv ⊢
    cases hsrc : m.plot.m_source with
    | none =>
      have h0 := (no_source_children ops m.plot m.root hsrc)
      cases hr
      rw [h0] at hch
      cases hch
    | some src0 =>
      have hp : (updatePaintNode ops m.plot m.root).plot =
          { m.plot with m_new_source := false, m_new_data := false } := by
        rw [updatePaintNode_source ops _ _ src0 hsrc]
        exact updateNodes_plot ops _ _ src0
      rw [hp] at hs ⊢
      have hs2 : src0 = src := Option.some.inj (hsrc.symm.trans hs)
      subst hs2
      cases hr
      rw [frame_children ops _ _ src0 hsrc] at hch
      cases hch
      refine frame_valid_fresh ops m.plot m.root src0 l ?_ hv
      intro hnd0 hns0 hsv
      obtain ⟨r0, hr0, hch0⟩ := startChildren_valid ops m.root l hsv
      have hst0 : m.unannounced = false := by
        rw [hnd0, hns0] at hst
        simpa using hst
      exact hm r0 _ src0 hr0 hch0 hsrc hst0 hnd0 hns0 l hsv

/-- Every sequence of events preserves the invariant. -/
theorem Inv_run (ops : Numerics R) (es : List (Event R)) :
    ∀ m : Item R, m.Inv ops → (m.run ops es).Inv ops := by
  induction es with
  | nil => exact fun m hm => hm
  | cons e es ih => exact fun m hm => ih (m.step ops e) (Inv_step ops m e hm)

/-- A plot item before its first frame update satisfies the invariant. -/
theorem Inv_new (ops : Numerics R) (p : XYPlot R) : (Item.new p).Inv ops := by
  intro r ch src hr
  cases hr

theorem run_append_frame (ops : Numerics R) (m : Item R) (es : List (Event R)) :
    m.run ops (es ++ [Event.frame]) = (m.run ops es).step ops Event.frame := by
  simp [Item.run, List.foldl_append]

/-- The plot a frame update returns: the flags are cleared when there is a data source,
nothing changes when there is none. -/
theorem updatePaintNode_plot (ops : Numerics R) (p : XYPlot R) (n : Option (QSGNode R)) :
    (updatePaintNode ops p n).plot =
      if p.m_source.isSome then { p with m_new_source := false, m_new_data := false } else p := by
  cases hsrc : p.m_source with
  | none =>
    unfold updatePaintNode
    simp only [hsrc]
    rcases n with _ | ⟨_ | ch⟩ <;> simp [QSGNode.childCount]
  | some src =>
    rw [updatePaintNode_source ops _ _ src hsrc, updateNodes_plot]
    simp [hsrc]

/-- Claim C15: freshness invariant of the frame-update state machine. Take any sequence
`es` of setter calls, changes of the samples or of the data source, flag notifications,
releases of the node tree and frame updates, started on a plot item before its first frame
update, and let a further frame update follow it while a data source `src` is present and
every change since the last frame update that started with a raised flag has `m_new_data`
or `m_new_source` raised now. At the end of that frame update both flags are cleared, the
source and the logarithmic-y setting are the ones it started with, and every enabled layer
is marked valid, is not blocked, has the required vertex count, and every float of its
vertices is the one its builder writes for the samples of `src` and the logarithmic-y
setting: whatever happened to the layer earlier in `es`. -/
theorem freshness_invariant (ops : Numerics R) (p0 : XYPlot R) (es : List (Event R))
    (src : DataSource R)
    (hs : ((Item.new p0).run ops es).plot.m_source = some src)
    (hn : ((Item.new p0).run ops es).unannounced = true →
      (((Item.new p0).run ops es).plot.m_new_data ||
        ((Item.new p0).run ops es).plot.m_new_source) = true) :
    ((Item.new p0).run ops (es ++ [Event.frame])).plot.m_new_data = false ∧
    ((Item.new p0).run ops (es ++ [Event.frame])).plot.m_new_source = false ∧
    ((Item.new p0).run ops (es ++ [Event.frame])).plot.m_source = some src ∧
    ((Item.new p0).run ops (es ++ [Event.frame])).plot.m_logy =
      ((Item.new p0).run ops es).plot.m_logy ∧
    ∃ r ch, ((Item.new p0).run ops (es ++ [Event.frame])).root = some r ∧
      r.children = some ch ∧
      ∀ l, ((Item.new p0).run ops es).plot.enabled l = true →
        ch.dataValid l = true ∧ ch.blocked l = false ∧
        ch.vertexCount l = requiredCount (sampleCount src) l ∧
        ∀ k : Nat, (k : Int) < 2 * requiredCount (sampleCount src) l →
          ch.vertexData l k =
            builderOutput ops ((Item.new p0).run ops es).plot.m_logy src l k := by
  have hinv := Inv_step ops _ Event.frame (Inv_run ops es _ (Inv_new ops p0))
  rw [run_append_frame]
  generalize (Item.new p0).run ops es = m at hs hn hinv ⊢
  have hp : (m.step ops Event.frame).plot =
      { m.plot with m_new_source := false, m_new_data := false } := by
    show (updatePaintNode ops m.plot m.root).plot = _
    rw [updatePaintNode_source ops _ _ src hs]
    exact updateNodes_plot ops _ _ src
  have hst : (m.step ops Event.frame).unannounced = false := by
    show (m.unannounced && !(m.plot.m_new_data || m.plot.m_new_source)) = false
    revert hn
    cases m.unannounced <;> cases (m.plot.m_new_data || m.plot.m_new_source) <;> simp
  have hch : (updatePaintNode ops m.plot m.root).root.children =
      some (nodesAfter ops m.plot m.root src) := frame_children ops _ _ src hs
  refine ⟨by rw [hp], by rw [hp], by rw [hp]; exact hs, by rw [hp], _, _, rfl, hch, ?_⟩
  intro l hl
  have hv := nodesAfter_dataValid ops m.plot m.root src l hl
  have hb : (nodesAfter ops m.plot m.root src).blocked l = false := by
    obtain ⟨b1, b2, b3⟩ := updateNodes_blocked ops m.plot m.root src
    cases l
    · simp only [XYPlot.enabled] at hl
      simp only [nodesAfter, Children.blocked, b1, hl, Bool.not_true]
    · simp only [XYPlot.enabled] at hl
      simp only [nodesAfter, Children.blocked, b2, hl, Bool.not_true]
    · simp only [XYPlot.enabled] at hl
      simp only [nodesAfter, Children.blocked, b3, hl, Bool.not_true]
  have hf := hinv _ _ src rfl hch (by rw [hp]; exact hs) hst (by rw [hp]) (by rw [hp]) l hv
  rw [hp] at hf
  exact ⟨hv, hb, hf.1, hf.2⟩

end Claim15
section Claim15Example

/-- Witness for C15. A plot with the fill layer disabled is drawn; then the samples change
to `[(0,2),(1,20)]` (two samples instead of three), the change is announced, logarithmic y
is switched on and a second frame is drawn; only then the fill layer is enabled. The next
frame update starts with both flags cleared and still leaves the fill layer valid with the
four vertices `(0,0),(0,2),(1,0),(1,20)` of the new samples. -/
theorem freshness_invariant_witness :
    ∃ r ch, ((Item.new (examplePlot false true true false)).run Numerics.exact
        ([Event.frame, Event.bufferChanged ⟨bufferOf [0, 2, 1, 20], 4, 1⟩, Event.newData,
          Event.setLogY true, Event.frame, Event.setFillEnabled true]
          ++ [Event.frame])).root = some r ∧
      r.children = some ch ∧
      ch.dataValid Layer.fill = true ∧ ch.blocked Layer.fill = false ∧
      ch.vertexCount Layer.fill = 4 ∧
      (List.range 8).map (ch.vertexData Layer.fill) = [(0 : ℝ), 0, 0, 2, 1, 0, 1, 20] := by
  have hs : ((Item.new (examplePlot false true true false)).run Numerics.exact
      [Event.frame, Event.bufferChanged ⟨bufferOf [0, 2, 1, 20], 4, 1⟩, Event.newData,
        Event.setLogY true, Event.frame, Event.setFillEnabled true]).plot.m_source
      = some ⟨bufferOf [0, 2, 1, 20], 4, 1⟩ := by
    simp [Item.run, Item.step, Item.new, updatePaintNode_plot, XYPlot.setLogY,
      XYPlot.setFillEnabled, examplePlot, XYPlot.raiseNewData, XYPlot.emit, XYPlot.update]
  have hu : ((Item.new (examplePlot false true true false)).run Numerics.exact
      [Event.frame, Event.bufferChanged ⟨bufferOf [0, 2, 1, 20], 4, 1⟩, Event.newData,
        Event.setLogY true, Event.frame, Event.setFillEnabled true]).unannounced = false := by
    simp [Item.run, Item.step, Item.new, updatePaintNode_plot, XYPlot.setLogY,
      XYPlot.setFillEnabled, examplePlot, XYPlot.raiseNewData, XYPlot.emit, XYPlot.update]
  have he : ((Item.new (examplePlot false true true false)).run Numerics.exact
      [Event.frame, Event.bufferChanged ⟨bufferOf [0, 2, 1, 20], 4, 1⟩, Event.newData,
        Event.setLogY true, Event.frame, Event.setFillEnabled true]).plot.enabled Layer.fill
      = true := by
    simp [Item.run, Item.step, Item.new, updatePaintNode_plot, XYPlot.setLogY,
      XYPlot.setFillEnabled, examplePlot, XYPlot.raiseNewData, XYPlot.emit, XYPlot.update,
      XYPlot.enabled]
  obtain ⟨_, _, _, _, r, ch, hr, hch, hl⟩ := freshness_invariant Numerics.exact
    (examplePlot false true true false)
    [Event.frame, Event.bufferChanged ⟨bufferOf [0, 2, 1, 20], 4, 1⟩, Event.newData,
      Event.setLogY true, Event.frame, Event.setFillEnabled true]
    ⟨bufferOf [0, 2, 1, 20], 4, 1⟩ hs (fun h => absurd (hu.symm.trans h) (by decide))
  obtain ⟨hv, hb, hc, hd⟩ := hl Layer.fill he
  refine ⟨r, ch, hr, hch, hv, hb, hc.trans (by decide), ?_⟩
  have h0 := writeFill_apply Numerics.exact (bufferOf [0, 2, 1, 20])
    (fun _ => Numerics.exact.uninit) 2 0 (by decide)
  have h1 := writeFill_apply Numerics.exact (bufferOf [0, 2, 1, 20])
    (fun _ => Numerics.exact.uninit) 2 1 (by decide)
  have hk : ∀ k : Nat, k < 8 → ch.vertexData Layer.fill k =
      writeFill Numerics.exact (bufferOf [0, 2, 1, 20]) 2 (fun _ => Numerics.exact.uninit) k :=
    fun k hk => hd k (by
      have : requiredCount (sampleCount (⟨bufferOf [0, 2, 1, 20], 4, 1⟩ : DataSource ℝ))
          Layer.fill = 4 := by decide
      rw [this]; omega)
  simp only [List.range, List.range.loop, List.map]
  rw [hk 0 (by decide), hk 1 (by decide), hk 2 (by decide), hk 3 (by decide),
    hk 4 (by decide), hk 5 (by decide), hk 6 (by decide), hk 7 (by decide)]
  rw [h0.1, h0.2.1, h0.2.2.1, h0.2.2.2, h1.1, h1.2.1, h1.2.2.1, h1.2.2.2]
  simp [Numerics.exact, bufferOf]

end Claim15Example

end QmlPlotting
